import Mathlib

/-!
# XmlProfileParser: a shallow embedding

The profile loader of `XmlProfileParser.cpp` is embedded as pure functions over an
abstract view of the XML DOM.  Every parser routine `HRESULT f(node, T* out)` becomes a
function returning the `HRESULT` together with the new value of the out-parameter.
Undefined behaviour of the C++ code (the unchecked read of the three-entry `hint`
table) is modelled by the result `none`.
-/

namespace XmlProfileParser

/-! ## HRESULT -/

/-- The result codes the parser handles.  `S_OK` and `S_FALSE` are the two success
codes; the others are failures. -/
inductive HRESULT where
  | S_OK
  | S_FALSE
  | E_FAIL
  | E_INVALIDARG
  | ERROR_INVALID_DATA
  deriving DecidableEq, Repr

/-- The `SUCCEEDED(hr)` test: true for the non-negative codes `S_OK` and `S_FALSE`. -/
def SUCCEEDED : HRESULT → Bool
  | .S_OK => true
  | .S_FALSE => true
  | _ => false

/-- The recurring guard `SUCCEEDED(hr) && (hr != S_FALSE)`: a value was read. -/
def present (hr : HRESULT) : Bool := SUCCEEDED hr && (hr != HRESULT.S_FALSE)

/-! ## The document tree -/

/-- An element of the loaded document as the parser sees it through the DOM interface:
its tag name, its attributes (name, text), the string `get_text` returns for it, and its
child elements in document order. -/
inductive Node where
  | mk (name : String) (attrs : List (String × String)) (text : String)
      (children : List Node)
  deriving Repr

namespace Node

/-- Tag name of an element. -/
def name : Node → String
  | mk n _ _ _ => n

/-- Attribute list of an element. -/
def attrs : Node → List (String × String)
  | mk _ a _ _ => a

/-- What `get_text` returns for an element. -/
def text : Node → String
  | mk _ _ t _ => t

/-- Child elements in document order. -/
def children : Node → List Node
  | mk _ _ _ c => c

end Node

/-- The query strings handed to `selectNodes` / `selectSingleNode`: `rel ["A", "B"]`
stands for the relative query `"A/B"`, `abs ["Profile", "X"]` for `"//Profile/X"`. -/
inductive XPath where
  | rel (steps : List String)
  | abs (steps : List String)
  deriving Repr

/-- Relative location path: follow the child steps from the context node. The result is
in document order. -/
def selectRel : List String → Node → List Node
  | [], n => [n]
  | s :: rest, n =>
    ((n.children.filter (fun c => decide (c.name = s))).map (selectRel rest)).flatten

mutual
/-- Elements of the subtree of a node, in document order, whose own name and ancestor
names end with the steps of an `//a/b/c` query (given reversed, as `rsteps`);
`anc` holds the names of the ancestors, nearest first. -/
def selectAbsAux (rsteps : List String) (anc : List String) : Node → List Node
  | .mk n a t cs =>
    (if (n :: anc).take rsteps.length = rsteps then [Node.mk n a t cs] else [])
      ++ selectAbsList rsteps (n :: anc) cs
/-- The same over a list of sibling elements. -/
def selectAbsList (rsteps : List String) (anc : List String) : List Node → List Node
  | [] => []
  | c :: cs => selectAbsAux rsteps anc c ++ selectAbsList rsteps anc cs
end

/-- The call `selectNodes(query)`: the matching elements in document order. For an absolute
query the context node is the document, represented by its root element. -/
def selectNodes (ctx : Node) : XPath → List Node
  | .rel steps => selectRel steps ctx
  | .abs steps => selectAbsAux steps.reverse [] ctx

/-- The call `selectSingleNode(query)`: the first matching element, or `none` when the
call returns `S_FALSE`. -/
def selectSingleNode (ctx : Node) (q : XPath) : Option Node :=
  (selectNodes ctx q).head?

/-- The call `getNamedItem(attr)` on the attribute map of an element: the text of the
attribute, or `none` when the call returns `S_FALSE`. -/
def getNamedItem (n : Node) (attr : String) : Option String :=
  (n.attrs.find? (fun a => decide (a.1 = attr))).map (fun a => a.2)

/-! ## C runtime and Win32 helpers

These library routines are not part of the parser's sources; they are modelled from their
documented behaviour, restricted to ASCII white space and ASCII digits. -/

/-- White space skipped in front of a number. -/
def isSpace (c : Char) : Bool := c.toNat = 32 || (9 ≤ c.toNat && c.toNat ≤ 13)

/-- Decimal digit test. -/
def isDigit (c : Char) : Bool := 48 ≤ c.toNat && c.toNat ≤ 57

/-- Value of the leading run of decimal digits, continuing from the accumulator. -/
def digitsValue : List Char → Nat → Nat
  | [], acc => acc
  | c :: cs, acc => if isDigit c then digitsValue cs (acc * 10 + (c.toNat - 48)) else acc

/-- Optional sign followed by digits; conversion stops at the first other character. -/
def signedValue : List Char → Int
  | [] => 0
  | c :: cs =>
    if c = '-' then -(digitsValue cs 0 : Int)
    else if c = '+' then (digitsValue cs 0 : Int)
    else (digitsValue (c :: cs) 0 : Int)

/-- The mathematical value the integer parsers read from a string (0 when there is no
number). -/
def parseInteger (s : String) : Int := signedValue (s.toList.dropWhile isSpace)

/-- Saturation of an out-of-range result at the bounds of the return type. -/
def clamp (lo hi x : Int) : Int := if x < lo then lo else if hi < x then hi else x

/-- The routine `_wtoi`: returns an `int`, `INT_MAX` / `INT_MIN` on overflow. -/
def _wtoi (s : String) : Int := clamp (-(2 ^ 31)) (2 ^ 31 - 1) (parseInteger s)

/-- The routine `_wtoi64`: returns an `__int64`, `_I64_MAX` / `_I64_MIN` on overflow. -/
def _wtoi64 (s : String) : Int := clamp (-(2 ^ 63)) (2 ^ 63 - 1) (parseInteger s)

/-- Conversion of a signed result to `UINT32`. -/
def toUINT32 (x : Int) : Nat := (x % 2 ^ 32).toNat

/-- Conversion of a signed result to `UINT64`. -/
def toUINT64 (x : Int) : Nat := (x % 2 ^ 64).toNat

/-- The cast `(BYTE)`. -/
def toBYTE (x : Int) : Nat := (x % 256).toNat

/-- The cast `(WORD)`. -/
def toWORD (x : Int) : Nat := (x % 65536).toNat

/-- The constant `MAXBYTE`. -/
def MAXBYTE : Nat := 255

/-- The constant `MAXWORD`. -/
def MAXWORD : Nat := 65535

/-- The constant `MAX_PATH`. -/
def MAX_PATH : Nat := 260

/-- Lower-casing of the letters `A`..`Z`, as `_wcsicmp` does before comparing. -/
def lowerChar (c : Char) : Char :=
  if 65 ≤ c.toNat && c.toNat ≤ 90 then Char.ofNat (c.toNat + 32) else c

/-- The test `_wcsicmp(a, b) == 0`. -/
def wcsicmpEq (a b : String) : Bool :=
  decide (a.toList.map lowerChar = b.toList.map lowerChar)

/-- Number of bytes of the UTF-8 encoding of a character sequence. -/
def utf8Length : List Char → Nat
  | [] => 0
  | c :: cs => c.utf8Size + utf8Length cs

/-- Longest prefix of whole characters whose UTF-8 encoding fits in `cb` bytes. -/
def takeFitting : List Char → Nat → List Char
  | [], _ => []
  | c :: cs, cb => if c.utf8Size ≤ cb then c :: takeFitting cs (cb - c.utf8Size) else []

/-- The conversion `WideCharToMultiByte(CP_UTF8, 0, text, wcslen(text), path, cb, 0, 0)`
into a zero-filled buffer followed by `string(path)`. A `std::string` holding UTF-8 bytes
is identified with the text it encodes. The characters up to the first NUL are
converted; when their encoding needs more than `cb` bytes the call fails and the buffer
keeps the characters that fit. -/
def WideCharToMultiByte (text : String) (cb : Nat) : String :=
  String.mk (takeFitting (text.toList.takeWhile (fun c => c.toNat ≠ 0)) cb)

/-! ## The data model

The classes `Profile`, `TimeSpan` and `Target` live in a header that is not among the
sources at hand; they are modelled from the data model of the specification, with one
field per setter the parser calls. -/

/-- Modelled from the spec: the enumeration `ResultsFormat` of the header. -/
inductive ResultsFormat where
  | Text
  | Xml
  deriving DecidableEq, Repr

/-- Modelled from the spec: the enumeration `PrecreateFiles` of the header. -/
inductive PrecreateFiles where
  | None
  | UseMaxSize
  | OnlyFilesWithConstantSizes
  | OnlyFilesWithConstantOrZeroSizes
  deriving DecidableEq, Repr

/-- Modelled from the spec: the enumeration `TargetCacheMode` of the header. -/
inductive TargetCacheMode where
  | Default
  | DisableOSCache
  | DisableAllCache
  | DisableLocalCache
  deriving DecidableEq, Repr

/-- The system enumeration `PRIORITY_HINT`, restricted to the three values the parser
names. -/
inductive PRIORITY_HINT where
  | IoPriorityHintVeryLow
  | IoPriorityHintLow
  | IoPriorityHintNormal
  deriving DecidableEq, Repr

/-- Modelled from the spec: the class `Target` of the header: one workload target. -/
structure Target where
  path : String
  blockSizeInBytes : Nat
  blockAlignmentInBytes : Nat
  useInterlockedSequential : Bool
  baseFileOffsetInBytes : Nat
  sequentialScanHint : Bool
  randomAccessHint : Bool
  temporaryFileHint : Bool
  useLargePages : Bool
  requestCount : Nat
  useRandomAccessPattern : Bool
  cacheMode : TargetCacheMode
  zeroWriteBuffers : Bool
  randomDataWriteBufferSize : Nat
  randomDataWriteBufferSourcePath : String
  burstSize : Nat
  useBurstSize : Bool
  thinkTime : Nat
  enableThinkTime : Bool
  throughput : Nat
  threadsPerFile : Nat
  fileSize : Nat
  createFile : Bool
  maxFileSize : Nat
  writeRatio : Nat
  useParallelAsyncIO : Bool
  threadStrideInBytes : Nat
  ioPriorityHint : PRIORITY_HINT
  deriving DecidableEq, Repr

namespace Target

/-- Modelled from the spec: the setter `SetPath` of the header class stores its argument in `path`. -/
def SetPath (t : Target) (v : String) : Target := { t with path := v }

/-- Modelled from the spec: the setter `SetBlockSizeInBytes` of the header class stores its argument in `blockSizeInBytes`. -/
def SetBlockSizeInBytes (t : Target) (v : Nat) : Target := { t with blockSizeInBytes := v }

/-- Modelled from the spec: the setter `SetBlockAlignmentInBytes` of the header class stores its argument in `blockAlignmentInBytes`. -/
def SetBlockAlignmentInBytes (t : Target) (v : Nat) : Target := { t with blockAlignmentInBytes := v }

/-- Modelled from the spec: the setter `SetUseInterlockedSequential` of the header class stores its argument in `useInterlockedSequential`. -/
def SetUseInterlockedSequential (t : Target) (v : Bool) : Target := { t with useInterlockedSequential := v }

/-- Modelled from the spec: the setter `SetBaseFileOffsetInBytes` of the header class stores its argument in `baseFileOffsetInBytes`. -/
def SetBaseFileOffsetInBytes (t : Target) (v : Nat) : Target := { t with baseFileOffsetInBytes := v }

/-- Modelled from the spec: the setter `SetSequentialScanHint` of the header class stores its argument in `sequentialScanHint`. -/
def SetSequentialScanHint (t : Target) (v : Bool) : Target := { t with sequentialScanHint := v }

/-- Modelled from the spec: the setter `SetRandomAccessHint` of the header class stores its argument in `randomAccessHint`. -/
def SetRandomAccessHint (t : Target) (v : Bool) : Target := { t with randomAccessHint := v }

/-- Modelled from the spec: the setter `SetTemporaryFileHint` of the header class stores its argument in `temporaryFileHint`. -/
def SetTemporaryFileHint (t : Target) (v : Bool) : Target := { t with temporaryFileHint := v }

/-- Modelled from the spec: the setter `SetUseLargePages` of the header class stores its argument in `useLargePages`. -/
def SetUseLargePages (t : Target) (v : Bool) : Target := { t with useLargePages := v }

/-- Modelled from the spec: the setter `SetRequestCount` of the header class stores its argument in `requestCount`. -/
def SetRequestCount (t : Target) (v : Nat) : Target := { t with requestCount := v }

/-- Modelled from the spec: the setter `SetUseRandomAccessPattern` of the header class stores its argument in `useRandomAccessPattern`. -/
def SetUseRandomAccessPattern (t : Target) (v : Bool) : Target := { t with useRandomAccessPattern := v }

/-- Modelled from the spec: the setter `SetCacheMode` of the header class stores its argument in `cacheMode`. -/
def SetCacheMode (t : Target) (v : TargetCacheMode) : Target := { t with cacheMode := v }

/-- Modelled from the spec: the setter `SetZeroWriteBuffers` of the header class stores its argument in `zeroWriteBuffers`. -/
def SetZeroWriteBuffers (t : Target) (v : Bool) : Target := { t with zeroWriteBuffers := v }

/-- Modelled from the spec: the setter `SetRandomDataWriteBufferSize` of the header class stores its argument in `randomDataWriteBufferSize`. -/
def SetRandomDataWriteBufferSize (t : Target) (v : Nat) : Target := { t with randomDataWriteBufferSize := v }

/-- Modelled from the spec: the setter `SetRandomDataWriteBufferSourcePath` of the header class stores its argument in `randomDataWriteBufferSourcePath`. -/
def SetRandomDataWriteBufferSourcePath (t : Target) (v : String) : Target := { t with randomDataWriteBufferSourcePath := v }

/-- Modelled from the spec: the setter `SetBurstSize` of the header class stores its argument in `burstSize`. -/
def SetBurstSize (t : Target) (v : Nat) : Target := { t with burstSize := v }

/-- Modelled from the spec: the setter `SetUseBurstSize` of the header class stores its argument in `useBurstSize`. -/
def SetUseBurstSize (t : Target) (v : Bool) : Target := { t with useBurstSize := v }

/-- Modelled from the spec: the setter `SetThinkTime` of the header class stores its argument in `thinkTime`. -/
def SetThinkTime (t : Target) (v : Nat) : Target := { t with thinkTime := v }

/-- Modelled from the spec: the setter `SetEnableThinkTime` of the header class stores its argument in `enableThinkTime`. -/
def SetEnableThinkTime (t : Target) (v : Bool) : Target := { t with enableThinkTime := v }

/-- Modelled from the spec: the setter `SetThroughput` of the header class stores its argument in `throughput`. -/
def SetThroughput (t : Target) (v : Nat) : Target := { t with throughput := v }

/-- Modelled from the spec: the setter `SetThreadsPerFile` of the header class stores its argument in `threadsPerFile`. -/
def SetThreadsPerFile (t : Target) (v : Nat) : Target := { t with threadsPerFile := v }

/-- Modelled from the spec: the setter `SetFileSize` of the header class stores its argument in `fileSize`. -/
def SetFileSize (t : Target) (v : Nat) : Target := { t with fileSize := v }

/-- Modelled from the spec: the setter `SetCreateFile` of the header class stores its argument in `createFile`. -/
def SetCreateFile (t : Target) (v : Bool) : Target := { t with createFile := v }

/-- Modelled from the spec: the setter `SetMaxFileSize` of the header class stores its argument in `maxFileSize`. -/
def SetMaxFileSize (t : Target) (v : Nat) : Target := { t with maxFileSize := v }

/-- Modelled from the spec: the setter `SetWriteRatio` of the header class stores its argument in `writeRatio`. -/
def SetWriteRatio (t : Target) (v : Nat) : Target := { t with writeRatio := v }

/-- Modelled from the spec: the setter `SetUseParallelAsyncIO` of the header class stores its argument in `useParallelAsyncIO`. -/
def SetUseParallelAsyncIO (t : Target) (v : Bool) : Target := { t with useParallelAsyncIO := v }

/-- Modelled from the spec: the setter `SetThreadStrideInBytes` of the header class stores its argument in `threadStrideInBytes`. -/
def SetThreadStrideInBytes (t : Target) (v : Nat) : Target := { t with threadStrideInBytes := v }

/-- Modelled from the spec: the setter `SetIOPriorityHint` of the header class stores its argument in `ioPriorityHint`. -/
def SetIOPriorityHint (t : Target) (v : PRIORITY_HINT) : Target := { t with ioPriorityHint := v }

end Target

/-- Modelled from the spec: the class `TimeSpan` of the header: one measurement window; `affinity` holds the (group, processor) pairs. -/
structure TimeSpan where
  duration : Nat
  warmup : Nat
  cooldown : Nat
  randSeed : Nat
  threadCount : Nat
  disableAffinity : Bool
  completionRoutines : Bool
  measureLatency : Bool
  calculateIopsStdDev : Bool
  ioBucketDurationInMilliseconds : Nat
  affinity : List (Nat × Nat)
  targets : List Target
  deriving DecidableEq, Repr

namespace TimeSpan

/-- Modelled from the spec: the setter `SetDuration` of the header class stores its argument in `duration`. -/
def SetDuration (ts : TimeSpan) (v : Nat) : TimeSpan := { ts with duration := v }

/-- Modelled from the spec: the setter `SetWarmup` of the header class stores its argument in `warmup`. -/
def SetWarmup (ts : TimeSpan) (v : Nat) : TimeSpan := { ts with warmup := v }

/-- Modelled from the spec: the setter `SetCooldown` of the header class stores its argument in `cooldown`. -/
def SetCooldown (ts : TimeSpan) (v : Nat) : TimeSpan := { ts with cooldown := v }

/-- Modelled from the spec: the setter `SetRandSeed` of the header class stores its argument in `randSeed`. -/
def SetRandSeed (ts : TimeSpan) (v : Nat) : TimeSpan := { ts with randSeed := v }

/-- Modelled from the spec: the setter `SetThreadCount` of the header class stores its argument in `threadCount`. -/
def SetThreadCount (ts : TimeSpan) (v : Nat) : TimeSpan := { ts with threadCount := v }

/-- Modelled from the spec: the setter `SetDisableAffinity` of the header class stores its argument in `disableAffinity`. -/
def SetDisableAffinity (ts : TimeSpan) (v : Bool) : TimeSpan := { ts with disableAffinity := v }

/-- Modelled from the spec: the setter `SetCompletionRoutines` of the header class stores its argument in `completionRoutines`. -/
def SetCompletionRoutines (ts : TimeSpan) (v : Bool) : TimeSpan := { ts with completionRoutines := v }

/-- Modelled from the spec: the setter `SetMeasureLatency` of the header class stores its argument in `measureLatency`. -/
def SetMeasureLatency (ts : TimeSpan) (v : Bool) : TimeSpan := { ts with measureLatency := v }

/-- Modelled from the spec: the setter `SetCalculateIopsStdDev` of the header class stores its argument in `calculateIopsStdDev`. -/
def SetCalculateIopsStdDev (ts : TimeSpan) (v : Bool) : TimeSpan := { ts with calculateIopsStdDev := v }

/-- Modelled from the spec: the setter `SetIoBucketDurationInMilliseconds` of the header class stores its argument in `ioBucketDurationInMilliseconds`. -/
def SetIoBucketDurationInMilliseconds (ts : TimeSpan) (v : Nat) : TimeSpan := { ts with ioBucketDurationInMilliseconds := v }

/-- Modelled from the spec: `AddAffinityAssignment` appends one (group, processor) pair. -/
def AddAffinityAssignment (ts : TimeSpan) (wGroup bProc : Nat) : TimeSpan :=
  { ts with affinity := ts.affinity ++ [(wGroup, bProc)] }

/-- Modelled from the spec: `AddTarget` appends one target. -/
def AddTarget (ts : TimeSpan) (target : Target) : TimeSpan :=
  { ts with targets := ts.targets ++ [target] }

end TimeSpan

/-- Modelled from the spec: the ETW block of a profile, `enabled` plus the twelve
independent flags. -/
structure EtwBlock where
  enabled : Bool
  process : Bool
  thread : Bool
  imageLoad : Bool
  diskIO : Bool
  memoryPageFaults : Bool
  memoryHardFaults : Bool
  network : Bool
  registry : Bool
  usePagedMemory : Bool
  usePerfTimer : Bool
  useSystemTimer : Bool
  useCyclesCounter : Bool
  deriving DecidableEq, Repr

/-- Modelled from the spec: the class `Profile` of the header, the root value. -/
structure Profile where
  verbose : Bool
  progress : Nat
  resultsFormat : ResultsFormat
  precreateFiles : PrecreateFiles
  etw : EtwBlock
  timeSpans : List TimeSpan
  deriving DecidableEq, Repr

namespace Profile

/-- Modelled from the spec: the setter `SetVerbose` of the header class stores its argument in `verbose`. -/
def SetVerbose (p : Profile) (v : Bool) : Profile := { p with verbose := v }

/-- Modelled from the spec: the setter `SetProgress` of the header class stores its argument in `progress`. -/
def SetProgress (p : Profile) (v : Nat) : Profile := { p with progress := v }

/-- Modelled from the spec: the setter `SetResultsFormat` of the header class stores its argument in `resultsFormat`. -/
def SetResultsFormat (p : Profile) (v : ResultsFormat) : Profile := { p with resultsFormat := v }

/-- Modelled from the spec: the setter `SetPrecreateFiles` of the header class stores its argument in `precreateFiles`. -/
def SetPrecreateFiles (p : Profile) (v : PrecreateFiles) : Profile := { p with precreateFiles := v }

/-- Modelled from the spec: the setter `SetEtwEnabled` of the header class stores its argument in `etw.enabled`. -/
def SetEtwEnabled (p : Profile) (v : Bool) : Profile :=
  { p with etw := { p.etw with enabled := v } }

/-- Modelled from the spec: the setter `SetEtwProcess` of the header class stores its argument in `etw.process`. -/
def SetEtwProcess (p : Profile) (v : Bool) : Profile :=
  { p with etw := { p.etw with process := v } }

/-- Modelled from the spec: the setter `SetEtwThread` of the header class stores its argument in `etw.thread`. -/
def SetEtwThread (p : Profile) (v : Bool) : Profile :=
  { p with etw := { p.etw with thread := v } }

/-- Modelled from the spec: the setter `SetEtwImageLoad` of the header class stores its argument in `etw.imageLoad`. -/
def SetEtwImageLoad (p : Profile) (v : Bool) : Profile :=
  { p with etw := { p.etw with imageLoad := v } }

/-- Modelled from the spec: the setter `SetEtwDiskIO` of the header class stores its argument in `etw.diskIO`. -/
def SetEtwDiskIO (p : Profile) (v : Bool) : Profile :=
  { p with etw := { p.etw with diskIO := v } }

/-- Modelled from the spec: the setter `SetEtwMemoryPageFaults` of the header class stores its argument in `etw.memoryPageFaults`. -/
def SetEtwMemoryPageFaults (p : Profile) (v : Bool) : Profile :=
  { p with etw := { p.etw with memoryPageFaults := v } }

/-- Modelled from the spec: the setter `SetEtwMemoryHardFaults` of the header class stores its argument in `etw.memoryHardFaults`. -/
def SetEtwMemoryHardFaults (p : Profile) (v : Bool) : Profile :=
  { p with etw := { p.etw with memoryHardFaults := v } }

/-- Modelled from the spec: the setter `SetEtwNetwork` of the header class stores its argument in `etw.network`. -/
def SetEtwNetwork (p : Profile) (v : Bool) : Profile :=
  { p with etw := { p.etw with network := v } }

/-- Modelled from the spec: the setter `SetEtwRegistry` of the header class stores its argument in `etw.registry`. -/
def SetEtwRegistry (p : Profile) (v : Bool) : Profile :=
  { p with etw := { p.etw with registry := v } }

/-- Modelled from the spec: the setter `SetEtwUsePagedMemory` of the header class stores its argument in `etw.usePagedMemory`. -/
def SetEtwUsePagedMemory (p : Profile) (v : Bool) : Profile :=
  { p with etw := { p.etw with usePagedMemory := v } }

/-- Modelled from the spec: the setter `SetEtwUsePerfTimer` of the header class stores its argument in `etw.usePerfTimer`. -/
def SetEtwUsePerfTimer (p : Profile) (v : Bool) : Profile :=
  { p with etw := { p.etw with usePerfTimer := v } }

/-- Modelled from the spec: the setter `SetEtwUseSystemTimer` of the header class stores its argument in `etw.useSystemTimer`. -/
def SetEtwUseSystemTimer (p : Profile) (v : Bool) : Profile :=
  { p with etw := { p.etw with useSystemTimer := v } }

/-- Modelled from the spec: the setter `SetEtwUseCyclesCounter` of the header class stores its argument in `etw.useCyclesCounter`. -/
def SetEtwUseCyclesCounter (p : Profile) (v : Bool) : Profile :=
  { p with etw := { p.etw with useCyclesCounter := v } }

/-- Modelled from the spec: `AddTimeSpan` appends one time span. -/
def AddTimeSpan (p : Profile) (timeSpan : TimeSpan) : Profile :=
  { p with timeSpans := p.timeSpans ++ [timeSpan] }

end Profile

/-! ## Scalar readers

Each reader returns the `HRESULT` and the value of its out-parameter after the call; the
third argument is the value the out-parameter held before the call. In the model the DOM
calls themselves never fail: `selectSingleNode` answers `S_OK` or `S_FALSE`, `get_text`
answers `S_OK`. -/

/-- The reader `_GetUINT32`: the text of the selected element through `_wtoi`. -/
def _GetUINT32 (XmlNode : Node) (pszQuery : XPath) (pulValue : Nat) : HRESULT × Nat :=
  match selectSingleNode XmlNode pszQuery with
  | some spNode => (HRESULT.S_OK, toUINT32 (_wtoi spNode.text))
  | none => (HRESULT.S_FALSE, pulValue)

/-- The reader `_GetUINT32Attr`. The `HRESULT hr` declared inside the outer block hides
the outer `hr`, so the code returned is the one of `get_attributes` (`S_OK` for an
element) whether or not the attribute exists. -/
def _GetUINT32Attr (XmlNode : Node) (pszAttr : String) (pulValue : Nat) : HRESULT × Nat :=
  let hr := HRESULT.S_OK
  if present hr then
    match getNamedItem XmlNode pszAttr with
    | some bstrText => (hr, toUINT32 (_wtoi bstrText))
    | none => (hr, pulValue)
  else (hr, pulValue)

/-- The reader `_GetString`: the text of the selected element converted into a buffer of
`MAX_PATH` bytes, of which `sizeof(path)-1` may be written. -/
def _GetString (XmlNode : Node) (pszQuery : XPath) (psValue : String) : HRESULT × String :=
  match selectSingleNode XmlNode pszQuery with
  | some spNode => (HRESULT.S_OK, WideCharToMultiByte spNode.text (MAX_PATH - 1))
  | none => (HRESULT.S_FALSE, psValue)

/-- The reader `_GetUINT64`: the text of the selected element through `_wtoi64`. -/
def _GetUINT64 (XmlNode : Node) (pszQuery : XPath) (pullValue : Nat) : HRESULT × Nat :=
  match selectSingleNode XmlNode pszQuery with
  | some spNode => (HRESULT.S_OK, toUINT64 (_wtoi64 spNode.text))
  | none => (HRESULT.S_FALSE, pullValue)

/-- The reader `_GetDWORD`: `_GetUINT32` into a local initialised to 0, copied out on
success. -/
def _GetDWORD (XmlNode : Node) (pszQuery : XPath) (pdwValue : Nat) : HRESULT × Nat :=
  let r := _GetUINT32 XmlNode pszQuery 0
  if SUCCEEDED r.1 then (r.1, r.2) else (r.1, pdwValue)

/-- The reader `_GetBool`: true exactly when the text compares equal to `true` without
regard to case. -/
def _GetBool (XmlNode : Node) (pszQuery : XPath) (pfValue : Bool) : HRESULT × Bool :=
  match selectSingleNode XmlNode pszQuery with
  | some spNode => (HRESULT.S_OK, wcsicmpEq "true" spNode.text)
  | none => (HRESULT.S_FALSE, pfValue)

/-- The reader `_GetVerbose`. -/
def _GetVerbose (pXmlDoc : Node) (pfVerbose : Bool) : HRESULT × Bool :=
  _GetBool pXmlDoc (.abs ["Profile", "Verbose"]) pfVerbose

/-- The reader `_GetProgress`. -/
def _GetProgress (pXmlDoc : Node) (pdwProgress : Nat) : HRESULT × Nat :=
  _GetDWORD pXmlDoc (.abs ["Profile", "Progress"]) pdwProgress

/-! ## Control-flow shapes of the parser -/

/-- The block `if (SUCCEEDED(hr)) { hr = f(...); }`: run the next step only while the code
so far is a success. -/
def guarded {σ : Type} (f : σ → HRESULT × σ) (st : HRESULT × σ) : HRESULT × σ :=
  if SUCCEEDED st.1 then f st.2 else st

/-- The body `hr = _GetX(node, query, &v); if (SUCCEEDED(hr) && (hr != S_FALSE)) { set(v); }`
applied to the reader's result `r`. -/
def readField {σ α : Type} (r : HRESULT × α) (set : σ → α → σ) (s : σ) : HRESULT × σ :=
  (r.1, if present r.1 then set s r.2 else s)

/-! ## Target -/

/-- The routine `_ParseRandomDataSource`. -/
def _ParseRandomDataSource (XmlNode : Node) (pTarget : Target) : HRESULT × Target :=
  match selectNodes XmlNode (.rel ["RandomDataSource"]) with
  | [spNode] =>
    let r := _GetUINT64 spNode (.rel ["SizeInBytes"]) 0
    if present r.1 then
      let t := pTarget.SetRandomDataWriteBufferSize r.2
      let sp := _GetString spNode (.rel ["FilePath"]) ""
      (sp.1, if present sp.1 then t.SetRandomDataWriteBufferSourcePath sp.2 else t)
    else (r.1, pTarget)
  | _ => (HRESULT.S_OK, pTarget)

/-- The routine `_ParseWriteBufferContent`. -/
def _ParseWriteBufferContent (XmlNode : Node) (pTarget : Target) : HRESULT × Target :=
  match selectNodes XmlNode (.rel ["WriteBufferContent"]) with
  | [spNode] =>
    let r := _GetString spNode (.rel ["Pattern"]) ""
    if present r.1 then
      if r.2 = "sequential" then (r.1, pTarget)
      else if r.2 = "zero" then (r.1, pTarget.SetZeroWriteBuffers true)
      else if r.2 = "random" then _ParseRandomDataSource spNode pTarget
      else (HRESULT.E_INVALIDARG, pTarget)
    else (r.1, pTarget)
  | _ => (HRESULT.S_OK, pTarget)

/-- The steps of `_ParseTarget` from `Path` to `RequestCount`. -/
def parseTargetHead (XmlNode : Node) (pTarget : Target) : HRESULT × Target :=
  readField (_GetString XmlNode (.rel ["Path"]) "") Target.SetPath pTarget
  |> guarded (readField (_GetDWORD XmlNode (.rel ["BlockSize"]) 0) Target.SetBlockSizeInBytes)
  |> guarded (readField (_GetUINT64 XmlNode (.rel ["StrideSize"]) 0)
      Target.SetBlockAlignmentInBytes)
  |> guarded (readField (_GetBool XmlNode (.rel ["InterlockedSequential"]) false)
      Target.SetUseInterlockedSequential)
  |> guarded (readField (_GetUINT64 XmlNode (.rel ["BaseFileOffset"]) 0)
      Target.SetBaseFileOffsetInBytes)
  |> guarded (readField (_GetBool XmlNode (.rel ["SequentialScan"]) false)
      Target.SetSequentialScanHint)
  |> guarded (readField (_GetBool XmlNode (.rel ["RandomAccess"]) false)
      Target.SetRandomAccessHint)
  |> guarded (readField (_GetBool XmlNode (.rel ["TemporaryFile"]) false)
      Target.SetTemporaryFileHint)
  |> guarded (readField (_GetBool XmlNode (.rel ["UseLargePages"]) false)
      Target.SetUseLargePages)
  |> guarded (readField (_GetDWORD XmlNode (.rel ["RequestCount"]) 0) Target.SetRequestCount)

/-- The steps of `_ParseTarget` from `Random` to `DisableLocalCache`. -/
def parseTargetAccess (XmlNode : Node) (st : HRESULT × Target) : HRESULT × Target :=
  st
  |> guarded (readField (_GetUINT64 XmlNode (.rel ["Random"]) 0)
      (fun t ullRandom => (t.SetUseRandomAccessPattern true).SetBlockAlignmentInBytes ullRandom))
  |> guarded (readField (_GetBool XmlNode (.rel ["DisableOSCache"]) false)
      (fun t fBool => if fBool then t.SetCacheMode TargetCacheMode.DisableOSCache else t))
  |> guarded (readField (_GetBool XmlNode (.rel ["DisableAllCache"]) false)
      (fun t fBool => if fBool then t.SetCacheMode TargetCacheMode.DisableAllCache else t))
  |> guarded (readField (_GetBool XmlNode (.rel ["DisableLocalCache"]) false)
      (fun t fBool => if fBool then t.SetCacheMode TargetCacheMode.DisableLocalCache else t))

/-- The steps of `_ParseTarget` from `WriteBufferContent` to `ThreadStride`. -/
def parseTargetTail (XmlNode : Node) (st : HRESULT × Target) : HRESULT × Target :=
  st
  |> guarded (_ParseWriteBufferContent XmlNode)
  |> guarded (readField (_GetDWORD XmlNode (.rel ["BurstSize"]) 0)
      (fun t dwBurstSize => (t.SetBurstSize dwBurstSize).SetUseBurstSize true))
  |> guarded (readField (_GetDWORD XmlNode (.rel ["ThinkTime"]) 0)
      (fun t dwThinkTime => (t.SetThinkTime dwThinkTime).SetEnableThinkTime true))
  |> guarded (readField (_GetDWORD XmlNode (.rel ["Throughput"]) 0) Target.SetThroughput)
  |> guarded (readField (_GetDWORD XmlNode (.rel ["ThreadsPerFile"]) 0)
      Target.SetThreadsPerFile)
  |> guarded (readField (_GetUINT64 XmlNode (.rel ["FileSize"]) 0)
      (fun t ullFileSize => (t.SetFileSize ullFileSize).SetCreateFile true))
  |> guarded (readField (_GetUINT64 XmlNode (.rel ["MaxFileSize"]) 0) Target.SetMaxFileSize)
  |> guarded (readField (_GetUINT32 XmlNode (.rel ["WriteRatio"]) 0) Target.SetWriteRatio)
  |> guarded (readField (_GetBool XmlNode (.rel ["ParallelAsyncIO"]) false)
      Target.SetUseParallelAsyncIO)
  |> guarded (readField (_GetUINT64 XmlNode (.rel ["ThreadStride"]) 0)
      Target.SetThreadStrideInBytes)

/-- The local table `hint[]` of `_ParseTarget`. -/
def hint : List PRIORITY_HINT :=
  [PRIORITY_HINT.IoPriorityHintVeryLow, PRIORITY_HINT.IoPriorityHintLow,
   PRIORITY_HINT.IoPriorityHintNormal]

/-- The index expression `ulIOPriority - 1`, computed in `UINT32`. -/
def hintIndex (ulIOPriority : Nat) : Nat := (ulIOPriority + 2 ^ 32 - 1) % 2 ^ 32

/-- The last step of `_ParseTarget`: `IOPriority`. The table is read at `hintIndex` with no
range check; a read outside the table is undefined behaviour, rendered as `none`. -/
def parseTargetPriority (XmlNode : Node) (st : HRESULT × Target) : Option (HRESULT × Target) :=
  if SUCCEEDED st.1 then
    let r := _GetUINT32 XmlNode (.rel ["IOPriority"]) 0
    if present r.1 then
      (hint.get? (hintIndex r.2)).map (fun h => (r.1, st.2.SetIOPriorityHint h))
    else some (r.1, st.2)
  else some st

/-- The routine `_ParseTarget`; `none` stands for undefined behaviour. -/
def _ParseTarget (XmlNode : Node) (pTarget : Target) : Option (HRESULT × Target) :=
  parseTargetPriority XmlNode
    (parseTargetTail XmlNode (parseTargetAccess XmlNode (parseTargetHead XmlNode pTarget)))

/-! ## TimeSpan -/

/-- The loop of `_ParseTargets`. The code returned by `_ParseTarget` is not stored: the
target is added whatever the outcome, and the loop keeps the code of `get_item`. Each
`Target target;` starts from `newTarget`, the value the constructor of the header class
produces. -/
def _ParseTargets.loop (newTarget : Target) :
    List Node → HRESULT × TimeSpan → Option (HRESULT × TimeSpan)
  | [], st => some st
  | spNode :: rest, st =>
    match _ParseTarget spNode newTarget with
    | some r => _ParseTargets.loop newTarget rest (HRESULT.S_OK, st.2.AddTarget r.2)
    | none => none

/-- The routine `_ParseTargets`. -/
def _ParseTargets (newTarget : Target) (XmlNode : Node) (pTimeSpan : TimeSpan) :
    Option (HRESULT × TimeSpan) :=
  _ParseTargets.loop newTarget (selectNodes XmlNode (.rel ["Targets", "Target"]))
    (HRESULT.S_OK, pTimeSpan)

/-- One round of the loop of `_ParseAffinityAssignment`: the legacy form adds
`(0, (BYTE)_wtoi(text))`. -/
def affinityAssignmentStep (st : HRESULT × TimeSpan) (spNode : Node) : HRESULT × TimeSpan :=
  (HRESULT.S_OK, st.2.AddAffinityAssignment (toWORD 0) (toBYTE (_wtoi spNode.text)))

/-- The routine `_ParseAffinityAssignment`. -/
def _ParseAffinityAssignment (XmlNode : Node) (pTimeSpan : TimeSpan) : HRESULT × TimeSpan :=
  (selectNodes XmlNode (.rel ["Affinity", "AffinityAssignment"])).foldl
    affinityAssignmentStep (HRESULT.S_OK, pTimeSpan)

/-- One round of the loop of `_ParseAffinityGroupAssignment`. The round starts by storing
the code of `get_item` in `hr`, so the code left by the round before is lost. -/
def affinityGroupAssignmentStep (st : HRESULT × TimeSpan) (spNode : Node) :
    HRESULT × TimeSpan :=
  let g := _GetUINT32Attr spNode "Group" 0
  let hr := g.1
  let dwGroup := g.2
  let dwProc := if SUCCEEDED hr then (_GetUINT32Attr spNode "Processor" 0).2 else 0
  if SUCCEEDED hr then
    let hr1 := if dwProc > MAXBYTE then HRESULT.ERROR_INVALID_DATA else hr
    let hr2 := if dwGroup > MAXWORD then HRESULT.ERROR_INVALID_DATA else hr1
    (hr2, if SUCCEEDED hr2 then
            st.2.AddAffinityAssignment (toWORD (dwGroup : Int)) (toBYTE (dwProc : Int))
          else st.2)
  else (hr, st.2)

/-- The routine `_ParseAffinityGroupAssignment`. -/
def _ParseAffinityGroupAssignment (XmlNode : Node) (pTimeSpan : TimeSpan) :
    HRESULT × TimeSpan :=
  (selectNodes XmlNode (.rel ["Affinity", "AffinityGroupAssignment"])).foldl
    affinityGroupAssignmentStep (HRESULT.S_OK, pTimeSpan)

/-- The steps of `_ParseTimeSpan` from `Duration` to the group-aware affinity list. -/
def parseTimeSpanFields (XmlNode : Node) (pTimeSpan : TimeSpan) : HRESULT × TimeSpan :=
  readField (_GetUINT32 XmlNode (.rel ["Duration"]) 0) TimeSpan.SetDuration pTimeSpan
  |> guarded (readField (_GetUINT32 XmlNode (.rel ["Warmup"]) 0) TimeSpan.SetWarmup)
  |> guarded (readField (_GetUINT32 XmlNode (.rel ["Cooldown"]) 0) TimeSpan.SetCooldown)
  |> guarded (readField (_GetUINT32 XmlNode (.rel ["RandSeed"]) 0) TimeSpan.SetRandSeed)
  |> guarded (readField (_GetUINT32 XmlNode (.rel ["ThreadCount"]) 0) TimeSpan.SetThreadCount)
  |> guarded (readField (_GetBool XmlNode (.rel ["DisableAffinity"]) false)
      TimeSpan.SetDisableAffinity)
  |> guarded (readField (_GetBool XmlNode (.rel ["CompletionRoutines"]) false)
      TimeSpan.SetCompletionRoutines)
  |> guarded (readField (_GetBool XmlNode (.rel ["MeasureLatency"]) false)
      TimeSpan.SetMeasureLatency)
  |> guarded (readField (_GetBool XmlNode (.rel ["CalculateIopsStdDev"]) false)
      TimeSpan.SetCalculateIopsStdDev)
  |> guarded (readField (_GetUINT32 XmlNode (.rel ["IoBucketDuration"]) 0)
      TimeSpan.SetIoBucketDurationInMilliseconds)
  |> guarded (_ParseAffinityAssignment XmlNode)
  |> guarded (_ParseAffinityGroupAssignment XmlNode)

/-- The routine `_ParseTimeSpan`; `none` stands for undefined behaviour in a target. -/
def _ParseTimeSpan (newTarget : Target) (XmlNode : Node) (pTimeSpan : TimeSpan) :
    Option (HRESULT × TimeSpan) :=
  let st := parseTimeSpanFields XmlNode pTimeSpan
  if SUCCEEDED st.1 then _ParseTargets newTarget XmlNode st.2 else some st

/-! ## Profile -/

/-- The routine `_ParseEtw`: every flag that is present switches ETW on and stores its
value. -/
def _ParseEtw (XmlDoc : Node) (pProfile : Profile) : HRESULT × Profile :=
  readField (_GetBool XmlDoc (.abs ["Profile", "ETW", "Process"]) false)
      (fun p fEtw => Profile.SetEtwProcess (p.SetEtwEnabled true) fEtw) pProfile
  |> guarded (readField (_GetBool XmlDoc (.abs ["Profile", "ETW", "Thread"]) false)
      (fun p fEtw => Profile.SetEtwThread (p.SetEtwEnabled true) fEtw))
  |> guarded (readField (_GetBool XmlDoc (.abs ["Profile", "ETW", "ImageLoad"]) false)
      (fun p fEtw => Profile.SetEtwImageLoad (p.SetEtwEnabled true) fEtw))
  |> guarded (readField (_GetBool XmlDoc (.abs ["Profile", "ETW", "DiskIO"]) false)
      (fun p fEtw => Profile.SetEtwDiskIO (p.SetEtwEnabled true) fEtw))
  |> guarded (readField (_GetBool XmlDoc (.abs ["Profile", "ETW", "MemoryPageFaults"]) false)
      (fun p fEtw => Profile.SetEtwMemoryPageFaults (p.SetEtwEnabled true) fEtw))
  |> guarded (readField (_GetBool XmlDoc (.abs ["Profile", "ETW", "MemoryHardFaults"]) false)
      (fun p fEtw => Profile.SetEtwMemoryHardFaults (p.SetEtwEnabled true) fEtw))
  |> guarded (readField (_GetBool XmlDoc (.abs ["Profile", "ETW", "Network"]) false)
      (fun p fEtw => Profile.SetEtwNetwork (p.SetEtwEnabled true) fEtw))
  |> guarded (readField (_GetBool XmlDoc (.abs ["Profile", "ETW", "Registry"]) false)
      (fun p fEtw => Profile.SetEtwRegistry (p.SetEtwEnabled true) fEtw))
  |> guarded (readField (_GetBool XmlDoc (.abs ["Profile", "ETW", "UsePagedMemory"]) false)
      (fun p fEtw => Profile.SetEtwUsePagedMemory (p.SetEtwEnabled true) fEtw))
  |> guarded (readField (_GetBool XmlDoc (.abs ["Profile", "ETW", "UsePerfTimer"]) false)
      (fun p fEtw => Profile.SetEtwUsePerfTimer (p.SetEtwEnabled true) fEtw))
  |> guarded (readField (_GetBool XmlDoc (.abs ["Profile", "ETW", "UseSystemTimer"]) false)
      (fun p fEtw => Profile.SetEtwUseSystemTimer (p.SetEtwEnabled true) fEtw))
  |> guarded (readField (_GetBool XmlDoc (.abs ["Profile", "ETW", "UseCyclesCounter"]) false)
      (fun p fEtw => Profile.SetEtwUseCyclesCounter (p.SetEtwEnabled true) fEtw))

/-- The loop of `_ParseTimeSpans`. Each round stores the code of `_ParseTimeSpan` in `hr`
and adds the time span only on success; the loop goes on to the next node either way.
Each `TimeSpan timeSpan;` starts from `newTimeSpan`, the value the constructor of the
header class produces. -/
def _ParseTimeSpans.loop (newTimeSpan : TimeSpan) (newTarget : Target) :
    List Node → HRESULT × Profile → Option (HRESULT × Profile)
  | [], st => some st
  | spNode :: rest, st =>
    match _ParseTimeSpan newTarget spNode newTimeSpan with
    | some r =>
      _ParseTimeSpans.loop newTimeSpan newTarget rest
        (r.1, if SUCCEEDED r.1 then st.2.AddTimeSpan r.2 else st.2)
    | none => none

/-- The routine `_ParseTimeSpans`. -/
def _ParseTimeSpans (newTimeSpan : TimeSpan) (newTarget : Target) (XmlDoc : Node)
    (pProfile : Profile) : Option (HRESULT × Profile) :=
  _ParseTimeSpans.loop newTimeSpan newTarget
    (selectNodes XmlDoc (.abs ["Profile", "TimeSpans", "TimeSpan"])) (HRESULT.S_OK, pProfile)

/-- The step of `ParseFile` reading `ResultFormat`. -/
def parseResultFormat (XmlDoc : Node) (pProfile : Profile) : HRESULT × Profile :=
  let r := _GetString XmlDoc (.abs ["Profile", "ResultFormat"]) ""
  (r.1, if present r.1 && decide (r.2 = "xml") then
          pProfile.SetResultsFormat ResultsFormat.Xml
        else pProfile)

/-- The step of `ParseFile` reading `PrecreateFiles`. -/
def parsePrecreateFiles (XmlDoc : Node) (pProfile : Profile) : HRESULT × Profile :=
  let r := _GetString XmlDoc (.abs ["Profile", "PrecreateFiles"]) ""
  if present r.1 then
    if r.2 = "UseMaxSize" then
      (r.1, pProfile.SetPrecreateFiles PrecreateFiles.UseMaxSize)
    else if r.2 = "CreateOnlyFilesWithConstantSizes" then
      (r.1, pProfile.SetPrecreateFiles PrecreateFiles.OnlyFilesWithConstantSizes)
    else if r.2 = "CreateOnlyFilesWithConstantOrZeroSizes" then
      (r.1, pProfile.SetPrecreateFiles PrecreateFiles.OnlyFilesWithConstantOrZeroSizes)
    else (HRESULT.E_INVALIDARG, pProfile)
  else (r.1, pProfile)

/-- The steps of `ParseFile` on a loaded document, from `Verbose` to the ETW block. -/
def parseProfileFields (XmlDoc : Node) (pProfile : Profile) : HRESULT × Profile :=
  readField (_GetVerbose XmlDoc false) Profile.SetVerbose pProfile
  |> guarded (readField (_GetProgress XmlDoc 0) Profile.SetProgress)
  |> guarded (parseResultFormat XmlDoc)
  |> guarded (parsePrecreateFiles XmlDoc)
  |> guarded (_ParseEtw XmlDoc)

/-- The routine `ParseFile`. `loaded` is the outcome of initialising COM and loading the
file: `none` when that failed, the document when it was well formed. The result is the
boolean returned and the profile the caller holds afterwards (the profile is updated in
place); `none` stands for undefined behaviour in a target. -/
def ParseFile (newTimeSpan : TimeSpan) (newTarget : Target) (loaded : Option Node)
    (pProfile : Profile) : Option (Bool × Profile) :=
  match loaded with
  | none => some (false, pProfile)
  | some XmlDoc =>
    let st := parseProfileFields XmlDoc pProfile
    if SUCCEEDED st.1 then
      (_ParseTimeSpans newTimeSpan newTarget XmlDoc st.2).map
        (fun r => (SUCCEEDED r.1, r.2))
    else some (SUCCEEDED st.1, st.2)

/-! ## Sample documents and values -/

/-- An element with child elements only. -/
def el (name : String) (children : List Node) : Node := Node.mk name [] "" children

/-- An element holding only text. -/
def leaf (name text : String) : Node := Node.mk name [] text []

/-- The element `<AffinityGroupAssignment Group="g" Processor="p"/>`. -/
def groupAssignment (g p : String) : Node :=
  Node.mk "AffinityGroupAssignment" [("Group", g), ("Processor", p)] "" []

/-- A target value with every field cleared, used where a concrete one is needed. -/
def sampleTarget : Target :=
  { path := "", blockSizeInBytes := 0, blockAlignmentInBytes := 0,
    useInterlockedSequential := false, baseFileOffsetInBytes := 0,
    sequentialScanHint := false, randomAccessHint := false, temporaryFileHint := false,
    useLargePages := false, requestCount := 0, useRandomAccessPattern := false,
    cacheMode := TargetCacheMode.Default, zeroWriteBuffers := false,
    randomDataWriteBufferSize := 0, randomDataWriteBufferSourcePath := "",
    burstSize := 0, useBurstSize := false, thinkTime := 0, enableThinkTime := false,
    throughput := 0, threadsPerFile := 0, fileSize := 0, createFile := false,
    maxFileSize := 0, writeRatio := 0, useParallelAsyncIO := false,
    threadStrideInBytes := 0, ioPriorityHint := PRIORITY_HINT.IoPriorityHintNormal }

/-- A time span value with every field cleared. -/
def sampleTimeSpan : TimeSpan :=
  { duration := 0, warmup := 0, cooldown := 0, randSeed := 0, threadCount := 0,
    disableAffinity := false, completionRoutines := false, measureLatency := false,
    calculateIopsStdDev := false, ioBucketDurationInMilliseconds := 0,
    affinity := [], targets := [] }

/-- The ETW block with tracing off and every flag cleared. -/
def sampleEtw : EtwBlock :=
  { enabled := false, process := false, thread := false, imageLoad := false,
    diskIO := false, memoryPageFaults := false, memoryHardFaults := false,
    network := false, registry := false, usePagedMemory := false, usePerfTimer := false,
    useSystemTimer := false, useCyclesCounter := false }

/-- A profile at the defaults of the data model, without time spans. -/
def sampleProfile : Profile :=
  { verbose := false, progress := 0, resultsFormat := ResultsFormat.Text,
    precreateFiles := PrecreateFiles.None, etw := sampleEtw, timeSpans := [] }

/-- A target whose `WriteBufferContent` names the unknown pattern `bogus`. -/
def badPatternTarget : Node :=
  el "Target" [leaf "Path" "x", el "WriteBufferContent" [leaf "Pattern" "bogus"]]

/-- A profile with one time span holding `badPatternTarget`. -/
def badPatternDoc : Node :=
  el "Profile" [el "TimeSpans" [el "TimeSpan" [el "Targets" [badPatternTarget]]]]

/-- A profile that sets `Verbose` and then names an unknown `PrecreateFiles` keyword. -/
def verboseThenBogusDoc : Node :=
  el "Profile" [leaf "Verbose" "true", leaf "PrecreateFiles" "bogus"]

/-- A time span whose only group assignment names processor 256. -/
def badAffinityTimeSpan : Node :=
  el "TimeSpan" [el "Affinity" [groupAssignment "0" "256"]]

/-- A profile whose first time span is `badAffinityTimeSpan` and whose second one only
sets `Duration` to 3. -/
def skippedTimeSpanDoc : Node :=
  el "Profile" [el "TimeSpans" [badAffinityTimeSpan, el "TimeSpan" [leaf "Duration" "3"]]]

/-- A time span with an out-of-range group assignment followed by a valid one. -/
def maskedAffinityTimeSpan : Node :=
  el "TimeSpan" [el "Affinity" [groupAssignment "0" "256", groupAssignment "0" "1"]]

/-- A time span with an out-of-range group number followed by a valid assignment. -/
def maskedGroupTimeSpan : Node :=
  el "TimeSpan" [el "Affinity" [groupAssignment "65536" "1", groupAssignment "0" "1"]]

/-- A profile whose only time span is `maskedAffinityTimeSpan`. -/
def maskedAffinityDoc : Node :=
  el "Profile" [el "TimeSpans" [maskedAffinityTimeSpan]]

/-- A target with `<IOPriority>4</IOPriority>`. -/
def priorityFourTarget : Node := el "Target" [leaf "IOPriority" "4"]

/-- A target with `<IOPriority>0</IOPriority>`. -/
def priorityZeroTarget : Node := el "Target" [leaf "IOPriority" "0"]

/-- A target with a valid `IOPriority` after a `WriteBufferContent` that is in error. -/
def priorityAfterBadPatternTarget : Node :=
  el "Target" [el "WriteBufferContent" [leaf "Pattern" "bogus"], leaf "IOPriority" "1"]

/-- A target with a valid `IOPriority` and nothing else. -/
def priorityTwoTarget : Node := el "Target" [leaf "IOPriority" "2"]

/-- A target naming the three cache elements, all true, `DisableOSCache` last. -/
def cacheOsLastTarget : Node :=
  el "Target" [leaf "DisableLocalCache" "true", leaf "DisableAllCache" "true",
    leaf "DisableOSCache" "true"]

/-- A target where `StrideSize` follows `Random`. -/
def strideAfterRandomTarget : Node :=
  el "Target" [leaf "Random" "8", leaf "StrideSize" "4"]

/-- A target whose `Random` value is 2^63. -/
def hugeRandomTarget : Node := el "Target" [leaf "Random" "9223372036854775808"]

/-- A profile with the single ETW flag `DiskIO`, set to false. -/
def etwDiskDoc : Node := el "Profile" [el "ETW" [leaf "DiskIO" "false"]]

/-- A time span with one legacy assignment of processor 5 and one group-aware assignment
of processor 7 in group 1. -/
def mergedAffinityTimeSpan : Node :=
  el "TimeSpan" [el "Affinity" [leaf "AffinityAssignment" "5", groupAssignment "1" "7"]]

/-- A profile with the unknown `PrecreateFiles` keyword `bogus`, an ETW flag and a time
span. -/
def bogusPrecreateDoc : Node :=
  el "Profile" [leaf "PrecreateFiles" "bogus", el "ETW" [leaf "DiskIO" "true"],
    el "TimeSpans" [el "TimeSpan" [leaf "Duration" "3"]]]

/-- A profile whose `PrecreateFiles` text is the name of the variant
`OnlyFilesWithConstantSizes`. -/
def variantNamePrecreateDoc : Node :=
  el "Profile" [leaf "PrecreateFiles" "OnlyFilesWithConstantSizes"]

/-- A profile whose `PrecreateFiles` text is `CreateOnlyFilesWithConstantSizes`. -/
def createOnlyPrecreateDoc : Node :=
  el "Profile" [leaf "PrecreateFiles" "CreateOnlyFilesWithConstantSizes"]

/-- A context node with a single child `Value` holding the given text. -/
def probe (text : String) : Node := el "Context" [leaf "Value" text]

/-- A target whose `WriteBufferContent` asks for `random` and has no `RandomDataSource`. -/
def randomWithoutSourceTarget : Node :=
  el "Target" [el "WriteBufferContent" [leaf "Pattern" "random"]]

/-- A target whose `WriteBufferContent` asks for `random` and has two `RandomDataSource`
children. -/
def randomTwoSourcesTarget : Node :=
  el "Target" [el "WriteBufferContent" [leaf "Pattern" "random",
    el "RandomDataSource" [leaf "SizeInBytes" "8"],
    el "RandomDataSource" [leaf "SizeInBytes" "16"]]]

/-- A target whose single `RandomDataSource` has no `SizeInBytes`. -/
def randomWithoutSizeTarget : Node :=
  el "Target" [el "WriteBufferContent" [leaf "Pattern" "random",
    el "RandomDataSource" [leaf "FilePath" "/tmp/seed"]]]

/-- A target with the random write buffer of 4096 bytes seeded from `/tmp/seed`,
followed by a `BurstSize` and an `IOPriority`. -/
def randomSeedTarget : Node :=
  el "Target" [el "WriteBufferContent" [leaf "Pattern" "random",
    el "RandomDataSource" [leaf "SizeInBytes" "4096", leaf "FilePath" "/tmp/seed"]],
    leaf "BurstSize" "3", leaf "IOPriority" "1"]

/-- The same target without `FilePath`. -/
def randomNoPathTarget : Node :=
  el "Target" [el "WriteBufferContent" [leaf "Pattern" "random",
    el "RandomDataSource" [leaf "SizeInBytes" "4096"]],
    leaf "BurstSize" "3", leaf "IOPriority" "1"]

/-- The document `<Profile/>`. -/
def emptyProfileDoc : Node := el "Profile" []

/-- A text of 260 letters `a`, one byte more than the buffer of `_GetString` can take. -/
def longText : String := String.mk (List.replicate 260 'a')

/-- A target whose `Path` is `longText`. -/
def longPathTarget : Node := el "Target" [leaf "Path" longText]

/-- Modelled from the spec: the value the constructor `Profile()` of the header produces,
every field at its default of the data model and no time span. -/
def defaultProfile : Profile :=
  { verbose := false, progress := 0, resultsFormat := ResultsFormat.Text,
    precreateFiles := PrecreateFiles.None,
    etw :=
      { enabled := false, process := false, thread := false, imageLoad := false,
        diskIO := false, memoryPageFaults := false, memoryHardFaults := false,
        network := false, registry := false, usePagedMemory := false,
        usePerfTimer := false, useSystemTimer := false, useCyclesCounter := false },
    timeSpans := [] }

/-- A profile whose `ResultFormat` text is `json`. -/
def jsonResultFormatDoc : Node := el "Profile" [leaf "ResultFormat" "json"]

/-- An `AffinityGroupAssignment` element with `Processor="3"` and no `Group`
attribute. -/
def groupMissingAssignment : Node :=
  Node.mk "AffinityGroupAssignment" [("Processor", "3")] "" []

/-- A profile with one time span holding one target with `<WriteRatio>150</WriteRatio>`. -/
def highWriteRatioDoc : Node :=
  el "Profile" [el "TimeSpans" [el "TimeSpan" [el "Targets"
    [el "Target" [leaf "WriteRatio" "150"]]]]]

/-- A time span with the two targets `a` and `b`. -/
def twoTargetsTimeSpan : Node :=
  el "TimeSpan" [el "Targets" [el "Target" [leaf "Path" "a"], el "Target" [leaf "Path" "b"]]]

/-- A time span with two legacy assignments, one of processor 300 and one whose text is
no number. -/
def legacyOverflowTimeSpan : Node :=
  el "TimeSpan" [el "Affinity" [leaf "AffinityAssignment" "300",
    leaf "AffinityAssignment" "abc"]]

/-- A target naming `DisableAllCache` and `DisableOSCache` as true, in that order, and
`DisableLocalCache` as false. -/
def cacheAllThenOsTarget : Node :=
  el "Target" [leaf "DisableAllCache" "true", leaf "DisableOSCache" "true",
    leaf "DisableLocalCache" "false"]

/-- The target `strideAfterRandomTarget` with its two children swapped. -/
def randomAfterStrideTarget : Node :=
  el "Target" [leaf "StrideSize" "4", leaf "Random" "8"]

/-- A profile with a flag, an ETW block and one time span with an affinity entry and a
target. -/
def plainDoc : Node :=
  el "Profile" [leaf "Verbose" "true", el "ETW" [leaf "DiskIO" "true"],
    el "TimeSpans" [el "TimeSpan" [leaf "Duration" "3",
      el "Affinity" [groupAssignment "0" "1"],
      el "Targets" [el "Target" [leaf "Path" "x", leaf "WriteRatio" "50"]]]]]

/-- The document `plainDoc` with elements of unknown names added under `Profile`, `ETW`,
`TimeSpan`, `Affinity`, `Targets` and `Target`. -/
def extendedDoc : Node :=
  el "Profile" [leaf "Comment" "a", leaf "Verbose" "true",
    el "ETW" [leaf "DiskIO" "true", leaf "Future" "true"],
    el "TimeSpans" [el "TimeSpan" [el "Note" [leaf "Author" "b"], leaf "Duration" "3",
      el "Affinity" [leaf "Hint" "c", groupAssignment "0" "1"],
      el "Targets" [el "Target" [leaf "Path" "x", leaf "Label" "d", leaf "WriteRatio" "50"],
        leaf "Extra" "e"]]]]

/-- The document `emptyProfileDoc` with one element of an unknown name added under
`Profile`; the added element holds a `Profile` element with a `Verbose` flag. -/
def nestedProfileDoc : Node :=
  el "Profile" [el "Comment" [el "Profile" [leaf "Verbose" "true"]]]

/-- A target whose single `RandomDataSource` has no `SizeInBytes`, followed by a
`BurstSize` and an `IOPriority`. -/
def randomWithoutSizeBurstTarget : Node :=
  el "Target" [el "WriteBufferContent" [leaf "Pattern" "random",
    el "RandomDataSource" [leaf "FilePath" "/tmp/seed"]],
    leaf "BurstSize" "3", leaf "IOPriority" "1"]

/-- A target with the random write buffer of 2^63 bytes seeded from `/tmp/seed`. -/
def hugeSizeRandomTarget : Node :=
  el "Target" [el "WriteBufferContent" [leaf "Pattern" "random",
    el "RandomDataSource" [leaf "SizeInBytes" "9223372036854775808",
      leaf "FilePath" "/tmp/seed"]]]

/-- A profile whose `Verbose` element holds the text `true` and an empty `ETW`
element. -/
def flagHoldingEtwDoc : Node :=
  el "Profile" [Node.mk "Verbose" [] "true" [el "ETW" []]]

/-- The document `flagHoldingEtwDoc` with `<Foo>x</Foo>` added under its `ETW` element;
the text `get_text` gives for `Verbose` and for `ETW` now ends in `x`. -/
def flagHoldingEtwExtendedDoc : Node :=
  el "Profile" [Node.mk "Verbose" [] "truex" [Node.mk "ETW" [] "x" [leaf "Foo" "x"]]]

/-! ## Notions used in the statements -/

/-- The twelve flag elements `_ParseEtw` reads under `//Profile/ETW`. -/
def etwFlags : List String :=
  ["Process", "Thread", "ImageLoad", "DiskIO", "MemoryPageFaults", "MemoryHardFaults",
   "Network", "Registry", "UsePagedMemory", "UsePerfTimer", "UseSystemTimer",
   "UseCyclesCounter"]

/-- The `IOPriority` element of a target node, when there is one, holds a value whose
index falls inside the `hint` table, so that `_ParseTarget` has defined behaviour. -/
def priorityInRange (XmlNode : Node) : Prop :=
  ∀ e, selectSingleNode XmlNode (.rel ["IOPriority"]) = some e →
    hintIndex (toUINT32 (_wtoi e.text)) < hint.length

/-- The cache mode a cache element of a target selects, by element name. -/
def cacheVariant (name : String) : Option TargetCacheMode :=
  if name = "DisableOSCache" then some TargetCacheMode.DisableOSCache
  else if name = "DisableAllCache" then some TargetCacheMode.DisableAllCache
  else if name = "DisableLocalCache" then some TargetCacheMode.DisableLocalCache
  else none

/-- The variant of the cache element that stands last in document order among the
children of a target node. -/
def lastCacheVariant (XmlNode : Node) : Option TargetCacheMode :=
  (XmlNode.children.filterMap (fun c => cacheVariant c.name)).getLast?

/-- A step leaves the observation `π` of the state as it was. -/
def Keeps {σ β : Type} (π : σ → β) (f : σ → HRESULT × σ) : Prop := ∀ s, π (f s).2 = π s

/-- A step always answers a success code. -/
def Succeeds {σ : Type} (f : σ → HRESULT × σ) : Prop := ∀ s, SUCCEEDED (f s).1 = true

/-- The group of an `AffinityGroupAssignment` element as `_ParseAffinityGroupAssignment`
reads it: the attribute `Group` through `_GetUINT32Attr` into a local initialised to 0. -/
def groupAttr (c : Node) : Nat := (_GetUINT32Attr c "Group" 0).2

/-- The processor of an `AffinityGroupAssignment` element, read the same way from the
attribute `Processor`. -/
def processorAttr (c : Node) : Nat := (_GetUINT32Attr c "Processor" 0).2

/-- The text holds no NUL character, as every text of a well-formed XML document. -/
def noNul (s : String) : Prop := ∀ c ∈ s.toList, c.toNat ≠ 0

/-- The `PrecreateFiles` keywords `ParseFile` compares the text with. -/
def precreateKeywords : List String :=
  ["UseMaxSize", "CreateOnlyFilesWithConstantSizes", "CreateOnlyFilesWithConstantOrZeroSizes"]

/-- The call `ParseFile` takes the `PrecreateFiles` keyword of the document as the
variant `v`: the steps up to the ETW block succeed, every result of the call has
`precreate_files = v`, and the call returns true when the document has no `TimeSpan`
node. -/
def acceptsPrecreate (newTimeSpan : TimeSpan) (newTarget : Target) (XmlDoc : Node)
    (pProfile : Profile) (v : PrecreateFiles) : Prop :=
  SUCCEEDED (parseProfileFields XmlDoc pProfile).1 = true
    ∧ (∀ r, ParseFile newTimeSpan newTarget (some XmlDoc) pProfile = some r →
        r.2.precreateFiles = v)
    ∧ (selectNodes XmlDoc (.abs ["Profile", "TimeSpans", "TimeSpan"]) = [] →
        ∃ p', ParseFile newTimeSpan newTarget (some XmlDoc) pProfile = some (true, p')
          ∧ p'.precreateFiles = v)

/-- The elements `_ParseTarget` reads between `WriteBufferContent` and `IOPriority`,
when present, have been stored in the target: `BurstSize`, `ThinkTime`, `Throughput`,
`ThreadsPerFile`, `FileSize`, `MaxFileSize`, `WriteRatio`, `ParallelAsyncIO` and
`ThreadStride`, with the flags `BurstSize`, `ThinkTime` and `FileSize` switch on. -/
def tailFieldsStored (XmlNode : Node) (t : Target) : Prop :=
  (∀ e, selectSingleNode XmlNode (.rel ["BurstSize"]) = some e →
      (t.burstSize, t.useBurstSize) = (toUINT32 (_wtoi e.text), true))
    ∧ (∀ e, selectSingleNode XmlNode (.rel ["ThinkTime"]) = some e →
      (t.thinkTime, t.enableThinkTime) = (toUINT32 (_wtoi e.text), true))
    ∧ (∀ e, selectSingleNode XmlNode (.rel ["Throughput"]) = some e →
      t.throughput = toUINT32 (_wtoi e.text))
    ∧ (∀ e, selectSingleNode XmlNode (.rel ["ThreadsPerFile"]) = some e →
      t.threadsPerFile = toUINT32 (_wtoi e.text))
    ∧ (∀ e, selectSingleNode XmlNode (.rel ["FileSize"]) = some e →
      (t.fileSize, t.createFile) = (toUINT64 (_wtoi64 e.text), true))
    ∧ (∀ e, selectSingleNode XmlNode (.rel ["MaxFileSize"]) = some e →
      t.maxFileSize = toUINT64 (_wtoi64 e.text))
    ∧ (∀ e, selectSingleNode XmlNode (.rel ["WriteRatio"]) = some e →
      t.writeRatio = toUINT32 (_wtoi e.text))
    ∧ (∀ e, selectSingleNode XmlNode (.rel ["ParallelAsyncIO"]) = some e →
      t.useParallelAsyncIO = wcsicmpEq "true" e.text)
    ∧ (∀ e, selectSingleNode XmlNode (.rel ["ThreadStride"]) = some e →
      t.threadStrideInBytes = toUINT64 (_wtoi64 e.text))

/-- The fields `_ParseTarget` reads after `WriteBufferContent` have all been parsed: those
of `tailFieldsStored`, and the priority hint is the entry of `hint` the `IOPriority`
element selects. -/
def laterFieldsStored (XmlNode : Node) (t : Target) : Prop :=
  tailFieldsStored XmlNode t
    ∧ (∀ e, selectSingleNode XmlNode (.rel ["IOPriority"]) = some e →
      hint.get? (hintIndex (toUINT32 (_wtoi e.text))) = some t.ioPriorityHint)

/-- The cache element of the given name is present in the target node and reads true. -/
def cacheElementTrue (XmlNode : Node) (name : String) : Bool :=
  match selectSingleNode XmlNode (.rel [name]) with
  | some e => wcsicmpEq "true" e.text
  | none => false

/-- The cache mode by fixed priority: `DisableLocalCache` before `DisableAllCache` before
`DisableOSCache`, and the initial mode `c` when none of the three elements reads true. -/
def cacheModeByPriority (XmlNode : Node) (c : TargetCacheMode) : TargetCacheMode :=
  if cacheElementTrue XmlNode "DisableLocalCache" then TargetCacheMode.DisableLocalCache
  else if cacheElementTrue XmlNode "DisableAllCache" then TargetCacheMode.DisableAllCache
  else if cacheElementTrue XmlNode "DisableOSCache" then TargetCacheMode.DisableOSCache
  else c

/-- The names of the elements `_ParseTarget` reads through a scalar reader. -/
def targetFieldNames : List String :=
  ["Path", "BlockSize", "StrideSize", "InterlockedSequential", "BaseFileOffset",
   "SequentialScan", "RandomAccess", "TemporaryFile", "UseLargePages", "RequestCount",
   "Random", "DisableOSCache", "DisableAllCache", "DisableLocalCache", "BurstSize",
   "ThinkTime", "Throughput", "ThreadsPerFile", "FileSize", "MaxFileSize", "WriteRatio",
   "ParallelAsyncIO", "ThreadStride", "IOPriority"]

/-- The names of the elements `_ParseTimeSpan` reads through a scalar reader. -/
def timeSpanFieldNames : List String :=
  ["Duration", "Warmup", "Cooldown", "RandSeed", "ThreadCount", "DisableAffinity",
   "CompletionRoutines", "MeasureLatency", "CalculateIopsStdDev", "IoBucketDuration"]

/-- Every element name that occurs in a query of the parser. -/
def recognizedNames : List String :=
  ["Profile", "Verbose", "Progress", "ResultFormat", "PrecreateFiles", "ETW", "TimeSpans",
   "TimeSpan", "Affinity", "AffinityAssignment", "AffinityGroupAssignment", "Targets",
   "Target", "WriteBufferContent", "Pattern", "RandomDataSource", "SizeInBytes", "FilePath"]
    ++ etwFlags ++ timeSpanFieldNames ++ targetFieldNames

/-- The container elements under which unknown elements may be added. -/
def containerNames : List String :=
  ["Profile", "ETW", "TimeSpan", "Affinity", "Targets", "Target"]

/-- The names of the elements whose text the parser reads: the scalar elements of the
profile, of a time span, of a target and of a write buffer, and the legacy
`AffinityAssignment`. -/
def textReadNames : List String :=
  ["Verbose", "Progress", "ResultFormat", "PrecreateFiles", "AffinityAssignment", "Pattern",
   "SizeInBytes", "FilePath"] ++ etwFlags ++ timeSpanFieldNames ++ targetFieldNames

mutual
/-- No element of the subtree has a name the parser recognises. -/
def allUnknown : Node → Bool
  | .mk n _ _ cs => !(recognizedNames.contains n) && allUnknownList cs
/-- The same for a list of subtrees. -/
def allUnknownList : List Node → Bool
  | [] => true
  | c :: cs => allUnknown c && allUnknownList cs
end

mutual
/-- The first document is the second one with elements of unrecognised names (and
subtrees of such elements) added as further children of container elements, at any
depth. The elements of the second document keep their names and attributes. The text
`get_text` gives for an element joins the texts below it, so it may change with what is
added below the element: the relation lets the text of every element change, except
that an element bearing a name of `textReadNames` has the text it had. -/
def extendsNode : Node → Node → Prop
  | .mk n' a' t' cs', orig =>
    n' = orig.name ∧ a' = orig.attrs ∧ (textReadNames.contains n' = true → t' = orig.text)
      ∧ extendsList (containerNames.contains n') cs' orig.children
/-- The first list of children is the second one, each child possibly extended, with
unknown elements added in between when `allow` holds. -/
def extendsList (allow : Bool) : List Node → List Node → Prop
  | [], orig => orig = []
  | x :: cs', orig =>
    (allow = true ∧ allUnknown x = true ∧ extendsList allow cs' orig)
      ∨ (∃ c rest, orig = c :: rest ∧ extendsNode x c ∧ extendsList allow cs' rest)
end

/-- The children `cs'` are a permutation of the children `cs` that keeps the relative
order of the children of the same name. -/
def sameNamedOrder (cs cs' : List Node) : Prop :=
  cs'.Perm cs
    ∧ ∀ s, cs'.filter (fun c => decide (c.name = s)) = cs.filter (fun c => decide (c.name = s))

/-- Two outcomes of `selectSingleNode` that a reader cannot tell apart: both absent, or
both present with the same text. -/
def sameText : Option Node → Option Node → Prop
  | none, none => True
  | some a, some b => a.text = b.text
  | _, _ => False

/-! ## Results checked on the sample documents -/

/-- C1 (the code departs from the claim): on `badPatternDoc`, whose only target has a
single `WriteBufferContent` with the unknown pattern `bogus`, `_ParseTarget` raises
`E_INVALIDARG`, yet `ParseFile` reports success, whatever the constructor values and the
initial profile: `_ParseTargets` does not store the code of `_ParseTarget`. -/
theorem C1_bad_pattern_is_not_reported (newTimeSpan : TimeSpan) (newTarget : Target)
    (p : Profile) :
    (_ParseTarget badPatternTarget newTarget).map (fun r => r.1)
        = some HRESULT.E_INVALIDARG
      ∧ (ParseFile newTimeSpan newTarget (some badPatternDoc) p).map (fun r => r.1)
        = some true :=
  ⟨rfl, rfl⟩

/-- C2 (counterexample): on `verboseThenBogusDoc` the call `ParseFile` reports failure and
the caller's profile has changed: `verbose` was false before and is true after. -/
theorem C2_failed_parse_changes_profile :
    ParseFile sampleTimeSpan sampleTarget (some verboseThenBogusDoc) sampleProfile
        = some (false, { sampleProfile with verbose := true })
      ∧ ({ sampleProfile with verbose := true } : Profile) ≠ sampleProfile := by
  decide

/-- C3 (the code departs from the claim): `skippedTimeSpanDoc` has two `TimeSpan` nodes;
`ParseFile`, started without time spans, reports success and returns a single time span,
the one of the second node: the first node fails and is left out, and the loop
overwrites its code. -/
theorem C3_failed_time_span_is_skipped :
    (selectNodes skippedTimeSpanDoc (.abs ["Profile", "TimeSpans", "TimeSpan"])).length = 2
      ∧ (_ParseTimeSpan sampleTarget badAffinityTimeSpan sampleTimeSpan).map (fun r => r.1)
        = some HRESULT.ERROR_INVALID_DATA
      ∧ ParseFile sampleTimeSpan sampleTarget (some skippedTimeSpanDoc) sampleProfile
        = some (true, { sampleProfile with
            timeSpans := [{ sampleTimeSpan with duration := 3 }] }) := by
  decide

/-- C4 (the code departs from the claim): a `TimeSpan` whose first group assignment names
processor 256 (or group 65536) and whose second is valid is parsed with `S_OK`; only the
valid entry is kept, and `ParseFile` succeeds on the document whose only time span it
is. The round for the second entry overwrites the failure code of the first. -/
theorem C4_out_of_range_entry_is_masked (newTimeSpan : TimeSpan) (newTarget : Target)
    (p : Profile) :
    (_ParseTimeSpan newTarget maskedAffinityTimeSpan sampleTimeSpan).map
        (fun r => (r.1, r.2.affinity)) = some (HRESULT.S_OK, [(0, 1)])
      ∧ (_ParseTimeSpan newTarget maskedGroupTimeSpan sampleTimeSpan).map
        (fun r => (r.1, r.2.affinity)) = some (HRESULT.S_OK, [(0, 1)])
      ∧ (ParseFile newTimeSpan newTarget (some maskedAffinityDoc) p).map (fun r => r.1)
        = some true :=
  ⟨rfl, rfl, rfl⟩

/-- C5 (the code departs from the claim): with `IOPriority` 4 the table `hint` of three
entries is read at index 3, with `IOPriority` 0 at index 4294967295; no failure code is
produced, the read is outside the table and `_ParseTarget` has no defined result. -/
theorem C5_priority_lookup_out_of_bounds (t : Target) :
    hint.length = 3
      ∧ hintIndex (_GetUINT32 priorityFourTarget (.rel ["IOPriority"]) 0).2 = 3
      ∧ hintIndex (_GetUINT32 priorityZeroTarget (.rel ["IOPriority"]) 0).2 = 4294967295
      ∧ _ParseTarget priorityFourTarget t = none
      ∧ _ParseTarget priorityZeroTarget t = none :=
  ⟨rfl, rfl, rfl, rfl, rfl⟩

/-- C10 (the code departs from the claim): for `<Random>9223372036854775808</Random>`
(2^63, a 64-bit unsigned value) the parsed target has `use_random_access_pattern` set but
`block_alignment` 9223372036854775807: `_wtoi64` is a signed conversion and saturates. -/
theorem C10_random_saturates_at_int64_max (t : Target) :
    (_ParseTarget hugeRandomTarget t).map
        (fun r => (r.2.useRandomAccessPattern, r.2.blockAlignmentInBytes))
      = some (true, 9223372036854775807) :=
  rfl

/-! ## Lemmas on the control-flow shapes -/

section StepLemmas
variable {σ α β : Type}

theorem keeps_readField (π : σ → β) (r : HRESULT × α) (set : σ → α → σ)
    (h : ∀ s v, π (set s v) = π s) : Keeps π (readField r set) := by
  intro s
  unfold readField
  dsimp only
  split
  · exact h s r.2
  · rfl

theorem keeps_readField_absent (π : σ → β) (r : HRESULT × α) (set : σ → α → σ)
    (h : present r.1 = false) : Keeps π (readField r set) := by
  intro s
  unfold readField
  simp [h]

theorem guarded_keeps (π : σ → β) (f : σ → HRESULT × σ) (hf : Keeps π f)
    (st : HRESULT × σ) : π (guarded f st).2 = π st.2 := by
  unfold guarded
  split
  · exact hf st.2
  · rfl

theorem succeeds_readField (r : HRESULT × α) (set : σ → α → σ)
    (h : SUCCEEDED r.1 = true) : Succeeds (readField r set) := by
  intro s
  exact h

theorem guarded_succeeds (f : σ → HRESULT × σ) (hf : Succeeds f) (st : HRESULT × σ)
    (h : SUCCEEDED st.1 = true) : SUCCEEDED (guarded f st).1 = true := by
  unfold guarded
  rw [if_pos h]
  exact hf st.2

theorem guarded_eq (f : σ → HRESULT × σ) (st : HRESULT × σ)
    (h : SUCCEEDED st.1 = true) : guarded f st = f st.2 := by
  unfold guarded
  rw [if_pos h]

theorem guarded_failed (f : σ → HRESULT × σ) (st : HRESULT × σ)
    (h : SUCCEEDED st.1 = false) : guarded f st = st := by
  unfold guarded
  simp [h]

end StepLemmas

/-! ## Lemmas on the scalar readers -/

theorem succeeded_GetUINT32 (n : Node) (q : XPath) (v : Nat) :
    SUCCEEDED (_GetUINT32 n q v).1 = true := by
  unfold _GetUINT32; split <;> rfl

theorem succeeded_GetUINT64 (n : Node) (q : XPath) (v : Nat) :
    SUCCEEDED (_GetUINT64 n q v).1 = true := by
  unfold _GetUINT64; split <;> rfl

theorem succeeded_GetString (n : Node) (q : XPath) (v : String) :
    SUCCEEDED (_GetString n q v).1 = true := by
  unfold _GetString; split <;> rfl

theorem succeeded_GetBool (n : Node) (q : XPath) (v : Bool) :
    SUCCEEDED (_GetBool n q v).1 = true := by
  unfold _GetBool; split <;> rfl

theorem succeeded_GetDWORD (n : Node) (q : XPath) (v : Nat) :
    SUCCEEDED (_GetDWORD n q v).1 = true := by
  unfold _GetDWORD
  simp only [succeeded_GetUINT32, if_true]

theorem present_GetBool (n : Node) (q : XPath) (v : Bool) :
    present (_GetBool n q v).1 = (selectSingleNode n q).isSome := by
  unfold _GetBool; split <;> simp_all [present, SUCCEEDED]

theorem present_GetUINT64 (n : Node) (q : XPath) (v : Nat) :
    present (_GetUINT64 n q v).1 = (selectSingleNode n q).isSome := by
  unfold _GetUINT64; split <;> simp_all [present, SUCCEEDED]

theorem present_GetUINT32 (n : Node) (q : XPath) (v : Nat) :
    present (_GetUINT32 n q v).1 = (selectSingleNode n q).isSome := by
  unfold _GetUINT32; split <;> simp_all [present, SUCCEEDED]

theorem present_GetString (n : Node) (q : XPath) (v : String) :
    present (_GetString n q v).1 = (selectSingleNode n q).isSome := by
  unfold _GetString; split <;> simp_all [present, SUCCEEDED]

theorem present_GetDWORD (n : Node) (q : XPath) (v : Nat) :
    present (_GetDWORD n q v).1 = (selectSingleNode n q).isSome := by
  unfold _GetDWORD
  simp only [succeeded_GetUINT32, if_true, present_GetUINT32]

/-! ## ETW -/

/-- One guarded flag step of `_ParseEtw` keeps the code a success and switches `enabled`
on exactly when the flag element is present or `enabled` was on before. -/
theorem etw_flag_step (XmlDoc : Node) (flag : String) (set : Profile → Bool → Profile)
    (hset : ∀ p v, (set p v).etw.enabled = true) (seen : List String)
    (st : HRESULT × Profile)
    (h : SUCCEEDED st.1 = true ∧ (st.2.etw.enabled = true ↔
      ∃ f ∈ seen, (selectSingleNode XmlDoc (.abs ["Profile", "ETW", f])).isSome = true)) :
    SUCCEEDED (guarded (readField (_GetBool XmlDoc (.abs ["Profile", "ETW", flag]) false)
        set) st).1 = true
      ∧ ((guarded (readField (_GetBool XmlDoc (.abs ["Profile", "ETW", flag]) false)
        set) st).2.etw.enabled = true ↔
      ∃ f ∈ flag :: seen,
        (selectSingleNode XmlDoc (.abs ["Profile", "ETW", f])).isSome = true) := by
  obtain ⟨hs, he⟩ := h
  rw [guarded_eq _ _ hs]
  refine ⟨succeeded_GetBool _ _ _, ?_⟩
  unfold readField
  dsimp only
  rw [present_GetBool]
  cases hsel : (selectSingleNode XmlDoc (.abs ["Profile", "ETW", flag])).isSome
  · simp [he, hsel]
  · simp [hset, hsel]

/-- The coupling of `_ParseEtw`, with the flags listed from the last step to the first. -/
theorem parseEtw_enabled_rev (XmlDoc : Node) (pProfile : Profile)
    (h : pProfile.etw.enabled = false) :
    SUCCEEDED (_ParseEtw XmlDoc pProfile).1 = true
      ∧ ((_ParseEtw XmlDoc pProfile).2.etw.enabled = true ↔
      ∃ f ∈ etwFlags.reverse,
        (selectSingleNode XmlDoc (.abs ["Profile", "ETW", f])).isSome = true) := by
  have hrev : etwFlags.reverse =
      ["UseCyclesCounter", "UseSystemTimer", "UsePerfTimer", "UsePagedMemory",
        "Registry", "Network", "MemoryHardFaults", "MemoryPageFaults", "DiskIO",
        "ImageLoad", "Thread", "Process"] := by decide
  rw [hrev]
  unfold _ParseEtw
  iterate 11 refine etw_flag_step _ _ _ (fun _ _ => rfl) _ _ ?_
  refine ⟨succeeded_GetBool _ _ _, ?_⟩
  unfold readField
  dsimp only
  rw [present_GetBool]
  cases hsel : (selectSingleNode XmlDoc (.abs ["Profile", "ETW", "Process"])).isSome
  · simp [h, hsel]
  · simp [hsel, Profile.SetEtwProcess, Profile.SetEtwEnabled]

/-- C7: starting from a profile whose ETW block has `enabled = false`, `_ParseEtw`
succeeds, and afterwards `etw.enabled` is true if and only if at least one of the twelve
recognised flag elements is present under `//Profile/ETW`; the text of the flag plays no
part. -/
theorem C7_etw_enabled_iff_flag_present (XmlDoc : Node) (pProfile : Profile)
    (h : pProfile.etw.enabled = false) :
    SUCCEEDED (_ParseEtw XmlDoc pProfile).1 = true
      ∧ ((_ParseEtw XmlDoc pProfile).2.etw.enabled = true ↔
      ∃ flag ∈ etwFlags,
        (selectSingleNode XmlDoc (.abs ["Profile", "ETW", flag])).isSome = true) := by
  obtain ⟨hs, he⟩ := parseEtw_enabled_rev XmlDoc pProfile h
  refine ⟨hs, ?_⟩
  rw [he]
  simp only [List.mem_reverse]

/-- C7 at a concrete input: `etwDiskDoc` holds the single flag `DiskIO` with text `false`;
parsing it from `sampleProfile` succeeds and leaves `etw.enabled` true. -/
theorem C7_etw_enabled_iff_flag_present_witness :
    sampleProfile.etw.enabled = false
      ∧ SUCCEEDED (_ParseEtw etwDiskDoc sampleProfile).1 = true
      ∧ (_ParseEtw etwDiskDoc sampleProfile).2.etw.enabled = true :=
  ⟨rfl, (C7_etw_enabled_iff_flag_present etwDiskDoc sampleProfile rfl).1,
    (C7_etw_enabled_iff_flag_present etwDiskDoc sampleProfile rfl).2.mpr
      ⟨"DiskIO", by decide, by decide⟩⟩

/-! ## Profile: what a failed parse leaves behind -/

theorem guarded_readField_proj {σ α β : Type} (π : σ → β) (r : HRESULT × α)
    (set : σ → α → σ) (st : HRESULT × σ) (hs : SUCCEEDED st.1 = true) :
    π (guarded (readField r set) st).2
      = if present r.1 = true then π (set st.2 r.2) else π st.2 := by
  rw [guarded_eq _ _ hs]
  unfold readField
  dsimp only
  split <;> rfl

/-- The routine `_ParseEtw` keeps every observation that does not look at the ETW
block. -/
theorem keeps_ParseEtw {β : Type} (π : Profile → β) (XmlDoc : Node)
    (h : ∀ (p : Profile) (e : EtwBlock), π { p with etw := e } = π p) :
    Keeps π (_ParseEtw XmlDoc) := by
  intro p
  unfold _ParseEtw
  iterate 11
    refine Eq.trans (guarded_keeps π _ (keeps_readField π _ _ ?_) _) ?_
    · intro s v
      exact (h _ _).trans (h _ _)
  exact keeps_readField π _ _ (fun s v => (h _ _).trans (h _ _)) p

theorem keeps_parseResultFormat {β : Type} (π : Profile → β) (XmlDoc : Node)
    (h : ∀ (p : Profile) (v : ResultsFormat), π (p.SetResultsFormat v) = π p) :
    Keeps π (parseResultFormat XmlDoc) := by
  intro p
  unfold parseResultFormat
  dsimp only
  split
  · exact h _ _
  · rfl

theorem keeps_parsePrecreateFiles {β : Type} (π : Profile → β) (XmlDoc : Node)
    (h : ∀ (p : Profile) (v : PrecreateFiles), π (p.SetPrecreateFiles v) = π p) :
    Keeps π (parsePrecreateFiles XmlDoc) := by
  intro p
  unfold parsePrecreateFiles
  dsimp only
  split_ifs <;> exact h _ _

theorem succeeds_parseResultFormat (XmlDoc : Node) : Succeeds (parseResultFormat XmlDoc) := by
  intro p
  exact succeeded_GetString _ _ _

/-- Without a flag element under `//Profile/ETW` the routine `_ParseEtw` changes
nothing. -/
theorem parseEtw_absent (XmlDoc : Node) (p : Profile)
    (h : ∀ flag ∈ etwFlags, selectSingleNode XmlDoc (.abs ["Profile", "ETW", flag]) = none) :
    (_ParseEtw XmlDoc p).2 = p := by
  have hp : ∀ flag ∈ etwFlags,
      present (_GetBool XmlDoc (.abs ["Profile", "ETW", flag]) false).1 = false := by
    intro flag hflag
    rw [present_GetBool, h flag hflag]
    rfl
  unfold _ParseEtw
  iterate 11
    refine Eq.trans (guarded_keeps id _ (keeps_readField_absent id _ _ ?_) _) ?_
    · exact hp _ (by simp [etwFlags])
  exact keeps_readField_absent id _ _ (hp _ (by simp [etwFlags])) p

/-- The loop of `_ParseTimeSpans` changes no field of the profile but `timeSpans`. -/
theorem parseTimeSpansLoop_frame (newTimeSpan : TimeSpan) (newTarget : Target) :
    ∀ (nodes : List Node) (st r : HRESULT × Profile),
      _ParseTimeSpans.loop newTimeSpan newTarget nodes st = some r →
      r.2.verbose = st.2.verbose ∧ r.2.progress = st.2.progress
        ∧ r.2.resultsFormat = st.2.resultsFormat
        ∧ r.2.precreateFiles = st.2.precreateFiles ∧ r.2.etw = st.2.etw := by
  intro nodes
  induction nodes with
  | nil =>
    intro st r h
    have h1 : some st = some r := h
    cases h1
    exact ⟨rfl, rfl, rfl, rfl, rfl⟩
  | cons spNode rest ih =>
    intro st r h
    have h1 : (match _ParseTimeSpan newTarget spNode newTimeSpan with
        | some r1 =>
          _ParseTimeSpans.loop newTimeSpan newTarget rest
            (r1.1, if SUCCEEDED r1.1 then st.2.AddTimeSpan r1.2 else st.2)
        | none => none) = some r := h
    cases hts : _ParseTimeSpan newTarget spNode newTimeSpan with
    | none =>
      rw [hts] at h1
      cases h1
    | some r1 =>
      rw [hts] at h1
      have h2 := ih _ _ h1
      dsimp only at h2
      split at h2 <;> exact h2

/-- The fields `parseProfileFields` has stored when it returns: the three leading steps
always run. -/
theorem parseProfileFields_result (XmlDoc : Node) (p : Profile) :
    (parseProfileFields XmlDoc p).2.verbose
        = (match selectSingleNode XmlDoc (.abs ["Profile", "Verbose"]) with
          | some e => wcsicmpEq "true" e.text
          | none => p.verbose)
      ∧ (parseProfileFields XmlDoc p).2.progress
        = (match selectSingleNode XmlDoc (.abs ["Profile", "Progress"]) with
          | some e => toUINT32 (_wtoi e.text)
          | none => p.progress)
      ∧ (parseProfileFields XmlDoc p).2.resultsFormat
        = (match selectSingleNode XmlDoc (.abs ["Profile", "ResultFormat"]) with
          | some e =>
            if WideCharToMultiByte e.text (MAX_PATH - 1) = "xml" then ResultsFormat.Xml
            else p.resultsFormat
          | none => p.resultsFormat)
      ∧ (selectSingleNode XmlDoc (.abs ["Profile", "PrecreateFiles"]) = none →
          (parseProfileFields XmlDoc p).2.precreateFiles = p.precreateFiles)
      ∧ ((∀ flag ∈ etwFlags,
            selectSingleNode XmlDoc (.abs ["Profile", "ETW", flag]) = none) →
          (parseProfileFields XmlDoc p).2.etw = p.etw)
      ∧ (parseProfileFields XmlDoc p).2.timeSpans = p.timeSpans := by
  have s1 : SUCCEEDED (readField (_GetVerbose XmlDoc false) Profile.SetVerbose p).1 = true :=
    succeeded_GetBool _ _ _
  have s2 := guarded_succeeds _
    (succeeds_readField (_GetProgress XmlDoc 0) Profile.SetProgress (succeeded_GetDWORD _ _ _))
    _ s1
  have s3 := guarded_succeeds _ (succeeds_parseResultFormat XmlDoc) _ s2
  refine ⟨?_, ?_, ?_, ?_, ?_, ?_⟩
  · unfold parseProfileFields
    refine Eq.trans (guarded_keeps Profile.verbose _
      (keeps_ParseEtw _ _ (fun _ _ => rfl)) _) ?_
    refine Eq.trans (guarded_keeps Profile.verbose _
      (keeps_parsePrecreateFiles _ _ (fun _ _ => rfl)) _) ?_
    refine Eq.trans (guarded_keeps Profile.verbose _
      (keeps_parseResultFormat _ _ (fun _ _ => rfl)) _) ?_
    refine Eq.trans (guarded_keeps Profile.verbose _ (keeps_readField _ _ _ ?_) _) ?_
    · intro _ _; rfl
    unfold readField _GetVerbose _GetBool
    cases selectSingleNode XmlDoc (.abs ["Profile", "Verbose"]) <;>
      simp [present, SUCCEEDED, Profile.SetVerbose]
  · unfold parseProfileFields
    refine Eq.trans (guarded_keeps Profile.progress _
      (keeps_ParseEtw _ _ (fun _ _ => rfl)) _) ?_
    refine Eq.trans (guarded_keeps Profile.progress _
      (keeps_parsePrecreateFiles _ _ (fun _ _ => rfl)) _) ?_
    refine Eq.trans (guarded_keeps Profile.progress _
      (keeps_parseResultFormat _ _ (fun _ _ => rfl)) _) ?_
    rw [guarded_readField_proj Profile.progress _ _ _ s1]
    have h1 : (readField (_GetVerbose XmlDoc false) Profile.SetVerbose p).2.progress
        = p.progress := by
      refine keeps_readField Profile.progress _ _ ?_ p
      intro _ _; rfl
    rw [h1]
    unfold _GetProgress _GetDWORD _GetUINT32
    cases selectSingleNode XmlDoc (.abs ["Profile", "Progress"]) <;>
      simp [present, SUCCEEDED, Profile.SetProgress]
  · unfold parseProfileFields
    refine Eq.trans (guarded_keeps Profile.resultsFormat _
      (keeps_ParseEtw _ _ (fun _ _ => rfl)) _) ?_
    refine Eq.trans (guarded_keeps Profile.resultsFormat _
      (keeps_parsePrecreateFiles _ _ (fun _ _ => rfl)) _) ?_
    rw [guarded_eq _ _ s2]
    have h1 : (guarded (readField (_GetProgress XmlDoc 0) Profile.SetProgress)
        (readField (_GetVerbose XmlDoc false) Profile.SetVerbose p)).2.resultsFormat
        = p.resultsFormat := by
      refine Eq.trans (guarded_keeps Profile.resultsFormat _ (keeps_readField _ _ _ ?_) _) ?_
      · intro _ _; rfl
      refine keeps_readField Profile.resultsFormat _ _ ?_ p
      intro _ _; rfl
    unfold parseResultFormat _GetString
    cases selectSingleNode XmlDoc (.abs ["Profile", "ResultFormat"]) <;>
      simp [present, SUCCEEDED, Profile.SetResultsFormat, h1]
    split <;> simp [h1]
  · intro habs
    unfold parseProfileFields
    refine Eq.trans (guarded_keeps Profile.precreateFiles _
      (keeps_ParseEtw _ _ (fun _ _ => rfl)) _) ?_
    rw [guarded_eq _ _ s3]
    have h1 : (guarded (parseResultFormat XmlDoc)
        (guarded (readField (_GetProgress XmlDoc 0) Profile.SetProgress)
        (readField (_GetVerbose XmlDoc false) Profile.SetVerbose p))).2.precreateFiles
        = p.precreateFiles := by
      refine Eq.trans (guarded_keeps Profile.precreateFiles _
        (keeps_parseResultFormat _ _ (fun _ _ => rfl)) _) ?_
      refine Eq.trans (guarded_keeps Profile.precreateFiles _ (keeps_readField _ _ _ ?_) _) ?_
      · intro _ _; rfl
      refine keeps_readField Profile.precreateFiles _ _ ?_ p
      intro _ _; rfl
    unfold parsePrecreateFiles _GetString
    simp [habs, present, SUCCEEDED, h1]
  · intro habs
    unfold parseProfileFields
    have hk : Keeps Profile.etw (_ParseEtw XmlDoc) := by
      intro q
      rw [parseEtw_absent XmlDoc q habs]
    refine Eq.trans (guarded_keeps Profile.etw _ hk _) ?_
    refine Eq.trans (guarded_keeps Profile.etw _
      (keeps_parsePrecreateFiles _ _ (fun _ _ => rfl)) _) ?_
    refine Eq.trans (guarded_keeps Profile.etw _
      (keeps_parseResultFormat _ _ (fun _ _ => rfl)) _) ?_
    refine Eq.trans (guarded_keeps Profile.etw _ (keeps_readField _ _ _ ?_) _) ?_
    · intro _ _; rfl
    refine keeps_readField Profile.etw _ _ ?_ p
    intro _ _; rfl
  · unfold parseProfileFields
    refine Eq.trans (guarded_keeps Profile.timeSpans _
      (keeps_ParseEtw _ _ (fun _ _ => rfl)) _) ?_
    refine Eq.trans (guarded_keeps Profile.timeSpans _
      (keeps_parsePrecreateFiles _ _ (fun _ _ => rfl)) _) ?_
    refine Eq.trans (guarded_keeps Profile.timeSpans _
      (keeps_parseResultFormat _ _ (fun _ _ => rfl)) _) ?_
    refine Eq.trans (guarded_keeps Profile.timeSpans _ (keeps_readField _ _ _ ?_) _) ?_
    · intro _ _; rfl
    refine keeps_readField Profile.timeSpans _ _ ?_ p
    intro _ _; rfl

/-- C2 (amended): `ParseFile` updates the caller's profile in place. When it reports
failure, `verbose`, `progress` and `results_format` hold what the steps for `Verbose`,
`Progress` and `ResultFormat` stored (the parsed value when the element is present), and
every field, the ETW block and `time_spans` are equal to their value before the call
whenever the document has no element for them. -/
theorem C2_failed_parse_keeps_only_absent_fields (newTimeSpan : TimeSpan)
    (newTarget : Target) (XmlDoc : Node) (pProfile p' : Profile)
    (hfail : ParseFile newTimeSpan newTarget (some XmlDoc) pProfile = some (false, p')) :
    p'.verbose
        = (match selectSingleNode XmlDoc (.abs ["Profile", "Verbose"]) with
          | some e => wcsicmpEq "true" e.text
          | none => pProfile.verbose)
      ∧ p'.progress
        = (match selectSingleNode XmlDoc (.abs ["Profile", "Progress"]) with
          | some e => toUINT32 (_wtoi e.text)
          | none => pProfile.progress)
      ∧ p'.resultsFormat
        = (match selectSingleNode XmlDoc (.abs ["Profile", "ResultFormat"]) with
          | some e =>
            if WideCharToMultiByte e.text (MAX_PATH - 1) = "xml" then ResultsFormat.Xml
            else pProfile.resultsFormat
          | none => pProfile.resultsFormat)
      ∧ (selectSingleNode XmlDoc (.abs ["Profile", "PrecreateFiles"]) = none →
          p'.precreateFiles = pProfile.precreateFiles)
      ∧ ((∀ flag ∈ etwFlags,
            selectSingleNode XmlDoc (.abs ["Profile", "ETW", flag]) = none) →
          p'.etw = pProfile.etw)
      ∧ (selectNodes XmlDoc (.abs ["Profile", "TimeSpans", "TimeSpan"]) = [] →
          p'.timeSpans = pProfile.timeSpans) := by
  obtain ⟨fv, fp, fr, fc, fe, ft⟩ := parseProfileFields_result XmlDoc pProfile
  have h1 : (if SUCCEEDED (parseProfileFields XmlDoc pProfile).1 = true then
        (_ParseTimeSpans newTimeSpan newTarget XmlDoc
          (parseProfileFields XmlDoc pProfile).2).map (fun r => (SUCCEEDED r.1, r.2))
      else some (SUCCEEDED (parseProfileFields XmlDoc pProfile).1,
        (parseProfileFields XmlDoc pProfile).2)) = some (false, p') := hfail
  by_cases hs : SUCCEEDED (parseProfileFields XmlDoc pProfile).1 = true
  · rw [if_pos hs] at h1
    cases hloop : _ParseTimeSpans newTimeSpan newTarget XmlDoc
        (parseProfileFields XmlDoc pProfile).2 with
    | none =>
      rw [hloop] at h1
      cases h1
    | some r =>
      rw [hloop] at h1
      have h2 : (SUCCEEDED r.1, r.2) = (false, p') := Option.some.inj h1
      have h3 : r.2 = p' := congrArg Prod.snd h2
      subst h3
      obtain ⟨gv, gp, gr, gc, ge⟩ :=
        parseTimeSpansLoop_frame newTimeSpan newTarget _ _ r hloop
      refine ⟨gv.trans fv, gp.trans fp, gr.trans fr, fun h => gc.trans (fc h),
        fun h => ge.trans (fe h), ?_⟩
      intro hnone
      have h4 : _ParseTimeSpans.loop newTimeSpan newTarget
          (selectNodes XmlDoc (.abs ["Profile", "TimeSpans", "TimeSpan"]))
          (HRESULT.S_OK, (parseProfileFields XmlDoc pProfile).2) = some r := hloop
      rw [hnone] at h4
      have h5 : some (HRESULT.S_OK, (parseProfileFields XmlDoc pProfile).2) = some r := h4
      cases h5
      exact ft
  · rw [if_neg hs] at h1
    have h2 : (SUCCEEDED (parseProfileFields XmlDoc pProfile).1,
        (parseProfileFields XmlDoc pProfile).2) = (false, p') := Option.some.inj h1
    have h3 : (parseProfileFields XmlDoc pProfile).2 = p' := congrArg Prod.snd h2
    subst h3
    exact ⟨fv, fp, fr, fc, fe, fun _ => ft⟩

/-- C2 (amended) at a concrete input: on `verboseThenBogusDoc`, which fails on its
`PrecreateFiles` keyword, `verbose` holds the parsed value true while the fields without
an element are those of `sampleProfile`. -/
theorem C2_failed_parse_keeps_only_absent_fields_witness :
    ParseFile sampleTimeSpan sampleTarget (some verboseThenBogusDoc) sampleProfile
        = some (false, { sampleProfile with verbose := true })
      ∧ ({ sampleProfile with verbose := true } : Profile).verbose = true
      ∧ ({ sampleProfile with verbose := true } : Profile).progress = sampleProfile.progress
      ∧ ({ sampleProfile with verbose := true } : Profile).etw = sampleProfile.etw
      ∧ ({ sampleProfile with verbose := true } : Profile).timeSpans
        = sampleProfile.timeSpans :=
  have h := C2_failed_parse_keeps_only_absent_fields sampleTimeSpan sampleTarget
    verboseThenBogusDoc sampleProfile { sampleProfile with verbose := true } (by decide)
  ⟨by decide, h.1, h.2.1,
    h.2.2.2.2.1 (by
      intro flag hflag
      simp only [etwFlags, List.mem_cons, List.mem_singleton, List.not_mem_nil,
        or_false] at hflag
      rcases hflag with rfl | rfl | rfl | rfl | rfl | rfl | rfl | rfl | rfl | rfl | rfl | rfl
        <;> rfl),
    h.2.2.2.2.2 rfl⟩

/-! ## Target -/

theorem parseTargetHead_succeeded (n : Node) (t : Target) :
    SUCCEEDED (parseTargetHead n t).1 = true := by
  unfold parseTargetHead
  iterate 9
    refine guarded_succeeds _ (succeeds_readField _ _ ?_) _ ?_
    · first
      | exact succeeded_GetUINT32 _ _ _
      | exact succeeded_GetUINT64 _ _ _
      | exact succeeded_GetBool _ _ _
      | exact succeeded_GetDWORD _ _ _
  exact succeeded_GetString _ _ _

theorem parseTargetAccess_succeeded (n : Node) (st : HRESULT × Target)
    (hs : SUCCEEDED st.1 = true) : SUCCEEDED (parseTargetAccess n st).1 = true := by
  unfold parseTargetAccess
  iterate 3
    refine guarded_succeeds _ (succeeds_readField _ _ (succeeded_GetBool _ _ _)) _ ?_
  exact guarded_succeeds _ (succeeds_readField _ _ (succeeded_GetUINT64 _ _ _)) _ hs

/-- After the steps from `Random` to `DisableLocalCache`, a `Random` element that is
present has set the alignment to its value: the cache steps leave the alignment alone. -/
theorem parseTargetAccess_blockAlignment (n : Node) (st : HRESULT × Target)
    (hs : SUCCEEDED st.1 = true) (e : Node)
    (hsel : selectSingleNode n (.rel ["Random"]) = some e) :
    (parseTargetAccess n st).2.blockAlignmentInBytes = toUINT64 (_wtoi64 e.text)
      ∧ (parseTargetAccess n st).2.useRandomAccessPattern = true := by
  unfold parseTargetAccess
  constructor
  · iterate 3
      refine Eq.trans (guarded_keeps Target.blockAlignmentInBytes _
        (keeps_readField _ _ _ ?_) _) ?_
      · intro _ v; cases v <;> rfl
    rw [guarded_readField_proj Target.blockAlignmentInBytes _ _ _ hs, present_GetUINT64,
      hsel]
    simp [_GetUINT64, hsel, Target.SetBlockAlignmentInBytes]
  · iterate 3
      refine Eq.trans (guarded_keeps Target.useRandomAccessPattern _
        (keeps_readField _ _ _ ?_) _) ?_
      · intro _ v; cases v <;> rfl
    rw [guarded_readField_proj Target.useRandomAccessPattern _ _ _ hs, present_GetUINT64,
      hsel]
    simp [Target.SetBlockAlignmentInBytes, Target.SetUseRandomAccessPattern]

/-- After the steps from `Random` to `DisableLocalCache`, a `DisableLocalCache` element
that reads true has set the cache mode: its step is the last of the three. -/
theorem parseTargetAccess_cacheMode_local (n : Node) (st : HRESULT × Target)
    (hs : SUCCEEDED st.1 = true) (e : Node)
    (hsel : selectSingleNode n (.rel ["DisableLocalCache"]) = some e)
    (htrue : wcsicmpEq "true" e.text = true) :
    (parseTargetAccess n st).2.cacheMode = TargetCacheMode.DisableLocalCache := by
  unfold parseTargetAccess
  have h3 : SUCCEEDED
      (guarded (readField (_GetBool n (.rel ["DisableAllCache"]) false)
        (fun t fBool => if fBool then t.SetCacheMode TargetCacheMode.DisableAllCache else t))
      (guarded (readField (_GetBool n (.rel ["DisableOSCache"]) false)
        (fun t fBool => if fBool then t.SetCacheMode TargetCacheMode.DisableOSCache else t))
      (guarded (readField (_GetUINT64 n (.rel ["Random"]) 0)
        (fun t ullRandom =>
          (t.SetUseRandomAccessPattern true).SetBlockAlignmentInBytes ullRandom))
      st))).1 = true := by
    iterate 2
      refine guarded_succeeds _ (succeeds_readField _ _ (succeeded_GetBool _ _ _)) _ ?_
    exact guarded_succeeds _ (succeeds_readField _ _ (succeeded_GetUINT64 _ _ _)) _ hs
  rw [guarded_readField_proj Target.cacheMode _ _ _ h3, present_GetBool, hsel]
  simp [_GetBool, hsel, htrue, Target.SetCacheMode]

theorem keeps_ParseRandomDataSource {β : Type} (π : Target → β) (n : Node)
    (hs : ∀ (t : Target) (v : Nat), π (t.SetRandomDataWriteBufferSize v) = π t)
    (hp : ∀ (t : Target) (v : String), π (t.SetRandomDataWriteBufferSourcePath v) = π t) :
    Keeps π (_ParseRandomDataSource n) := by
  intro t
  unfold _ParseRandomDataSource
  split
  · dsimp only
    split
    · split
      · exact (hp _ _).trans (hs _ _)
      · exact hs _ _
    · rfl
  · rfl

theorem keeps_ParseWriteBufferContent {β : Type} (π : Target → β) (n : Node)
    (hz : ∀ (t : Target) (v : Bool), π (t.SetZeroWriteBuffers v) = π t)
    (hs : ∀ (t : Target) (v : Nat), π (t.SetRandomDataWriteBufferSize v) = π t)
    (hp : ∀ (t : Target) (v : String), π (t.SetRandomDataWriteBufferSourcePath v) = π t) :
    Keeps π (_ParseWriteBufferContent n) := by
  intro t
  unfold _ParseWriteBufferContent
  split
  · dsimp only
    split_ifs
    · rfl
    · exact hz _ _
    · exact keeps_ParseRandomDataSource π _ hs hp t
    · rfl
    · rfl
  · rfl

/-- The steps from `WriteBufferContent` to `ThreadStride` leave the cache mode, the
alignment and the random-access flag as they were. -/
theorem parseTargetTail_frame (n : Node) (st : HRESULT × Target) :
    (parseTargetTail n st).2.cacheMode = st.2.cacheMode
      ∧ (parseTargetTail n st).2.blockAlignmentInBytes = st.2.blockAlignmentInBytes
      ∧ (parseTargetTail n st).2.useRandomAccessPattern = st.2.useRandomAccessPattern := by
  unfold parseTargetTail
  refine ⟨?_, ?_, ?_⟩
  · iterate 9
      refine Eq.trans (guarded_keeps Target.cacheMode _ (keeps_readField _ _ _ ?_) _) ?_
      · intro _ _; rfl
    exact guarded_keeps Target.cacheMode _
      (keeps_ParseWriteBufferContent _ _ (fun _ _ => rfl) (fun _ _ => rfl)
        (fun _ _ => rfl)) st
  · iterate 9
      refine Eq.trans (guarded_keeps Target.blockAlignmentInBytes _
        (keeps_readField _ _ _ ?_) _) ?_
      · intro _ _; rfl
    exact guarded_keeps Target.blockAlignmentInBytes _
      (keeps_ParseWriteBufferContent _ _ (fun _ _ => rfl) (fun _ _ => rfl)
        (fun _ _ => rfl)) st
  · iterate 9
      refine Eq.trans (guarded_keeps Target.useRandomAccessPattern _
        (keeps_readField _ _ _ ?_) _) ?_
      · intro _ _; rfl
    exact guarded_keeps Target.useRandomAccessPattern _
      (keeps_ParseWriteBufferContent _ _ (fun _ _ => rfl) (fun _ _ => rfl)
        (fun _ _ => rfl)) st

theorem parseTargetTail_succeeded (n : Node) (st : HRESULT × Target)
    (hs : SUCCEEDED st.1 = true)
    (hwb : ∀ t, SUCCEEDED (_ParseWriteBufferContent n t).1 = true) :
    SUCCEEDED (parseTargetTail n st).1 = true := by
  unfold parseTargetTail
  iterate 9
    refine guarded_succeeds _ (succeeds_readField _ _ ?_) _ ?_
    · first
      | exact succeeded_GetUINT32 _ _ _
      | exact succeeded_GetUINT64 _ _ _
      | exact succeeded_GetBool _ _ _
      | exact succeeded_GetDWORD _ _ _
  exact guarded_succeeds _ hwb _ hs

/-- With the priority in range the last step of `_ParseTarget` has a defined result, and
it changes at most the priority hint. -/
theorem parseTargetPriority_defined (n : Node) (st : HRESULT × Target)
    (h : priorityInRange n) :
    ∃ r, parseTargetPriority n st = some r
      ∧ (r.2 = st.2 ∨ ∃ v, r.2 = st.2.SetIOPriorityHint v) := by
  unfold parseTargetPriority
  by_cases hs : SUCCEEDED st.1 = true
  · rw [if_pos hs]
    dsimp only
    cases hsel : selectSingleNode n (.rel ["IOPriority"]) with
    | none =>
      refine ⟨(HRESULT.S_FALSE, st.2), ?_, Or.inl rfl⟩
      simp [_GetUINT32, hsel, present, SUCCEEDED]
    | some e =>
      have hlt := h e hsel
      refine ⟨(HRESULT.S_OK, st.2.SetIOPriorityHint (hint.get ⟨_, hlt⟩)), ?_,
        Or.inr ⟨_, rfl⟩⟩
      simp only [_GetUINT32, hsel, present, SUCCEEDED, List.get?_eq_get hlt]
      rfl
  · rw [if_neg hs]
    exact ⟨st, rfl, Or.inl rfl⟩

/-- C6 (counterexample): `priorityAfterBadPatternTarget` has `<IOPriority>1</IOPriority>`,
yet `_ParseTarget` returns `E_INVALIDARG` and the hint keeps the value `Normal` of
`sampleTarget`: the `WriteBufferContent` step failed before, so `IOPriority` is never
read. -/
theorem C6_priority_not_read_after_failure :
    (selectSingleNode priorityAfterBadPatternTarget (.rel ["IOPriority"])).map Node.text
        = some "1"
      ∧ (_ParseTarget priorityAfterBadPatternTarget sampleTarget).map
          (fun r => (r.1, r.2.ioPriorityHint))
        = some (HRESULT.E_INVALIDARG, PRIORITY_HINT.IoPriorityHintNormal)
      ∧ PRIORITY_HINT.IoPriorityHintNormal ≠ PRIORITY_HINT.IoPriorityHintVeryLow := by
  decide

/-- C6 (amended): for every target node whose `WriteBufferContent` step raises no error
and whose `IOPriority` element has text 1, 2 or 3, `_ParseTarget` returns `S_OK` and sets
`io_priority_hint` to VeryLow, Low or Normal respectively. -/
theorem C6_priority_one_to_three (XmlNode : Node) (pTarget : Target) (e : Node)
    (hwb : ∀ t, SUCCEEDED (_ParseWriteBufferContent XmlNode t).1 = true)
    (hsel : selectSingleNode XmlNode (.rel ["IOPriority"]) = some e) :
    (e.text = "1" → ∃ t', _ParseTarget XmlNode pTarget = some (HRESULT.S_OK, t')
        ∧ t'.ioPriorityHint = PRIORITY_HINT.IoPriorityHintVeryLow)
      ∧ (e.text = "2" → ∃ t', _ParseTarget XmlNode pTarget = some (HRESULT.S_OK, t')
        ∧ t'.ioPriorityHint = PRIORITY_HINT.IoPriorityHintLow)
      ∧ (e.text = "3" → ∃ t', _ParseTarget XmlNode pTarget = some (HRESULT.S_OK, t')
        ∧ t'.ioPriorityHint = PRIORITY_HINT.IoPriorityHintNormal) := by
  have hs : SUCCEEDED (parseTargetTail XmlNode (parseTargetAccess XmlNode
      (parseTargetHead XmlNode pTarget))).1 = true :=
    parseTargetTail_succeeded _ _
      (parseTargetAccess_succeeded _ _ (parseTargetHead_succeeded _ _)) hwb
  have key : ∀ (txt : String) (v : PRIORITY_HINT), e.text = txt →
      hint.get? (hintIndex (toUINT32 (_wtoi txt))) = some v →
      ∃ t', _ParseTarget XmlNode pTarget = some (HRESULT.S_OK, t')
        ∧ t'.ioPriorityHint = v := by
    intro txt v htxt hv
    refine ⟨(parseTargetTail XmlNode (parseTargetAccess XmlNode
      (parseTargetHead XmlNode pTarget))).2.SetIOPriorityHint v, ?_, rfl⟩
    unfold _ParseTarget parseTargetPriority
    rw [if_pos hs]
    simp only [_GetUINT32, hsel, htxt, present, SUCCEEDED, hv]
    rfl
  exact ⟨fun h => key "1" _ h (by decide), fun h => key "2" _ h (by decide),
    fun h => key "3" _ h (by decide)⟩

/-- C6 (amended) at a concrete input: `priorityTwoTarget` has no `WriteBufferContent` and
`<IOPriority>2</IOPriority>`; the hint becomes Low. -/
theorem C6_priority_one_to_three_witness :
    ∃ t', _ParseTarget priorityTwoTarget sampleTarget = some (HRESULT.S_OK, t')
      ∧ t'.ioPriorityHint = PRIORITY_HINT.IoPriorityHintLow :=
  (C6_priority_one_to_three priorityTwoTarget sampleTarget (leaf "IOPriority" "2")
    (fun _ => rfl) rfl).2.1 rfl

/-- C8 (counterexample): in `cacheOsLastTarget` the three cache elements all read true and
`DisableOSCache` stands last in document order, yet the parsed cache mode is
`DisableLocalCache`. -/
theorem C8_last_in_document_does_not_win :
    (∀ name ∈ ["DisableOSCache", "DisableAllCache", "DisableLocalCache"],
        (selectSingleNode cacheOsLastTarget (.rel [name])).map
          (fun e => wcsicmpEq "true" e.text) = some true)
      ∧ lastCacheVariant cacheOsLastTarget = some TargetCacheMode.DisableOSCache
      ∧ (_ParseTarget cacheOsLastTarget sampleTarget).map (fun r => r.2.cacheMode)
        = some TargetCacheMode.DisableLocalCache
      ∧ TargetCacheMode.DisableLocalCache ≠ TargetCacheMode.DisableOSCache := by
  decide

/-- C8 (amended): for every target node in which `DisableOSCache`, `DisableAllCache` and
`DisableLocalCache` all appear with value true, in whatever document order, and whose
`IOPriority` (if any) is in range, the parsed cache mode is `DisableLocalCache`, the
variant of the element the code reads last. -/
theorem C8_cache_mode_is_local_cache (XmlNode : Node) (pTarget : Target)
    (eOs eAll eLocal : Node)
    (_hOs : selectSingleNode XmlNode (.rel ["DisableOSCache"]) = some eOs)
    (_hOsTrue : wcsicmpEq "true" eOs.text = true)
    (_hAll : selectSingleNode XmlNode (.rel ["DisableAllCache"]) = some eAll)
    (_hAllTrue : wcsicmpEq "true" eAll.text = true)
    (hLocal : selectSingleNode XmlNode (.rel ["DisableLocalCache"]) = some eLocal)
    (hLocalTrue : wcsicmpEq "true" eLocal.text = true)
    (hprio : priorityInRange XmlNode) :
    ∃ hr t', _ParseTarget XmlNode pTarget = some (hr, t')
      ∧ t'.cacheMode = TargetCacheMode.DisableLocalCache := by
  have hacc := parseTargetAccess_cacheMode_local XmlNode (parseTargetHead XmlNode pTarget)
    (parseTargetHead_succeeded _ _) eLocal hLocal hLocalTrue
  have htail := (parseTargetTail_frame XmlNode
    (parseTargetAccess XmlNode (parseTargetHead XmlNode pTarget))).1
  obtain ⟨r, hr, hfr⟩ := parseTargetPriority_defined XmlNode
    (parseTargetTail XmlNode (parseTargetAccess XmlNode (parseTargetHead XmlNode pTarget)))
    hprio
  refine ⟨r.1, r.2, hr, ?_⟩
  rcases hfr with h | ⟨v, h⟩ <;> rw [h]
  · exact htail.trans hacc
  · exact htail.trans hacc

/-- C8 (amended) at a concrete input: `cacheOsLastTarget`, whose last cache element is
`DisableOSCache`, is parsed to `DisableLocalCache`. -/
theorem C8_cache_mode_is_local_cache_witness :
    ∃ hr t', _ParseTarget cacheOsLastTarget sampleTarget = some (hr, t')
      ∧ t'.cacheMode = TargetCacheMode.DisableLocalCache :=
  C8_cache_mode_is_local_cache cacheOsLastTarget sampleTarget
    (leaf "DisableOSCache" "true") (leaf "DisableAllCache" "true")
    (leaf "DisableLocalCache" "true") rfl (by decide) rfl (by decide) rfl (by decide)
    (fun e h => by
      have hnone : selectSingleNode cacheOsLastTarget (.rel ["IOPriority"]) = none := rfl
      rw [hnone] at h
      cases h)

/-- C9 (counterexample): in `strideAfterRandomTarget` the element `StrideSize` (value 4)
follows `Random` (value 8) in document order, yet the parsed alignment is 8. -/
theorem C9_later_stride_does_not_win :
    strideAfterRandomTarget.children.map Node.name = ["Random", "StrideSize"]
      ∧ _GetUINT64 strideAfterRandomTarget (.rel ["StrideSize"]) 0 = (HRESULT.S_OK, 4)
      ∧ _GetUINT64 strideAfterRandomTarget (.rel ["Random"]) 0 = (HRESULT.S_OK, 8)
      ∧ (_ParseTarget strideAfterRandomTarget sampleTarget).map
          (fun r => r.2.blockAlignmentInBytes) = some 8 := by
  decide

/-- C9 (amended): for every target node that contains both a `StrideSize` and a `Random`
element, in whatever document order, and whose `IOPriority` (if any) is in range, the
parsed alignment is the value `_GetUINT64` reads from `Random`: the code reads
`StrideSize` first and `Random` afterwards. -/
theorem C9_alignment_is_random_value (XmlNode : Node) (pTarget : Target)
    (eStride eRandom : Node)
    (_hStride : selectSingleNode XmlNode (.rel ["StrideSize"]) = some eStride)
    (hRandom : selectSingleNode XmlNode (.rel ["Random"]) = some eRandom)
    (hprio : priorityInRange XmlNode) :
    ∃ hr t', _ParseTarget XmlNode pTarget = some (hr, t')
      ∧ t'.blockAlignmentInBytes = (_GetUINT64 XmlNode (.rel ["Random"]) 0).2
      ∧ t'.blockAlignmentInBytes = toUINT64 (_wtoi64 eRandom.text) := by
  have hacc := (parseTargetAccess_blockAlignment XmlNode (parseTargetHead XmlNode pTarget)
    (parseTargetHead_succeeded _ _) eRandom hRandom).1
  have htail := (parseTargetTail_frame XmlNode
    (parseTargetAccess XmlNode (parseTargetHead XmlNode pTarget))).2.1
  have hval : (_GetUINT64 XmlNode (.rel ["Random"]) 0).2 = toUINT64 (_wtoi64 eRandom.text) := by
    simp [_GetUINT64, hRandom]
  obtain ⟨r, hr, hfr⟩ := parseTargetPriority_defined XmlNode
    (parseTargetTail XmlNode (parseTargetAccess XmlNode (parseTargetHead XmlNode pTarget)))
    hprio
  refine ⟨r.1, r.2, hr, ?_⟩
  rw [hval]
  rcases hfr with h | ⟨v, h⟩ <;> rw [h]
  · exact ⟨htail.trans hacc, htail.trans hacc⟩
  · exact ⟨htail.trans hacc, htail.trans hacc⟩

/-- C9 (amended) at a concrete input: `strideAfterRandomTarget` is parsed to the
alignment 8 of its `Random` element. -/
theorem C9_alignment_is_random_value_witness :
    ∃ hr t', _ParseTarget strideAfterRandomTarget sampleTarget = some (hr, t')
      ∧ t'.blockAlignmentInBytes
        = (_GetUINT64 strideAfterRandomTarget (.rel ["Random"]) 0).2
      ∧ t'.blockAlignmentInBytes = toUINT64 (_wtoi64 (leaf "Random" "8").text) :=
  C9_alignment_is_random_value strideAfterRandomTarget sampleTarget
    (leaf "StrideSize" "4") (leaf "Random" "8") rfl rfl
    (fun e h => by
      have hnone : selectSingleNode strideAfterRandomTarget (.rel ["IOPriority"]) = none :=
        rfl
      rw [hnone] at h
      cases h)

/-! ## Affinity -/

theorem foldl_affinityAssignmentStep (nodes : List Node) :
    ∀ st : HRESULT × TimeSpan, SUCCEEDED st.1 = true →
      SUCCEEDED (nodes.foldl affinityAssignmentStep st).1 = true
        ∧ (nodes.foldl affinityAssignmentStep st).2.affinity
          = st.2.affinity ++ nodes.map (fun c => (toWORD 0, toBYTE (_wtoi c.text))) := by
  induction nodes with
  | nil =>
    intro st hs
    exact ⟨hs, (List.append_nil _).symm⟩
  | cons c cs ih =>
    intro st _
    obtain ⟨h1, h2⟩ := ih (affinityAssignmentStep st c) rfl
    refine ⟨h1, h2.trans ?_⟩
    simp [affinityAssignmentStep, TimeSpan.AddAffinityAssignment]

theorem affinityGroupAssignmentStep_in_range (st : HRESULT × TimeSpan) (c : Node)
    (hp : processorAttr c ≤ MAXBYTE) (hg : groupAttr c ≤ MAXWORD) :
    affinityGroupAssignmentStep st c
      = (HRESULT.S_OK, st.2.AddAffinityAssignment (groupAttr c) (processorAttr c)) := by
  have h1 : (_GetUINT32Attr c "Group" 0).1 = HRESULT.S_OK := by
    unfold _GetUINT32Attr
    dsimp only
    split <;> (try split) <;> rfl
  have hw : toWORD ((groupAttr c : Nat) : Int) = groupAttr c := by
    unfold toWORD
    unfold MAXWORD at hg
    omega
  have hb : toBYTE ((processorAttr c : Nat) : Int) = processorAttr c := by
    unfold toBYTE
    unfold MAXBYTE at hp
    omega
  unfold affinityGroupAssignmentStep
  simp only [h1, SUCCEEDED, if_true]
  have hp' : ¬ (_GetUINT32Attr c "Processor" 0).2 > MAXBYTE := Nat.not_lt.mpr hp
  have hg' : ¬ (_GetUINT32Attr c "Group" 0).2 > MAXWORD := Nat.not_lt.mpr hg
  simp only [hp', hg', if_false, SUCCEEDED, if_true]
  unfold groupAttr at hw
  unfold processorAttr at hb
  rw [hw, hb]
  rfl

theorem foldl_affinityGroupAssignmentStep (nodes : List Node) :
    ∀ st : HRESULT × TimeSpan, SUCCEEDED st.1 = true →
      (∀ c ∈ nodes, processorAttr c ≤ MAXBYTE ∧ groupAttr c ≤ MAXWORD) →
      SUCCEEDED (nodes.foldl affinityGroupAssignmentStep st).1 = true
        ∧ (nodes.foldl affinityGroupAssignmentStep st).2.affinity
          = st.2.affinity ++ nodes.map (fun c => (groupAttr c, processorAttr c)) := by
  induction nodes with
  | nil =>
    intro st hs _
    exact ⟨hs, (List.append_nil _).symm⟩
  | cons c cs ih =>
    intro st _ hr
    have hc := hr c (List.mem_cons_self _ _)
    have hstep := affinityGroupAssignmentStep_in_range st c hc.1 hc.2
    obtain ⟨h1, h2⟩ := ih (affinityGroupAssignmentStep st c) (by rw [hstep]; rfl)
      (fun d hd => hr d (List.mem_cons_of_mem _ hd))
    refine ⟨h1, h2.trans ?_⟩
    rw [hstep]
    simp [TimeSpan.AddAffinityAssignment]

/-- The two affinity steps of `_ParseTimeSpan`, run on a state whose code is a success
and with every entry in range, append the legacy entries and then the group-aware
entries. -/
theorem affinity_steps (n : Node) (st : HRESULT × TimeSpan) (hs : SUCCEEDED st.1 = true)
    (hLegacy : ∀ c ∈ selectNodes n (.rel ["Affinity", "AffinityAssignment"]),
      0 ≤ _wtoi c.text ∧ _wtoi c.text ≤ 255)
    (hGroup : ∀ c ∈ selectNodes n (.rel ["Affinity", "AffinityGroupAssignment"]),
      processorAttr c ≤ MAXBYTE ∧ groupAttr c ≤ MAXWORD) :
    SUCCEEDED (guarded (_ParseAffinityGroupAssignment n)
        (guarded (_ParseAffinityAssignment n) st)).1 = true
      ∧ (guarded (_ParseAffinityGroupAssignment n)
        (guarded (_ParseAffinityAssignment n) st)).2.affinity
        = st.2.affinity
          ++ (selectNodes n (.rel ["Affinity", "AffinityAssignment"])).map
            (fun c => (0, (_wtoi c.text).toNat))
          ++ (selectNodes n (.rel ["Affinity", "AffinityGroupAssignment"])).map
            (fun c => (groupAttr c, processorAttr c)) := by
  rw [guarded_eq _ _ hs]
  obtain ⟨l1, l2⟩ := foldl_affinityAssignmentStep
    (selectNodes n (.rel ["Affinity", "AffinityAssignment"])) (HRESULT.S_OK, st.2) rfl
  have hs1 : SUCCEEDED (_ParseAffinityAssignment n st.2).1 = true := l1
  rw [guarded_eq _ _ hs1]
  obtain ⟨g1, g2⟩ := foldl_affinityGroupAssignmentStep
    (selectNodes n (.rel ["Affinity", "AffinityGroupAssignment"]))
    (HRESULT.S_OK, (_ParseAffinityAssignment n st.2).2) rfl hGroup
  refine ⟨g1, g2.trans ?_⟩
  have l3 : (_ParseAffinityAssignment n st.2).2.affinity
      = st.2.affinity ++ (selectNodes n (.rel ["Affinity", "AffinityAssignment"])).map
          (fun c => (0, (_wtoi c.text).toNat)) := by
    refine l2.trans ?_
    congr 1
    refine List.map_congr_left ?_
    intro c hc
    obtain ⟨h0, h255⟩ := hLegacy c hc
    have hw : toWORD 0 = 0 := by decide
    have hb : toBYTE (_wtoi c.text) = (_wtoi c.text).toNat := by
      unfold toBYTE
      omega
    rw [hw, hb]
  show (_ParseAffinityAssignment n st.2).2.affinity ++ _ = _
  rw [l3]

/-- Up to the group-aware affinity list, `_ParseTimeSpan` succeeds on a node whose
affinity entries are all in range, and leaves the legacy entries followed by the
group-aware entries behind the entries the time span had. -/
theorem parseTimeSpanFields_affinity (n : Node) (ts : TimeSpan)
    (hLegacy : ∀ c ∈ selectNodes n (.rel ["Affinity", "AffinityAssignment"]),
      0 ≤ _wtoi c.text ∧ _wtoi c.text ≤ 255)
    (hGroup : ∀ c ∈ selectNodes n (.rel ["Affinity", "AffinityGroupAssignment"]),
      processorAttr c ≤ MAXBYTE ∧ groupAttr c ≤ MAXWORD) :
    SUCCEEDED (parseTimeSpanFields n ts).1 = true
      ∧ (parseTimeSpanFields n ts).2.affinity
        = ts.affinity
          ++ (selectNodes n (.rel ["Affinity", "AffinityAssignment"])).map
            (fun c => (0, (_wtoi c.text).toNat))
          ++ (selectNodes n (.rel ["Affinity", "AffinityGroupAssignment"])).map
            (fun c => (groupAttr c, processorAttr c)) := by
  unfold parseTimeSpanFields
  have hs : SUCCEEDED
      (readField (_GetUINT32 n (.rel ["Duration"]) 0) TimeSpan.SetDuration ts
      |> guarded (readField (_GetUINT32 n (.rel ["Warmup"]) 0) TimeSpan.SetWarmup)
      |> guarded (readField (_GetUINT32 n (.rel ["Cooldown"]) 0) TimeSpan.SetCooldown)
      |> guarded (readField (_GetUINT32 n (.rel ["RandSeed"]) 0) TimeSpan.SetRandSeed)
      |> guarded (readField (_GetUINT32 n (.rel ["ThreadCount"]) 0) TimeSpan.SetThreadCount)
      |> guarded (readField (_GetBool n (.rel ["DisableAffinity"]) false)
          TimeSpan.SetDisableAffinity)
      |> guarded (readField (_GetBool n (.rel ["CompletionRoutines"]) false)
          TimeSpan.SetCompletionRoutines)
      |> guarded (readField (_GetBool n (.rel ["MeasureLatency"]) false)
          TimeSpan.SetMeasureLatency)
      |> guarded (readField (_GetBool n (.rel ["CalculateIopsStdDev"]) false)
          TimeSpan.SetCalculateIopsStdDev)
      |> guarded (readField (_GetUINT32 n (.rel ["IoBucketDuration"]) 0)
          TimeSpan.SetIoBucketDurationInMilliseconds)).1 = true := by
    iterate 9
      refine guarded_succeeds _ (succeeds_readField _ _ ?_) _ ?_
      · first
        | exact succeeded_GetUINT32 _ _ _
        | exact succeeded_GetBool _ _ _
    exact succeeded_GetUINT32 _ _ _
  obtain ⟨a1, a2⟩ := affinity_steps n _ hs hLegacy hGroup
  refine ⟨a1, a2.trans ?_⟩
  congr 2
  iterate 9
    refine Eq.trans (guarded_keeps TimeSpan.affinity _ (keeps_readField _ _ _ ?_) _) ?_
    · intro _ _; rfl
  refine keeps_readField TimeSpan.affinity _ _ ?_ ts
  intro _ _; rfl

/-- The loop of `_ParseTargets` leaves the affinity list alone and ends on a success
code when it started on one. -/
theorem parseTargetsLoop_frame (newTarget : Target) :
    ∀ (nodes : List Node) (st r : HRESULT × TimeSpan),
      _ParseTargets.loop newTarget nodes st = some r →
      r.2.affinity = st.2.affinity ∧ (SUCCEEDED st.1 = true → SUCCEEDED r.1 = true) := by
  intro nodes
  induction nodes with
  | nil =>
    intro st r h
    have h1 : some st = some r := h
    cases h1
    exact ⟨rfl, id⟩
  | cons spNode rest ih =>
    intro st r h
    have h1 : (match _ParseTarget spNode newTarget with
        | some r1 =>
          _ParseTargets.loop newTarget rest (HRESULT.S_OK, st.2.AddTarget r1.2)
        | none => none) = some r := h
    cases ht : _ParseTarget spNode newTarget with
    | none =>
      rw [ht] at h1
      cases h1
    | some r1 =>
      rw [ht] at h1
      obtain ⟨h2, h3⟩ := ih _ _ h1
      exact ⟨h2, fun _ => h3 rfl⟩

/-- The loop of `_ParseTargets` has a defined result when the priority of every target
is in range. -/
theorem parseTargetsLoop_defined (newTarget : Target) :
    ∀ (nodes : List Node) (st : HRESULT × TimeSpan),
      (∀ c ∈ nodes, priorityInRange c) →
      ∃ r, _ParseTargets.loop newTarget nodes st = some r := by
  intro nodes
  induction nodes with
  | nil =>
    intro st _
    exact ⟨st, rfl⟩
  | cons spNode rest ih =>
    intro st h
    obtain ⟨r1, hr1, _⟩ := parseTargetPriority_defined spNode
      (parseTargetTail spNode (parseTargetAccess spNode (parseTargetHead spNode newTarget)))
      (h spNode (List.mem_cons_self _ _))
    have ht : _ParseTarget spNode newTarget = some r1 := hr1
    obtain ⟨r, hr⟩ := ih (HRESULT.S_OK, st.2.AddTarget r1.2)
      (fun c hc => h c (List.mem_cons_of_mem _ hc))
    refine ⟨r, ?_⟩
    show (match _ParseTarget spNode newTarget with
        | some r1 =>
          _ParseTargets.loop newTarget rest (HRESULT.S_OK, st.2.AddTarget r1.2)
        | none => none) = some r
    rw [ht]
    exact hr

/-- C11: for every TimeSpan node whose affinity entries are all in range (legacy
processors within 0..255, group-aware entries with Processor at most 255 and Group at
most 65535), every result of `_ParseTimeSpan` is a success whose affinity list is the
list the time span had, followed by `(0, p)` for each legacy `AffinityAssignment` child
in document order, followed by `(Group, Processor)` for each `AffinityGroupAssignment`
child in document order; and there is a result whenever the targets of the node stay
inside the priority table. -/
theorem C11_affinity_is_legacy_then_group (newTarget : Target) (XmlNode : Node)
    (pTimeSpan : TimeSpan)
    (hLegacy : ∀ c ∈ selectNodes XmlNode (.rel ["Affinity", "AffinityAssignment"]),
      0 ≤ _wtoi c.text ∧ _wtoi c.text ≤ 255)
    (hGroup : ∀ c ∈ selectNodes XmlNode (.rel ["Affinity", "AffinityGroupAssignment"]),
      processorAttr c ≤ MAXBYTE ∧ groupAttr c ≤ MAXWORD) :
    (∀ r, _ParseTimeSpan newTarget XmlNode pTimeSpan = some r →
        SUCCEEDED r.1 = true
          ∧ r.2.affinity
            = pTimeSpan.affinity
              ++ (selectNodes XmlNode (.rel ["Affinity", "AffinityAssignment"])).map
                (fun c => (0, (_wtoi c.text).toNat))
              ++ (selectNodes XmlNode (.rel ["Affinity", "AffinityGroupAssignment"])).map
                (fun c => (groupAttr c, processorAttr c)))
      ∧ ((∀ c ∈ selectNodes XmlNode (.rel ["Targets", "Target"]), priorityInRange c) →
        ∃ r, _ParseTimeSpan newTarget XmlNode pTimeSpan = some r) := by
  obtain ⟨hs, ha⟩ := parseTimeSpanFields_affinity XmlNode pTimeSpan hLegacy hGroup
  have hdef : _ParseTimeSpan newTarget XmlNode pTimeSpan
      = _ParseTargets.loop newTarget (selectNodes XmlNode (.rel ["Targets", "Target"]))
          (HRESULT.S_OK, (parseTimeSpanFields XmlNode pTimeSpan).2) := by
    unfold _ParseTimeSpan
    dsimp only
    rw [if_pos hs]
    rfl
  constructor
  · intro r hr
    rw [hdef] at hr
    obtain ⟨f1, f2⟩ := parseTargetsLoop_frame newTarget _ _ r hr
    exact ⟨f2 rfl, f1.trans ha⟩
  · intro ht
    rw [hdef]
    exact parseTargetsLoop_defined newTarget _ _ ht

/-- C11 at a concrete input: one `AffinityAssignment` with text 5 and one
`AffinityGroupAssignment` with Group 1 and Processor 7 give `[(0, 5), (1, 7)]`. -/
theorem C11_affinity_is_legacy_then_group_witness :
    ∃ r, _ParseTimeSpan sampleTarget mergedAffinityTimeSpan sampleTimeSpan = some r
      ∧ SUCCEEDED r.1 = true ∧ r.2.affinity = [(0, 5), (1, 7)] := by
  have h := C11_affinity_is_legacy_then_group sampleTarget mergedAffinityTimeSpan
    sampleTimeSpan
    (by
      intro c hc
      have hl : selectNodes mergedAffinityTimeSpan (.rel ["Affinity", "AffinityAssignment"])
          = [leaf "AffinityAssignment" "5"] := rfl
      rw [hl, List.mem_singleton] at hc
      subst hc
      decide)
    (by
      intro c hc
      have hl : selectNodes mergedAffinityTimeSpan
          (.rel ["Affinity", "AffinityGroupAssignment"]) = [groupAssignment "1" "7"] := rfl
      rw [hl, List.mem_singleton] at hc
      subst hc
      decide)
  obtain ⟨r, hr⟩ := h.2 (by
    intro c hc
    have hl : selectNodes mergedAffinityTimeSpan (.rel ["Targets", "Target"]) = [] := rfl
    rw [hl] at hc
    cases hc)
  exact ⟨r, hr, (h.1 r hr).1, (h.1 r hr).2.trans (by decide)⟩

/-! ## Strings read through `_GetString` -/

theorem takeFitting_of_le : ∀ (l : List Char) (cb : Nat), utf8Length l ≤ cb →
    takeFitting l cb = l := by
  intro l
  induction l with
  | nil => intro cb _; rfl
  | cons c cs ih =>
    intro cb h
    have h1 : c.utf8Size + utf8Length cs ≤ cb := h
    have h2 : c.utf8Size ≤ cb := by omega
    show (if c.utf8Size ≤ cb then c :: takeFitting cs (cb - c.utf8Size) else []) = c :: cs
    rw [if_pos h2, ih (cb - c.utf8Size) (by omega)]

theorem utf8Length_takeFitting_le : ∀ (l : List Char) (cb : Nat),
    utf8Length (takeFitting l cb) ≤ cb := by
  intro l
  induction l with
  | nil => intro cb; exact Nat.zero_le _
  | cons c cs ih =>
    intro cb
    show utf8Length (if c.utf8Size ≤ cb then c :: takeFitting cs (cb - c.utf8Size) else [])
      ≤ cb
    split
    · have := ih (cb - c.utf8Size)
      show c.utf8Size + utf8Length (takeFitting cs (cb - c.utf8Size)) ≤ cb
      omega
    · exact Nat.zero_le _

/-- A result that leaves room for one more character is the whole input. -/
theorem takeFitting_eq_of_room : ∀ (l r : List Char) (cb : Nat),
    takeFitting l cb = r → utf8Length r + 4 ≤ cb → l = r := by
  intro l
  induction l with
  | nil =>
    intro r cb h _
    exact h
  | cons c cs ih =>
    intro r cb h hroom
    have h1 : (if c.utf8Size ≤ cb then c :: takeFitting cs (cb - c.utf8Size) else []) = r := h
    have h4 : c.utf8Size ≤ 4 := Char.utf8Size_le_four c
    by_cases hc : c.utf8Size ≤ cb
    · rw [if_pos hc] at h1
      subst h1
      have hroom' : c.utf8Size + utf8Length (takeFitting cs (cb - c.utf8Size)) + 4 ≤ cb :=
        hroom
      rw [← ih _ (cb - c.utf8Size) rfl (by omega)]
    · exfalso
      omega

theorem takeWhile_of_noNul (s : String) (h : noNul s) :
    s.toList.takeWhile (fun c => decide (c.toNat ≠ 0)) = s.toList := by
  rw [List.takeWhile_eq_self_iff]
  intro c hc
  exact decide_eq_true (h c hc)

/-- A text without NUL whose encoding fits the buffer is read unchanged. -/
theorem WideCharToMultiByte_of_fits (s : String) (cb : Nat) (hn : noNul s)
    (hl : utf8Length s.toList ≤ cb) : WideCharToMultiByte s cb = s := by
  unfold WideCharToMultiByte
  rw [takeWhile_of_noNul s hn, takeFitting_of_le _ _ hl]
  rfl

/-- A text without NUL that is read as a short string is that string. -/
theorem WideCharToMultiByte_eq_short (s k : String) (cb : Nat) (hn : noNul s)
    (hk : utf8Length k.toList + 4 ≤ cb) (h : WideCharToMultiByte s cb = k) : s = k := by
  unfold WideCharToMultiByte at h
  rw [takeWhile_of_noNul s hn] at h
  have h1 : takeFitting s.toList cb = k.toList := by
    rw [← h]
    rfl
  have h2 := takeFitting_eq_of_room _ _ _ h1 hk
  exact String.ext h2

/-! ## PrecreateFiles -/

/-- A `PrecreateFiles` text outside the keywords of the code makes its step fail and
leaves the profile as the step found it. -/
theorem parsePrecreateFiles_rejects (XmlDoc : Node) (q : Profile) (e : Node)
    (hsel : selectSingleNode XmlDoc (.abs ["Profile", "PrecreateFiles"]) = some e)
    (hnul : noNul e.text) (hbad : e.text ∉ precreateKeywords) :
    parsePrecreateFiles XmlDoc q = (HRESULT.E_INVALIDARG, q) := by
  have hne : ∀ k ∈ precreateKeywords, utf8Length k.toList + 4 ≤ MAX_PATH - 1 →
      WideCharToMultiByte e.text (MAX_PATH - 1) ≠ k := by
    intro k hk hroom hw
    have := WideCharToMultiByte_eq_short e.text k (MAX_PATH - 1) hnul hroom hw
    exact hbad (this ▸ hk)
  have h1 := hne "UseMaxSize" (by simp [precreateKeywords]) (by decide)
  have h2 := hne "CreateOnlyFilesWithConstantSizes" (by simp [precreateKeywords])
    (by decide)
  have h3 := hne "CreateOnlyFilesWithConstantOrZeroSizes" (by simp [precreateKeywords])
    (by decide)
  unfold parsePrecreateFiles _GetString
  simp only [hsel, present, SUCCEEDED]
  simp [h1, h2, h3]

/-- C12: for every well-formed document whose `//Profile/PrecreateFiles` element is
present with a text that is none of the keywords the parser accepts, `ParseFile` reports
failure, and neither the ETW block nor any time span is parsed into the profile: the ETW
block, `time_spans` and `precreate_files` are those the caller passed in. -/
theorem C12_unknown_precreate_keyword_fails (newTimeSpan : TimeSpan) (newTarget : Target)
    (XmlDoc : Node) (pProfile : Profile) (e : Node)
    (hsel : selectSingleNode XmlDoc (.abs ["Profile", "PrecreateFiles"]) = some e)
    (hnul : noNul e.text) (hbad : e.text ∉ precreateKeywords) :
    ∃ p', ParseFile newTimeSpan newTarget (some XmlDoc) pProfile = some (false, p')
      ∧ p'.etw = pProfile.etw ∧ p'.timeSpans = pProfile.timeSpans
      ∧ p'.precreateFiles = pProfile.precreateFiles := by
  have s1 : SUCCEEDED (readField (_GetVerbose XmlDoc false) Profile.SetVerbose
      pProfile).1 = true := succeeded_GetBool _ _ _
  have s2 := guarded_succeeds _
    (succeeds_readField (_GetProgress XmlDoc 0) Profile.SetProgress (succeeded_GetDWORD _ _ _))
    _ s1
  have s3 := guarded_succeeds _ (succeeds_parseResultFormat XmlDoc) _ s2
  have hpf : parseProfileFields XmlDoc pProfile
      = (HRESULT.E_INVALIDARG, (guarded (parseResultFormat XmlDoc)
          (guarded (readField (_GetProgress XmlDoc 0) Profile.SetProgress)
          (readField (_GetVerbose XmlDoc false) Profile.SetVerbose pProfile))).2) := by
    unfold parseProfileFields
    show guarded (_ParseEtw XmlDoc) (guarded (parsePrecreateFiles XmlDoc) _) = _
    rw [guarded_eq _ _ s3, parsePrecreateFiles_rejects XmlDoc _ e hsel hnul hbad]
    exact guarded_failed _ _ rfl
  refine ⟨(parseProfileFields XmlDoc pProfile).2, ?_, ?_, ?_, ?_⟩
  · show (if SUCCEEDED (parseProfileFields XmlDoc pProfile).1 = true then
        (_ParseTimeSpans newTimeSpan newTarget XmlDoc
          (parseProfileFields XmlDoc pProfile).2).map (fun r => (SUCCEEDED r.1, r.2))
      else some (SUCCEEDED (parseProfileFields XmlDoc pProfile).1,
        (parseProfileFields XmlDoc pProfile).2)) = _
    rw [hpf]
    rfl
  · rw [hpf]
    refine Eq.trans (guarded_keeps Profile.etw _
      (keeps_parseResultFormat _ _ (fun _ _ => rfl)) _) ?_
    refine Eq.trans (guarded_keeps Profile.etw _ (keeps_readField _ _ _ ?_) _) ?_
    · intro _ _; rfl
    refine keeps_readField Profile.etw _ _ ?_ pProfile
    intro _ _; rfl
  · rw [hpf]
    refine Eq.trans (guarded_keeps Profile.timeSpans _
      (keeps_parseResultFormat _ _ (fun _ _ => rfl)) _) ?_
    refine Eq.trans (guarded_keeps Profile.timeSpans _ (keeps_readField _ _ _ ?_) _) ?_
    · intro _ _; rfl
    refine keeps_readField Profile.timeSpans _ _ ?_ pProfile
    intro _ _; rfl
  · rw [hpf]
    refine Eq.trans (guarded_keeps Profile.precreateFiles _
      (keeps_parseResultFormat _ _ (fun _ _ => rfl)) _) ?_
    refine Eq.trans (guarded_keeps Profile.precreateFiles _ (keeps_readField _ _ _ ?_) _) ?_
    · intro _ _; rfl
    refine keeps_readField Profile.precreateFiles _ _ ?_ pProfile
    intro _ _; rfl

/-- C12 at a concrete input: `bogusPrecreateDoc` names the keyword `bogus`, an ETW flag
and a time span; the parse fails with the ETW block and the time spans of
`sampleProfile` untouched. -/
theorem C12_unknown_precreate_keyword_fails_witness :
    ∃ p', ParseFile sampleTimeSpan sampleTarget (some bogusPrecreateDoc) sampleProfile
        = some (false, p')
      ∧ p'.etw = sampleProfile.etw ∧ p'.timeSpans = sampleProfile.timeSpans
      ∧ p'.precreateFiles = sampleProfile.precreateFiles :=
  C12_unknown_precreate_keyword_fails sampleTimeSpan sampleTarget bogusPrecreateDoc
    sampleProfile (leaf "PrecreateFiles" "bogus") rfl (by unfold noNul; decide) (by decide)

theorem succeeds_ParseEtw (XmlDoc : Node) : Succeeds (_ParseEtw XmlDoc) := by
  intro p
  unfold _ParseEtw
  iterate 11
    refine guarded_succeeds _ (succeeds_readField _ _ (succeeded_GetBool _ _ _)) _ ?_
  exact succeeded_GetBool _ _ _

/-- The three keywords the code compares with are taken as their variants. -/
theorem parsePrecreateFiles_accepts (XmlDoc : Node) (q : Profile) (e : Node)
    (hsel : selectSingleNode XmlDoc (.abs ["Profile", "PrecreateFiles"]) = some e) :
    (e.text = "UseMaxSize" → parsePrecreateFiles XmlDoc q
        = (HRESULT.S_OK, q.SetPrecreateFiles PrecreateFiles.UseMaxSize))
      ∧ (e.text = "CreateOnlyFilesWithConstantSizes" → parsePrecreateFiles XmlDoc q
        = (HRESULT.S_OK, q.SetPrecreateFiles PrecreateFiles.OnlyFilesWithConstantSizes))
      ∧ (e.text = "CreateOnlyFilesWithConstantOrZeroSizes" → parsePrecreateFiles XmlDoc q
        = (HRESULT.S_OK,
            q.SetPrecreateFiles PrecreateFiles.OnlyFilesWithConstantOrZeroSizes)) := by
  have w1 : WideCharToMultiByte "UseMaxSize" (MAX_PATH - 1) = "UseMaxSize" := by decide
  have w2 : WideCharToMultiByte "CreateOnlyFilesWithConstantSizes" (MAX_PATH - 1)
      = "CreateOnlyFilesWithConstantSizes" := by decide
  have w3 : WideCharToMultiByte "CreateOnlyFilesWithConstantOrZeroSizes" (MAX_PATH - 1)
      = "CreateOnlyFilesWithConstantOrZeroSizes" := by decide
  refine ⟨?_, ?_, ?_⟩ <;> intro ht <;> unfold parsePrecreateFiles _GetString <;>
    simp only [hsel, ht, present, SUCCEEDED, w1, w2, w3] <;> rfl

/-- Once the `PrecreateFiles` step has stored the variant `v`, `ParseFile` keeps it. -/
theorem acceptsPrecreate_of_step (newTimeSpan : TimeSpan) (newTarget : Target)
    (XmlDoc : Node) (pProfile : Profile) (v : PrecreateFiles)
    (h : ∀ q, parsePrecreateFiles XmlDoc q = (HRESULT.S_OK, q.SetPrecreateFiles v)) :
    acceptsPrecreate newTimeSpan newTarget XmlDoc pProfile v := by
  have s1 : SUCCEEDED (readField (_GetVerbose XmlDoc false) Profile.SetVerbose
      pProfile).1 = true := succeeded_GetBool _ _ _
  have s2 := guarded_succeeds _
    (succeeds_readField (_GetProgress XmlDoc 0) Profile.SetProgress (succeeded_GetDWORD _ _ _))
    _ s1
  have s3 := guarded_succeeds _ (succeeds_parseResultFormat XmlDoc) _ s2
  have s4 : SUCCEEDED (guarded (parsePrecreateFiles XmlDoc)
      (guarded (parseResultFormat XmlDoc)
        (guarded (readField (_GetProgress XmlDoc 0) Profile.SetProgress)
        (readField (_GetVerbose XmlDoc false) Profile.SetVerbose pProfile)))).1 = true := by
    rw [guarded_eq _ _ s3, h]
    rfl
  have hs : SUCCEEDED (parseProfileFields XmlDoc pProfile).1 = true :=
    guarded_succeeds _ (succeeds_ParseEtw XmlDoc) _ s4
  have hv : (parseProfileFields XmlDoc pProfile).2.precreateFiles = v := by
    unfold parseProfileFields
    refine Eq.trans (guarded_keeps Profile.precreateFiles _
      (keeps_ParseEtw _ _ (fun _ _ => rfl)) _) ?_
    show (guarded (parsePrecreateFiles XmlDoc) _).2.precreateFiles = v
    rw [guarded_eq _ _ s3, h]
    rfl
  have hpf : ParseFile newTimeSpan newTarget (some XmlDoc) pProfile
      = (_ParseTimeSpans.loop newTimeSpan newTarget
          (selectNodes XmlDoc (.abs ["Profile", "TimeSpans", "TimeSpan"]))
          (HRESULT.S_OK, (parseProfileFields XmlDoc pProfile).2)).map
          (fun r => (SUCCEEDED r.1, r.2)) := by
    show (if SUCCEEDED (parseProfileFields XmlDoc pProfile).1 = true then
        (_ParseTimeSpans newTimeSpan newTarget XmlDoc
          (parseProfileFields XmlDoc pProfile).2).map (fun r => (SUCCEEDED r.1, r.2))
      else some (SUCCEEDED (parseProfileFields XmlDoc pProfile).1,
        (parseProfileFields XmlDoc pProfile).2)) = _
    rw [if_pos hs]
    rfl
  refine ⟨hs, ?_, ?_⟩
  · intro r hr
    rw [hpf] at hr
    cases hloop : _ParseTimeSpans.loop newTimeSpan newTarget
        (selectNodes XmlDoc (.abs ["Profile", "TimeSpans", "TimeSpan"]))
        (HRESULT.S_OK, (parseProfileFields XmlDoc pProfile).2) with
    | none =>
      rw [hloop] at hr
      cases hr
    | some r1 =>
      rw [hloop] at hr
      have h2 : (SUCCEEDED r1.1, r1.2) = r := Option.some.inj hr
      subst h2
      exact (parseTimeSpansLoop_frame newTimeSpan newTarget _ _ r1 hloop).2.2.2.1.trans hv
  · intro hnone
    refine ⟨(parseProfileFields XmlDoc pProfile).2, ?_, hv⟩
    rw [hpf, hnone]
    rfl

/-- C13 (counterexample): the documents whose `PrecreateFiles` text is
`OnlyFilesWithConstantSizes` or `OnlyFilesWithConstantOrZeroSizes`, the names of the
variants, are rejected: `ParseFile` returns false and `precreate_files` stays `None`. -/
theorem C13_variant_names_are_rejected :
    ParseFile sampleTimeSpan sampleTarget (some variantNamePrecreateDoc) sampleProfile
        = some (false, sampleProfile)
      ∧ ParseFile sampleTimeSpan sampleTarget
          (some (el "Profile" [leaf "PrecreateFiles" "OnlyFilesWithConstantOrZeroSizes"]))
          sampleProfile
        = some (false, sampleProfile)
      ∧ sampleProfile.precreateFiles = PrecreateFiles.None := by
  decide

/-- C13 (amended): a document whose `//Profile/PrecreateFiles` text is exactly
`UseMaxSize`, `CreateOnlyFilesWithConstantSizes` or
`CreateOnlyFilesWithConstantOrZeroSizes` passes the `PrecreateFiles` step of `ParseFile`,
which sets `precreate_files` to `UseMaxSize`, `OnlyFilesWithConstantSizes` or
`OnlyFilesWithConstantOrZeroSizes` respectively; the call itself returns true when the
document has no `TimeSpan` node. -/
theorem C13_precreate_keywords_of_the_code (newTimeSpan : TimeSpan) (newTarget : Target)
    (XmlDoc : Node) (pProfile : Profile) (e : Node)
    (hsel : selectSingleNode XmlDoc (.abs ["Profile", "PrecreateFiles"]) = some e) :
    (e.text = "UseMaxSize" →
        acceptsPrecreate newTimeSpan newTarget XmlDoc pProfile PrecreateFiles.UseMaxSize)
      ∧ (e.text = "CreateOnlyFilesWithConstantSizes" →
        acceptsPrecreate newTimeSpan newTarget XmlDoc pProfile
          PrecreateFiles.OnlyFilesWithConstantSizes)
      ∧ (e.text = "CreateOnlyFilesWithConstantOrZeroSizes" →
        acceptsPrecreate newTimeSpan newTarget XmlDoc pProfile
          PrecreateFiles.OnlyFilesWithConstantOrZeroSizes) :=
  ⟨fun ht => acceptsPrecreate_of_step _ _ _ _ _
      (fun q => (parsePrecreateFiles_accepts XmlDoc q e hsel).1 ht),
    fun ht => acceptsPrecreate_of_step _ _ _ _ _
      (fun q => (parsePrecreateFiles_accepts XmlDoc q e hsel).2.1 ht),
    fun ht => acceptsPrecreate_of_step _ _ _ _ _
      (fun q => (parsePrecreateFiles_accepts XmlDoc q e hsel).2.2 ht)⟩

/-- C13 (amended) at a concrete input: `createOnlyPrecreateDoc` is accepted and sets
`precreate_files` to `OnlyFilesWithConstantSizes`. -/
theorem C13_precreate_keywords_of_the_code_witness :
    ∃ p', ParseFile sampleTimeSpan sampleTarget (some createOnlyPrecreateDoc) sampleProfile
        = some (true, p')
      ∧ p'.precreateFiles = PrecreateFiles.OnlyFilesWithConstantSizes :=
  ((C13_precreate_keywords_of_the_code sampleTimeSpan sampleTarget createOnlyPrecreateDoc
    sampleProfile (leaf "PrecreateFiles" "CreateOnlyFilesWithConstantSizes") rfl).2.1
    rfl).2.2 rfl

/-! ## The readers on texts of the wrong form -/

/-- C14 (counterexample): on the texts `yes`, `1` and `tru` the reader `_GetBool` answers
`S_OK` with the value false; it reports no failure. -/
theorem C14_bool_reader_accepts_any_text :
    _GetBool (probe "yes") (.rel ["Value"]) true = (HRESULT.S_OK, false)
      ∧ _GetBool (probe "1") (.rel ["Value"]) true = (HRESULT.S_OK, false)
      ∧ _GetBool (probe "tru") (.rel ["Value"]) true = (HRESULT.S_OK, false)
      ∧ SUCCEEDED HRESULT.S_OK = true := by
  decide

/-- C14 (amended): for every context node and query selecting an existing element,
`_GetBool` answers `S_OK`; it yields true when the text equals `true` without regard to
the case of the letters, and false for every other text, be it `false` in any case,
`yes`, `1`, `tru` or the empty text. -/
theorem C14_bool_reader_true_or_false (XmlNode : Node) (pszQuery : XPath) (pfValue : Bool)
    (e : Node) (hsel : selectSingleNode XmlNode pszQuery = some e) :
    (_GetBool XmlNode pszQuery pfValue).1 = HRESULT.S_OK
      ∧ (e.text.toList.map lowerChar = ['t', 'r', 'u', 'e'] →
        (_GetBool XmlNode pszQuery pfValue).2 = true)
      ∧ (e.text.toList.map lowerChar ≠ ['t', 'r', 'u', 'e'] →
        (_GetBool XmlNode pszQuery pfValue).2 = false) := by
  have ht : "true".toList.map lowerChar = ['t', 'r', 'u', 'e'] := by decide
  unfold _GetBool
  rw [hsel]
  unfold wcsicmpEq
  rw [ht]
  refine ⟨rfl, ?_, ?_⟩
  · intro h
    exact decide_eq_true h.symm
  · intro h
    exact decide_eq_false (fun h' => h h'.symm)

/-- C14 (amended) at a concrete input: the text `TRUE` is read as true, with `S_OK`. -/
theorem C14_bool_reader_true_or_false_witness :
    _GetBool (probe "TRUE") (.rel ["Value"]) false = (HRESULT.S_OK, true) :=
  have h := C14_bool_reader_true_or_false (probe "TRUE") (.rel ["Value"]) false
    (leaf "Value" "TRUE") rfl
  Prod.ext h.1 (h.2.1 (by decide))

/-- C15 (counterexample): on the texts `abc`, `12abc` and `-1` the reader `_GetUINT32`
answers `S_OK` with the values 0, 12 and 4294967295; it reports no failure. -/
theorem C15_uint32_reader_accepts_any_text :
    _GetUINT32 (probe "abc") (.rel ["Value"]) 7 = (HRESULT.S_OK, 0)
      ∧ _GetUINT32 (probe "12abc") (.rel ["Value"]) 7 = (HRESULT.S_OK, 12)
      ∧ _GetUINT32 (probe "-1") (.rel ["Value"]) 7 = (HRESULT.S_OK, 4294967295)
      ∧ SUCCEEDED HRESULT.S_OK = true := by
  decide

/-- C15 (amended): for every context node and query selecting an existing element,
whatever its text, `_GetUINT32` answers `S_OK` and returns a 32-bit value, the one
`_wtoi` converts the text to: 0 for the non-numeric `abc`, the leading number 12 for
`12abc`, and 4294967295 for the signed `-1`. -/
theorem C15_uint32_reader_never_fails (XmlNode : Node) (pszQuery : XPath) (pulValue : Nat)
    (e : Node) (hsel : selectSingleNode XmlNode pszQuery = some e) :
    (_GetUINT32 XmlNode pszQuery pulValue).1 = HRESULT.S_OK
      ∧ (_GetUINT32 XmlNode pszQuery pulValue).2 = toUINT32 (_wtoi e.text)
      ∧ (_GetUINT32 XmlNode pszQuery pulValue).2 < 2 ^ 32
      ∧ (e.text = "abc" → (_GetUINT32 XmlNode pszQuery pulValue).2 = 0)
      ∧ (e.text = "12abc" → (_GetUINT32 XmlNode pszQuery pulValue).2 = 12)
      ∧ (e.text = "-1" → (_GetUINT32 XmlNode pszQuery pulValue).2 = 4294967295) := by
  unfold _GetUINT32
  rw [hsel]
  refine ⟨rfl, rfl, ?_, ?_, ?_, ?_⟩
  · show toUINT32 (_wtoi e.text) < 2 ^ 32
    unfold toUINT32
    omega
  · intro h
    show toUINT32 (_wtoi e.text) = 0
    rw [h]
    decide
  · intro h
    show toUINT32 (_wtoi e.text) = 12
    rw [h]
    decide
  · intro h
    show toUINT32 (_wtoi e.text) = 4294967295
    rw [h]
    decide

/-- C15 (amended) at a concrete input: the text `12abc` is read as 12, with `S_OK`. -/
theorem C15_uint32_reader_never_fails_witness :
    _GetUINT32 (probe "12abc") (.rel ["Value"]) 0 = (HRESULT.S_OK, 12) :=
  have h := C15_uint32_reader_never_fails (probe "12abc") (.rel ["Value"]) 0
    (leaf "Value" "12abc") rfl
  Prod.ext h.1 (h.2.2.2.2.1 rfl)

/-- C16 (the code departs from the claim): the decimal texts of 3000000000 and of
4294967295 = 2^32 - 1 are both read as 2147483647 = 2^31 - 1, and so is the text of
2^31: `_wtoi` returns an `int` and saturates at `INT_MAX`. -/
theorem C16_uint32_reader_saturates_at_int_max (pulValue : Nat) :
    _GetUINT32 (probe "3000000000") (.rel ["Value"]) pulValue
        = (HRESULT.S_OK, 2147483647)
      ∧ _GetUINT32 (probe "4294967295") (.rel ["Value"]) pulValue
        = (HRESULT.S_OK, 2147483647)
      ∧ _GetUINT32 (probe "2147483648") (.rel ["Value"]) pulValue
        = (HRESULT.S_OK, 2147483647)
      ∧ _GetUINT32 (probe "2147483647") (.rel ["Value"]) pulValue
        = (HRESULT.S_OK, 2147483647) :=
  ⟨rfl, rfl, rfl, rfl⟩

/-! ## WriteBufferContent with the pattern `random` -/

/-- What the last step of `_ParseTarget` returns when it has a defined result: a success
code, a target that differs from the one it got at most in the priority hint, and the
hint is the table entry the `IOPriority` element selects. -/
theorem parseTargetPriority_result (n : Node) (st r : HRESULT × Target)
    (hs : SUCCEEDED st.1 = true) (h : parseTargetPriority n st = some r) :
    SUCCEEDED r.1 = true
      ∧ (r.2 = st.2 ∨ ∃ v, r.2 = st.2.SetIOPriorityHint v)
      ∧ (∀ e, selectSingleNode n (.rel ["IOPriority"]) = some e →
        hint.get? (hintIndex (toUINT32 (_wtoi e.text))) = some r.2.ioPriorityHint) := by
  unfold parseTargetPriority at h
  rw [if_pos hs] at h
  dsimp only at h
  cases hsel : selectSingleNode n (.rel ["IOPriority"]) with
  | none =>
    simp only [_GetUINT32, hsel, present, SUCCEEDED] at h
    simp at h
    rw [← h]
    exact ⟨rfl, Or.inl rfl, fun e he => by cases he⟩
  | some e =>
    simp only [_GetUINT32, hsel, present, SUCCEEDED] at h
    simp at h
    obtain ⟨a, ha1, ha⟩ := h
    rw [← ha]
    refine ⟨rfl, Or.inr ⟨a, rfl⟩, ?_⟩
    intro e' he'
    cases he'
    rw [List.get?_eq_getElem?]
    exact ha1

/-- Without exactly one `RandomDataSource`, or with one that has no `SizeInBytes`,
`_ParseRandomDataSource` answers a success code and stores nothing. -/
theorem parseRandomDataSource_nothing_stored (w : Node) (t : Target)
    (hbad : (∀ r, selectNodes w (.rel ["RandomDataSource"]) ≠ [r])
      ∨ (∃ r, selectNodes w (.rel ["RandomDataSource"]) = [r]
        ∧ selectSingleNode r (.rel ["SizeInBytes"]) = none)) :
    SUCCEEDED (_ParseRandomDataSource w t).1 = true
      ∧ (_ParseRandomDataSource w t).2 = t := by
  unfold _ParseRandomDataSource
  rcases hbad with hnot | ⟨r, hone, hsize⟩
  · split
    · rename_i spNode heq
      exact absurd heq (hnot spNode)
    · exact ⟨rfl, rfl⟩
  · rw [hone]
    simp [_GetUINT64, hsize, present, SUCCEEDED]

/-- With the pattern `random`, `_ParseWriteBufferContent` is `_ParseRandomDataSource` on
the `WriteBufferContent` element. -/
theorem parseWriteBufferContent_random (n : Node) (t : Target) (w pe : Node)
    (hw : selectNodes n (.rel ["WriteBufferContent"]) = [w])
    (hp : selectSingleNode w (.rel ["Pattern"]) = some pe) (hrandom : pe.text = "random") :
    _ParseWriteBufferContent n t = _ParseRandomDataSource w t := by
  have hr : WideCharToMultiByte "random" (MAX_PATH - 1) = "random" := by decide
  unfold _ParseWriteBufferContent
  rw [hw]
  simp only [_GetString, hp, hrandom, hr, present, SUCCEEDED]
  simp

/-- When the `WriteBufferContent` step raises no error, every element read after it
that is present has been stored when `parseTargetTail` returns. -/
theorem parseTargetTail_stores (n : Node) (st : HRESULT × Target)
    (hs : SUCCEEDED st.1 = true)
    (hwb : ∀ t, SUCCEEDED (_ParseWriteBufferContent n t).1 = true) :
    tailFieldsStored n (parseTargetTail n st).2 := by
  unfold tailFieldsStored
  refine ⟨?_, ?_, ?_, ?_, ?_, ?_, ?_, ?_, ?_⟩
  · intro e hsel
    unfold parseTargetTail
    iterate 8
      refine Eq.trans (guarded_keeps (fun t : Target => (t.burstSize, t.useBurstSize)) _
        (keeps_readField _ _ _ ?_) _) ?_
      · intro _ _; rfl
    refine Eq.trans (guarded_readField_proj (fun t : Target => (t.burstSize, t.useBurstSize)) _ _ _ ?_) ?_
    · exact guarded_succeeds _ hwb _ hs
    · rw [present_GetDWORD, hsel]
      simp [_GetDWORD, _GetUINT32, hsel, SUCCEEDED, Target.SetBurstSize, Target.SetUseBurstSize,
        Target.SetThinkTime, Target.SetEnableThinkTime, Target.SetThroughput,
        Target.SetThreadsPerFile, Target.SetFileSize, Target.SetCreateFile,
        Target.SetMaxFileSize, Target.SetWriteRatio, Target.SetUseParallelAsyncIO,
        Target.SetThreadStrideInBytes]
  · intro e hsel
    unfold parseTargetTail
    iterate 7
      refine Eq.trans (guarded_keeps (fun t : Target => (t.thinkTime, t.enableThinkTime)) _
        (keeps_readField _ _ _ ?_) _) ?_
      · intro _ _; rfl
    refine Eq.trans (guarded_readField_proj (fun t : Target => (t.thinkTime, t.enableThinkTime)) _ _ _ ?_) ?_
    · iterate 1
        refine guarded_succeeds _ (succeeds_readField _ _ ?_) _ ?_
        · first
          | exact succeeded_GetUINT32 _ _ _
          | exact succeeded_GetUINT64 _ _ _
          | exact succeeded_GetBool _ _ _
          | exact succeeded_GetDWORD _ _ _
      exact guarded_succeeds _ hwb _ hs
    · rw [present_GetDWORD, hsel]
      simp [_GetDWORD, _GetUINT32, hsel, SUCCEEDED, Target.SetBurstSize, Target.SetUseBurstSize,
        Target.SetThinkTime, Target.SetEnableThinkTime, Target.SetThroughput,
        Target.SetThreadsPerFile, Target.SetFileSize, Target.SetCreateFile,
        Target.SetMaxFileSize, Target.SetWriteRatio, Target.SetUseParallelAsyncIO,
        Target.SetThreadStrideInBytes]
  · intro e hsel
    unfold parseTargetTail
    iterate 6
      refine Eq.trans (guarded_keeps (Target.throughput) _
        (keeps_readField _ _ _ ?_) _) ?_
      · intro _ _; rfl
    refine Eq.trans (guarded_readField_proj (Target.throughput) _ _ _ ?_) ?_
    · iterate 2
        refine guarded_succeeds _ (succeeds_readField _ _ ?_) _ ?_
        · first
          | exact succeeded_GetUINT32 _ _ _
          | exact succeeded_GetUINT64 _ _ _
          | exact succeeded_GetBool _ _ _
          | exact succeeded_GetDWORD _ _ _
      exact guarded_succeeds _ hwb _ hs
    · rw [present_GetDWORD, hsel]
      simp [_GetDWORD, _GetUINT32, hsel, SUCCEEDED, Target.SetBurstSize, Target.SetUseBurstSize,
        Target.SetThinkTime, Target.SetEnableThinkTime, Target.SetThroughput,
        Target.SetThreadsPerFile, Target.SetFileSize, Target.SetCreateFile,
        Target.SetMaxFileSize, Target.SetWriteRatio, Target.SetUseParallelAsyncIO,
        Target.SetThreadStrideInBytes]
  · intro e hsel
    unfold parseTargetTail
    iterate 5
      refine Eq.trans (guarded_keeps (Target.threadsPerFile) _
        (keeps_readField _ _ _ ?_) _) ?_
      · intro _ _; rfl
    refine Eq.trans (guarded_readField_proj (Target.threadsPerFile) _ _ _ ?_) ?_
    · iterate 3
        refine guarded_succeeds _ (succeeds_readField _ _ ?_) _ ?_
        · first
          | exact succeeded_GetUINT32 _ _ _
          | exact succeeded_GetUINT64 _ _ _
          | exact succeeded_GetBool _ _ _
          | exact succeeded_GetDWORD _ _ _
      exact guarded_succeeds _ hwb _ hs
    · rw [present_GetDWORD, hsel]
      simp [_GetDWORD, _GetUINT32, hsel, SUCCEEDED, Target.SetBurstSize, Target.SetUseBurstSize,
        Target.SetThinkTime, Target.SetEnableThinkTime, Target.SetThroughput,
        Target.SetThreadsPerFile, Target.SetFileSize, Target.SetCreateFile,
        Target.SetMaxFileSize, Target.SetWriteRatio, Target.SetUseParallelAsyncIO,
        Target.SetThreadStrideInBytes]
  · intro e hsel
    unfold parseTargetTail
    iterate 4
      refine Eq.trans (guarded_keeps (fun t : Target => (t.fileSize, t.createFile)) _
        (keeps_readField _ _ _ ?_) _) ?_
      · intro _ _; rfl
    refine Eq.trans (guarded_readField_proj (fun t : Target => (t.fileSize, t.createFile)) _ _ _ ?_) ?_
    · iterate 4
        refine guarded_succeeds _ (succeeds_readField _ _ ?_) _ ?_
        · first
          | exact succeeded_GetUINT32 _ _ _
          | exact succeeded_GetUINT64 _ _ _
          | exact succeeded_GetBool _ _ _
          | exact succeeded_GetDWORD _ _ _
      exact guarded_succeeds _ hwb _ hs
    · rw [present_GetUINT64, hsel]
      simp [_GetUINT64, hsel, SUCCEEDED, Target.SetBurstSize, Target.SetUseBurstSize,
        Target.SetThinkTime, Target.SetEnableThinkTime, Target.SetThroughput,
        Target.SetThreadsPerFile, Target.SetFileSize, Target.SetCreateFile,
        Target.SetMaxFileSize, Target.SetWriteRatio, Target.SetUseParallelAsyncIO,
        Target.SetThreadStrideInBytes]
  · intro e hsel
    unfold parseTargetTail
    iterate 3
      refine Eq.trans (guarded_keeps (Target.maxFileSize) _
        (keeps_readField _ _ _ ?_) _) ?_
      · intro _ _; rfl
    refine Eq.trans (guarded_readField_proj (Target.maxFileSize) _ _ _ ?_) ?_
    · iterate 5
        refine guarded_succeeds _ (succeeds_readField _ _ ?_) _ ?_
        · first
          | exact succeeded_GetUINT32 _ _ _
          | exact succeeded_GetUINT64 _ _ _
          | exact succeeded_GetBool _ _ _
          | exact succeeded_GetDWORD _ _ _
      exact guarded_succeeds _ hwb _ hs
    · rw [present_GetUINT64, hsel]
      simp [_GetUINT64, hsel, SUCCEEDED, Target.SetBurstSize, Target.SetUseBurstSize,
        Target.SetThinkTime, Target.SetEnableThinkTime, Target.SetThroughput,
        Target.SetThreadsPerFile, Target.SetFileSize, Target.SetCreateFile,
        Target.SetMaxFileSize, Target.SetWriteRatio, Target.SetUseParallelAsyncIO,
        Target.SetThreadStrideInBytes]
  · intro e hsel
    unfold parseTargetTail
    iterate 2
      refine Eq.trans (guarded_keeps (Target.writeRatio) _
        (keeps_readField _ _ _ ?_) _) ?_
      · intro _ _; rfl
    refine Eq.trans (guarded_readField_proj (Target.writeRatio) _ _ _ ?_) ?_
    · iterate 6
        refine guarded_succeeds _ (succeeds_readField _ _ ?_) _ ?_
        · first
          | exact succeeded_GetUINT32 _ _ _
          | exact succeeded_GetUINT64 _ _ _
          | exact succeeded_GetBool _ _ _
          | exact succeeded_GetDWORD _ _ _
      exact guarded_succeeds _ hwb _ hs
    · rw [present_GetUINT32, hsel]
      simp [_GetUINT32, hsel, SUCCEEDED, Target.SetBurstSize, Target.SetUseBurstSize,
        Target.SetThinkTime, Target.SetEnableThinkTime, Target.SetThroughput,
        Target.SetThreadsPerFile, Target.SetFileSize, Target.SetCreateFile,
        Target.SetMaxFileSize, Target.SetWriteRatio, Target.SetUseParallelAsyncIO,
        Target.SetThreadStrideInBytes]
  · intro e hsel
    unfold parseTargetTail
    iterate 1
      refine Eq.trans (guarded_keeps (Target.useParallelAsyncIO) _
        (keeps_readField _ _ _ ?_) _) ?_
      · intro _ _; rfl
    refine Eq.trans (guarded_readField_proj (Target.useParallelAsyncIO) _ _ _ ?_) ?_
    · iterate 7
        refine guarded_succeeds _ (succeeds_readField _ _ ?_) _ ?_
        · first
          | exact succeeded_GetUINT32 _ _ _
          | exact succeeded_GetUINT64 _ _ _
          | exact succeeded_GetBool _ _ _
          | exact succeeded_GetDWORD _ _ _
      exact guarded_succeeds _ hwb _ hs
    · rw [present_GetBool, hsel]
      simp [_GetBool, hsel, SUCCEEDED, Target.SetBurstSize, Target.SetUseBurstSize,
        Target.SetThinkTime, Target.SetEnableThinkTime, Target.SetThroughput,
        Target.SetThreadsPerFile, Target.SetFileSize, Target.SetCreateFile,
        Target.SetMaxFileSize, Target.SetWriteRatio, Target.SetUseParallelAsyncIO,
        Target.SetThreadStrideInBytes]
  · intro e hsel
    unfold parseTargetTail
    refine Eq.trans (guarded_readField_proj (Target.threadStrideInBytes) _ _ _ ?_) ?_
    · iterate 8
        refine guarded_succeeds _ (succeeds_readField _ _ ?_) _ ?_
        · first
          | exact succeeded_GetUINT32 _ _ _
          | exact succeeded_GetUINT64 _ _ _
          | exact succeeded_GetBool _ _ _
          | exact succeeded_GetDWORD _ _ _
      exact guarded_succeeds _ hwb _ hs
    · rw [present_GetUINT64, hsel]
      simp [_GetUINT64, hsel, SUCCEEDED, Target.SetBurstSize, Target.SetUseBurstSize,
        Target.SetThinkTime, Target.SetEnableThinkTime, Target.SetThroughput,
        Target.SetThreadsPerFile, Target.SetFileSize, Target.SetCreateFile,
        Target.SetMaxFileSize, Target.SetWriteRatio, Target.SetUseParallelAsyncIO,
        Target.SetThreadStrideInBytes]

/-- The steps of `_ParseTarget` before `WriteBufferContent` leave the write-buffer fields
alone. -/
theorem parseTarget_before_buffer_frame (n : Node) (t : Target) :
    (parseTargetAccess n (parseTargetHead n t)).2.zeroWriteBuffers = t.zeroWriteBuffers
      ∧ (parseTargetAccess n (parseTargetHead n t)).2.randomDataWriteBufferSize
        = t.randomDataWriteBufferSize
      ∧ (parseTargetAccess n (parseTargetHead n t)).2.randomDataWriteBufferSourcePath
        = t.randomDataWriteBufferSourcePath := by
  unfold parseTargetAccess parseTargetHead
  refine ⟨?_, ?_, ?_⟩
  · iterate 3
      refine Eq.trans (guarded_keeps Target.zeroWriteBuffers _
        (keeps_readField _ _ _ ?_) _) ?_
      · intro _ v; cases v <;> rfl
    iterate 10
      refine Eq.trans (guarded_keeps Target.zeroWriteBuffers _
        (keeps_readField _ _ _ ?_) _) ?_
      · intro _ _; rfl
    refine keeps_readField Target.zeroWriteBuffers _ _ ?_ t
    intro _ _; rfl
  · iterate 3
      refine Eq.trans (guarded_keeps Target.randomDataWriteBufferSize _
        (keeps_readField _ _ _ ?_) _) ?_
      · intro _ v; cases v <;> rfl
    iterate 10
      refine Eq.trans (guarded_keeps Target.randomDataWriteBufferSize _
        (keeps_readField _ _ _ ?_) _) ?_
      · intro _ _; rfl
    refine keeps_readField Target.randomDataWriteBufferSize _ _ ?_ t
    intro _ _; rfl
  · iterate 3
      refine Eq.trans (guarded_keeps Target.randomDataWriteBufferSourcePath _
        (keeps_readField _ _ _ ?_) _) ?_
      · intro _ v; cases v <;> rfl
    iterate 10
      refine Eq.trans (guarded_keeps Target.randomDataWriteBufferSourcePath _
        (keeps_readField _ _ _ ?_) _) ?_
      · intro _ _; rfl
    refine keeps_readField Target.randomDataWriteBufferSourcePath _ _ ?_ t
    intro _ _; rfl

/-- The steps of `_ParseTarget` after `WriteBufferContent` leave the write-buffer fields
alone. -/
theorem parseTargetTail_buffer_frame (n : Node) (st : HRESULT × Target) :
    (parseTargetTail n st).2.zeroWriteBuffers
        = (guarded (_ParseWriteBufferContent n) st).2.zeroWriteBuffers
      ∧ (parseTargetTail n st).2.randomDataWriteBufferSize
        = (guarded (_ParseWriteBufferContent n) st).2.randomDataWriteBufferSize
      ∧ (parseTargetTail n st).2.randomDataWriteBufferSourcePath
        = (guarded (_ParseWriteBufferContent n) st).2.randomDataWriteBufferSourcePath := by
  unfold parseTargetTail
  refine ⟨?_, ?_, ?_⟩
  · iterate 9
      refine Eq.trans (guarded_keeps Target.zeroWriteBuffers _
        (keeps_readField _ _ _ ?_) _) ?_
      · intro _ _; rfl
    rfl
  · iterate 9
      refine Eq.trans (guarded_keeps Target.randomDataWriteBufferSize _
        (keeps_readField _ _ _ ?_) _) ?_
      · intro _ _; rfl
    rfl
  · iterate 9
      refine Eq.trans (guarded_keeps Target.randomDataWriteBufferSourcePath _
        (keeps_readField _ _ _ ?_) _) ?_
      · intro _ _; rfl
    rfl

/-- With exactly one `RandomDataSource` that has a `SizeInBytes`, the routine
`_ParseRandomDataSource` answers a success code, stores the size, stores the path when
there is a `FilePath`, and leaves `zeroWriteBuffers` alone. -/
theorem parseRandomDataSource_stored (w : Node) (t : Target) (src se : Node)
    (hsrc : selectNodes w (.rel ["RandomDataSource"]) = [src])
    (hsize : selectSingleNode src (.rel ["SizeInBytes"]) = some se) :
    SUCCEEDED (_ParseRandomDataSource w t).1 = true
      ∧ (_ParseRandomDataSource w t).2.randomDataWriteBufferSize
        = toUINT64 (_wtoi64 se.text)
      ∧ (_ParseRandomDataSource w t).2.zeroWriteBuffers = t.zeroWriteBuffers
      ∧ (∀ fe, selectSingleNode src (.rel ["FilePath"]) = some fe →
        (_ParseRandomDataSource w t).2.randomDataWriteBufferSourcePath
          = WideCharToMultiByte fe.text (MAX_PATH - 1))
      ∧ (selectSingleNode src (.rel ["FilePath"]) = none →
        (_ParseRandomDataSource w t).2.randomDataWriteBufferSourcePath
          = t.randomDataWriteBufferSourcePath) := by
  unfold _ParseRandomDataSource
  rw [hsrc]
  cases hpath : selectSingleNode src (.rel ["FilePath"]) with
  | none =>
    simp [_GetUINT64, _GetString, hsize, hpath, present, SUCCEEDED,
      Target.SetRandomDataWriteBufferSize]
  | some fe =>
    simp [_GetUINT64, _GetString, hsize, hpath, present, SUCCEEDED,
      Target.SetRandomDataWriteBufferSize, Target.SetRandomDataWriteBufferSourcePath]

/-- C17 (counterexample): a target whose `WriteBufferContent` asks for `random` with no
`RandomDataSource`, with two of them, or with one that lacks `SizeInBytes`, is parsed
with a success code (`S_FALSE`, the code of the absent `IOPriority`) and an unchanged
target. -/
theorem C17_random_without_source_succeeds :
    _ParseTarget randomWithoutSourceTarget sampleTarget
        = some (HRESULT.S_FALSE, sampleTarget)
      ∧ _ParseTarget randomTwoSourcesTarget sampleTarget
        = some (HRESULT.S_FALSE, sampleTarget)
      ∧ _ParseTarget randomWithoutSizeTarget sampleTarget
        = some (HRESULT.S_FALSE, sampleTarget)
      ∧ SUCCEEDED HRESULT.S_FALSE = true := by
  decide

/-- The code `_ParseRandomDataSource` answers when it stores nothing: `S_OK` without
exactly one `RandomDataSource`, `S_FALSE` when the only one has no `SizeInBytes`. -/
theorem parseRandomDataSource_codes (w : Node) (t : Target) :
    ((∀ r, selectNodes w (.rel ["RandomDataSource"]) ≠ [r]) →
        (_ParseRandomDataSource w t).1 = HRESULT.S_OK)
      ∧ ((∃ r, selectNodes w (.rel ["RandomDataSource"]) = [r]
          ∧ selectSingleNode r (.rel ["SizeInBytes"]) = none) →
        (_ParseRandomDataSource w t).1 = HRESULT.S_FALSE) := by
  constructor
  · intro hnot
    unfold _ParseRandomDataSource
    split
    · rename_i spNode heq
      exact absurd heq (hnot spNode)
    · rfl
  · rintro ⟨r, hone, hsize⟩
    unfold _ParseRandomDataSource
    rw [hone]
    simp [_GetUINT64, hsize, present, SUCCEEDED]

/-- C17 (amended): for every target node whose single `WriteBufferContent` has the
pattern `random` but not exactly one `RandomDataSource` child, or whose single
`RandomDataSource` lacks `SizeInBytes`, the `WriteBufferContent` step answers a success
code, `S_OK` in the first case and `S_FALSE` in the second, and leaves the target as it
was; every result of `_ParseTarget` carries a success code, has the three write-buffer
fields as they were before the call and has the fields read after `WriteBufferContent`
parsed; there is a result whenever the priority is in range. -/
theorem C17_random_without_source_is_no_error (XmlNode : Node) (pTarget : Target)
    (w pe : Node)
    (hw : selectNodes XmlNode (.rel ["WriteBufferContent"]) = [w])
    (hp : selectSingleNode w (.rel ["Pattern"]) = some pe) (hrandom : pe.text = "random")
    (hbad : (∀ r, selectNodes w (.rel ["RandomDataSource"]) ≠ [r])
      ∨ (∃ r, selectNodes w (.rel ["RandomDataSource"]) = [r]
        ∧ selectSingleNode r (.rel ["SizeInBytes"]) = none)) :
    SUCCEEDED (_ParseWriteBufferContent XmlNode pTarget).1 = true
      ∧ ((∀ r, selectNodes w (.rel ["RandomDataSource"]) ≠ [r]) →
        (_ParseWriteBufferContent XmlNode pTarget).1 = HRESULT.S_OK)
      ∧ ((∃ r, selectNodes w (.rel ["RandomDataSource"]) = [r]
          ∧ selectSingleNode r (.rel ["SizeInBytes"]) = none) →
        (_ParseWriteBufferContent XmlNode pTarget).1 = HRESULT.S_FALSE)
      ∧ (_ParseWriteBufferContent XmlNode pTarget).2 = pTarget
      ∧ (∀ r, _ParseTarget XmlNode pTarget = some r →
        SUCCEEDED r.1 = true
          ∧ r.2.zeroWriteBuffers = pTarget.zeroWriteBuffers
          ∧ r.2.randomDataWriteBufferSize = pTarget.randomDataWriteBufferSize
          ∧ r.2.randomDataWriteBufferSourcePath = pTarget.randomDataWriteBufferSourcePath
          ∧ laterFieldsStored XmlNode r.2)
      ∧ (priorityInRange XmlNode → ∃ r, _ParseTarget XmlNode pTarget = some r) := by
  have hwbc : ∀ t, _ParseWriteBufferContent XmlNode t = _ParseRandomDataSource w t :=
    fun t => parseWriteBufferContent_random XmlNode t w pe hw hp hrandom
  have hwb : ∀ t, SUCCEEDED (_ParseWriteBufferContent XmlNode t).1 = true
      ∧ (_ParseWriteBufferContent XmlNode t).2 = t := by
    intro t
    rw [hwbc t]
    exact parseRandomDataSource_nothing_stored w t hbad
  have hs0 : SUCCEEDED (parseTargetAccess XmlNode (parseTargetHead XmlNode pTarget)).1
      = true := parseTargetAccess_succeeded _ _ (parseTargetHead_succeeded _ _)
  have hs : SUCCEEDED (parseTargetTail XmlNode (parseTargetAccess XmlNode
      (parseTargetHead XmlNode pTarget))).1 = true :=
    parseTargetTail_succeeded _ _ hs0 (fun t => (hwb t).1)
  obtain ⟨b1, b2, b3⟩ := parseTarget_before_buffer_frame XmlNode pTarget
  obtain ⟨t1, t2, t3⟩ := parseTargetTail_buffer_frame XmlNode
    (parseTargetAccess XmlNode (parseTargetHead XmlNode pTarget))
  rw [guarded_eq _ _ hs0, (hwb _).2] at t1 t2 t3
  have hstored := parseTargetTail_stores XmlNode
    (parseTargetAccess XmlNode (parseTargetHead XmlNode pTarget)) hs0 (fun t => (hwb t).1)
  refine ⟨(hwb pTarget).1, ?_, ?_, (hwb pTarget).2, ?_, ?_⟩
  · intro hnot
    rw [hwbc pTarget]
    exact (parseRandomDataSource_codes w pTarget).1 hnot
  · intro hone
    rw [hwbc pTarget]
    exact (parseRandomDataSource_codes w pTarget).2 hone
  · intro r hr
    obtain ⟨p1, p2, p3⟩ := parseTargetPriority_result XmlNode _ r hs hr
    have hsame : r.2.zeroWriteBuffers
          = (parseTargetTail XmlNode (parseTargetAccess XmlNode
            (parseTargetHead XmlNode pTarget))).2.zeroWriteBuffers
        ∧ r.2.randomDataWriteBufferSize
          = (parseTargetTail XmlNode (parseTargetAccess XmlNode
            (parseTargetHead XmlNode pTarget))).2.randomDataWriteBufferSize
        ∧ r.2.randomDataWriteBufferSourcePath
          = (parseTargetTail XmlNode (parseTargetAccess XmlNode
            (parseTargetHead XmlNode pTarget))).2.randomDataWriteBufferSourcePath
        ∧ tailFieldsStored XmlNode r.2 := by
      rcases p2 with h | ⟨v, h⟩ <;> rw [h]
      · exact ⟨rfl, rfl, rfl, hstored⟩
      · exact ⟨rfl, rfl, rfl, hstored⟩
    obtain ⟨e1, e2, e3, e4⟩ := hsame
    exact ⟨p1, by rw [e1, t1, b1], by rw [e2, t2, b2], by rw [e3, t3, b3], e4, p3⟩
  · intro hprio
    obtain ⟨r, hr, _⟩ := parseTargetPriority_defined XmlNode
      (parseTargetTail XmlNode (parseTargetAccess XmlNode (parseTargetHead XmlNode pTarget)))
      hprio
    exact ⟨r, hr⟩

/-- C17 (amended) at a concrete input: on `randomWithoutSizeBurstTarget`, whose only
`RandomDataSource` has no `SizeInBytes`, the `WriteBufferContent` step answers
`S_FALSE`, and the target is parsed with a success code, the write-buffer size left at
0 and the later fields (`BurstSize`, `IOPriority`) stored. -/
theorem C17_random_without_source_is_no_error_witness :
    (_ParseWriteBufferContent randomWithoutSizeBurstTarget sampleTarget).1 = HRESULT.S_FALSE
      ∧ ∃ r, _ParseTarget randomWithoutSizeBurstTarget sampleTarget = some r
        ∧ SUCCEEDED r.1 = true
        ∧ r.2.randomDataWriteBufferSize = 0
        ∧ laterFieldsStored randomWithoutSizeBurstTarget r.2 :=
  have h := C17_random_without_source_is_no_error randomWithoutSizeBurstTarget sampleTarget
    (el "WriteBufferContent" [leaf "Pattern" "random",
      el "RandomDataSource" [leaf "FilePath" "/tmp/seed"]])
    (leaf "Pattern" "random") rfl rfl rfl
    (Or.inr ⟨el "RandomDataSource" [leaf "FilePath" "/tmp/seed"], rfl, rfl⟩)
  have hr := h.2.2.2.2.2 (fun e he => by
    have hone : selectSingleNode randomWithoutSizeBurstTarget (.rel ["IOPriority"])
        = some (leaf "IOPriority" "1") := rfl
    rw [hone] at he
    cases he
    decide)
  ⟨h.2.2.1 ⟨el "RandomDataSource" [leaf "FilePath" "/tmp/seed"], rfl, rfl⟩,
    hr.elim (fun r hr =>
      have hx := h.2.2.2.2.1 r hr
      ⟨r, hr, hx.1, hx.2.2.1, hx.2.2.2.2⟩)⟩

/-- For every target node with exactly one `WriteBufferContent` whose pattern is
`random` and exactly one `RandomDataSource` with a `SizeInBytes`, every result of
`_ParseTarget` carries a success code, has `random_data_write_buffer_size` equal to the
value `_GetUINT64` reads from `SizeInBytes`, has `zero_write_buffers` unchanged, has the
source path
equal to the text of `FilePath` when that element is present with at most 259 bytes,
has the source path unchanged when `FilePath` is omitted, and has the fields read after
`WriteBufferContent` parsed; there is a result whenever the priority is in range. -/
theorem parseTarget_random_source_stored (XmlNode : Node) (pTarget : Target)
    (w pe src se : Node)
    (hw : selectNodes XmlNode (.rel ["WriteBufferContent"]) = [w])
    (hp : selectSingleNode w (.rel ["Pattern"]) = some pe) (hrandom : pe.text = "random")
    (hsrc : selectNodes w (.rel ["RandomDataSource"]) = [src])
    (hsize : selectSingleNode src (.rel ["SizeInBytes"]) = some se) :
    (∀ r, _ParseTarget XmlNode pTarget = some r →
        SUCCEEDED r.1 = true
          ∧ r.2.randomDataWriteBufferSize = toUINT64 (_wtoi64 se.text)
          ∧ r.2.zeroWriteBuffers = pTarget.zeroWriteBuffers
          ∧ (∀ fe, selectSingleNode src (.rel ["FilePath"]) = some fe → noNul fe.text →
            utf8Length fe.text.toList ≤ 259 →
            r.2.randomDataWriteBufferSourcePath = fe.text)
          ∧ (selectSingleNode src (.rel ["FilePath"]) = none →
            r.2.randomDataWriteBufferSourcePath = pTarget.randomDataWriteBufferSourcePath)
          ∧ laterFieldsStored XmlNode r.2)
      ∧ (priorityInRange XmlNode → ∃ r, _ParseTarget XmlNode pTarget = some r) := by
  have hwbc : ∀ t, _ParseWriteBufferContent XmlNode t = _ParseRandomDataSource w t :=
    fun t => parseWriteBufferContent_random XmlNode t w pe hw hp hrandom
  have hwb : ∀ t, SUCCEEDED (_ParseWriteBufferContent XmlNode t).1 = true := by
    intro t
    rw [hwbc t]
    exact (parseRandomDataSource_stored w t src se hsrc hsize).1
  have hs0 : SUCCEEDED (parseTargetAccess XmlNode (parseTargetHead XmlNode pTarget)).1
      = true := parseTargetAccess_succeeded _ _ (parseTargetHead_succeeded _ _)
  have hs : SUCCEEDED (parseTargetTail XmlNode (parseTargetAccess XmlNode
      (parseTargetHead XmlNode pTarget))).1 = true :=
    parseTargetTail_succeeded _ _ hs0 hwb
  obtain ⟨b1, b2, b3⟩ := parseTarget_before_buffer_frame XmlNode pTarget
  obtain ⟨t1, t2, t3⟩ := parseTargetTail_buffer_frame XmlNode
    (parseTargetAccess XmlNode (parseTargetHead XmlNode pTarget))
  rw [guarded_eq _ _ hs0, hwbc] at t1 t2 t3
  obtain ⟨_, d2, d3, d4, d5⟩ := parseRandomDataSource_stored w
    (parseTargetAccess XmlNode (parseTargetHead XmlNode pTarget)).2 src se hsrc hsize
  have hstored := parseTargetTail_stores XmlNode
    (parseTargetAccess XmlNode (parseTargetHead XmlNode pTarget)) hs0 hwb
  constructor
  · intro r hr
    obtain ⟨p1, p2, p3⟩ := parseTargetPriority_result XmlNode _ r hs hr
    have hsame : r.2.randomDataWriteBufferSize
          = (parseTargetTail XmlNode (parseTargetAccess XmlNode
            (parseTargetHead XmlNode pTarget))).2.randomDataWriteBufferSize
        ∧ r.2.zeroWriteBuffers
          = (parseTargetTail XmlNode (parseTargetAccess XmlNode
            (parseTargetHead XmlNode pTarget))).2.zeroWriteBuffers
        ∧ r.2.randomDataWriteBufferSourcePath
          = (parseTargetTail XmlNode (parseTargetAccess XmlNode
            (parseTargetHead XmlNode pTarget))).2.randomDataWriteBufferSourcePath
        ∧ tailFieldsStored XmlNode r.2 := by
      rcases p2 with h | ⟨v, h⟩ <;> rw [h]
      · exact ⟨rfl, rfl, rfl, hstored⟩
      · exact ⟨rfl, rfl, rfl, hstored⟩
    obtain ⟨e1, e2, e3, e4⟩ := hsame
    refine ⟨p1, ?_, ?_, ?_, ?_, e4, p3⟩
    · rw [e1, t2, d2]
    · rw [e2, t1, d3, b1]
    · intro fe hfe hnul hlen
      rw [e3, t3, d4 fe hfe]
      exact WideCharToMultiByte_of_fits fe.text (MAX_PATH - 1) hnul hlen
    · intro hnone
      rw [e3, t3, d5 hnone, b3]
  · intro hprio
    obtain ⟨r, hr, _⟩ := parseTargetPriority_defined XmlNode
      (parseTargetTail XmlNode (parseTargetAccess XmlNode (parseTargetHead XmlNode pTarget)))
      hprio
    exact ⟨r, hr⟩

/-- The lemma above at a concrete input: `randomSeedTarget` asks for a random buffer of 4096 bytes
seeded from `/tmp/seed`; both are stored with a success code, `zeroWriteBuffers` stays
false, and the later fields (`BurstSize`, `IOPriority`) are parsed. -/
theorem parseTarget_random_source_stored_example :
    ∃ r, _ParseTarget randomSeedTarget sampleTarget = some r
      ∧ SUCCEEDED r.1 = true
      ∧ r.2.randomDataWriteBufferSize = 4096
      ∧ r.2.randomDataWriteBufferSourcePath = "/tmp/seed"
      ∧ r.2.zeroWriteBuffers = false
      ∧ laterFieldsStored randomSeedTarget r.2 :=
  have h := parseTarget_random_source_stored randomSeedTarget sampleTarget
    (el "WriteBufferContent" [leaf "Pattern" "random",
      el "RandomDataSource" [leaf "SizeInBytes" "4096", leaf "FilePath" "/tmp/seed"]])
    (leaf "Pattern" "random")
    (el "RandomDataSource" [leaf "SizeInBytes" "4096", leaf "FilePath" "/tmp/seed"])
    (leaf "SizeInBytes" "4096") rfl rfl rfl rfl rfl
  have hr := h.2 (fun e he => by
    have hone : selectSingleNode randomSeedTarget (.rel ["IOPriority"])
        = some (leaf "IOPriority" "1") := rfl
    rw [hone] at he
    cases he
    decide)
  hr.elim (fun r hr =>
    have hx := h.1 r hr
    ⟨r, hr, hx.1, hx.2.1.trans (by decide), hx.2.2.2.1 (leaf "FilePath" "/tmp/seed") rfl
      (by unfold noNul; decide) (by decide), hx.2.2.1, hx.2.2.2.2.2⟩)

/-- C18: the size of the random write buffer is not the value of `SizeInBytes` for
every 64-bit unsigned value. On `hugeSizeRandomTarget`, whose `SizeInBytes` reads 2^63,
`_ParseTarget` returns a success code with the source path stored, and the size stored
is 2^63 - 1, for every target it starts from: `_GetUINT64` converts the text with the
signed `_wtoi64`. -/
theorem C18_size_saturates_at_int64_max (t : Target) :
    (_ParseTarget hugeSizeRandomTarget t).map
        (fun r => (SUCCEEDED r.1, r.2.randomDataWriteBufferSize,
          r.2.randomDataWriteBufferSourcePath))
      = some (true, 9223372036854775807, "/tmp/seed")
      ∧ _GetUINT64 (el "RandomDataSource" [leaf "SizeInBytes" "9223372036854775808",
          leaf "FilePath" "/tmp/seed"]) (.rel ["SizeInBytes"]) 0
        = (HRESULT.S_OK, 9223372036854775807)
      ∧ (9223372036854775807 : Nat) ≠ 9223372036854775808 :=
  ⟨rfl, rfl, by decide⟩

/-! ## The empty profile -/

/-- C19: on the document `<Profile/>` the call `ParseFile` succeeds and returns the
profile it was given, whatever that profile is: no setter runs. Started from the
default-constructed profile the result is that profile: `verbose` false, `progress` 0,
`results_format` Text, `precreate_files` None, ETW off with every flag cleared, and no
time span. -/
theorem C19_empty_profile_changes_nothing (newTimeSpan : TimeSpan) (newTarget : Target)
    (pProfile : Profile) :
    ParseFile newTimeSpan newTarget (some emptyProfileDoc) pProfile = some (true, pProfile)
      ∧ ParseFile newTimeSpan newTarget (some emptyProfileDoc) defaultProfile
        = some (true, defaultProfile)
      ∧ defaultProfile.verbose = false ∧ defaultProfile.progress = 0
      ∧ defaultProfile.resultsFormat = ResultsFormat.Text
      ∧ defaultProfile.precreateFiles = PrecreateFiles.None
      ∧ defaultProfile.etw.enabled = false
      ∧ defaultProfile.timeSpans = [] :=
  ⟨rfl, rfl, rfl, rfl, rfl, rfl, rfl, rfl⟩

/-! ## The buffer of `_GetString` -/

set_option maxRecDepth 20000 in
/-- C20 (counterexample): the `Path` of `longPathTarget` is a text of 260 bytes; the
string `_GetString` returns has 259 bytes and is not that text. -/
theorem C20_long_path_is_cut :
    utf8Length longText.toList = 260
      ∧ (_GetString longPathTarget (.rel ["Path"]) "").1 = HRESULT.S_OK
      ∧ utf8Length (_GetString longPathTarget (.rel ["Path"]) "").2.toList = 259
      ∧ (_GetString longPathTarget (.rel ["Path"]) "").2 ≠ longText := by
  decide

/-- C20 (amended): for every context node and query selecting an existing element with a
text `t` free of NUL, `_GetString` answers `S_OK` and returns exactly `t` when the UTF-8
encoding of `t` has at most 259 bytes; what it returns never has more than 259 bytes, so
a longer text, such as a target path of more than 259 bytes, is not returned in full. -/
theorem C20_string_reader_within_buffer (XmlNode : Node) (pszQuery : XPath)
    (psValue : String) (e : Node) (hsel : selectSingleNode XmlNode pszQuery = some e)
    (hnul : noNul e.text) :
    (_GetString XmlNode pszQuery psValue).1 = HRESULT.S_OK
      ∧ (utf8Length e.text.toList ≤ 259 →
        (_GetString XmlNode pszQuery psValue).2 = e.text)
      ∧ utf8Length (_GetString XmlNode pszQuery psValue).2.toList ≤ 259
      ∧ (259 < utf8Length e.text.toList →
        (_GetString XmlNode pszQuery psValue).2 ≠ e.text) := by
  have hlen : utf8Length (_GetString XmlNode pszQuery psValue).2.toList ≤ 259 := by
    unfold _GetString
    rw [hsel]
    exact utf8Length_takeFitting_le _ _
  refine ⟨?_, ?_, hlen, ?_⟩
  · unfold _GetString
    rw [hsel]
  · intro hfit
    unfold _GetString
    rw [hsel]
    exact WideCharToMultiByte_of_fits e.text (MAX_PATH - 1) hnul hfit
  · intro hlong heq
    rw [heq] at hlen
    omega

/-- C20 (amended) at a concrete input: the text `/tmp/seed` is returned as it is. -/
theorem C20_string_reader_within_buffer_witness :
    _GetString (probe "/tmp/seed") (.rel ["Value"]) "" = (HRESULT.S_OK, "/tmp/seed") :=
  have h := C20_string_reader_within_buffer (probe "/tmp/seed") (.rel ["Value"]) ""
    (leaf "Value" "/tmp/seed") rfl (by unfold noNul; decide)
  Prod.ext h.1 (h.2.1 (by decide))

/-! ## ResultFormat and the attribute reader -/

/-- C21 (the code departs from the claim): on `jsonResultFormatDoc`, whose `ResultFormat`
text is `json`, the call `ParseFile` reports success and returns the profile it was given,
so `results_format` keeps the value it had: the step compares the text with `xml` only and
has no branch for any other text. -/
theorem C21_unknown_result_format_is_accepted (newTimeSpan : TimeSpan)
    (newTarget : Target) (pProfile : Profile) :
    (_GetString jsonResultFormatDoc (.abs ["Profile", "ResultFormat"]) "")
        = (HRESULT.S_OK, "json")
      ∧ parseResultFormat jsonResultFormatDoc pProfile = (HRESULT.S_OK, pProfile)
      ∧ ParseFile newTimeSpan newTarget (some jsonResultFormatDoc) pProfile
        = some (true, pProfile) :=
  ⟨by decide, rfl, rfl⟩

/-- C22 (the code departs from the claim): on `groupMissingAssignment`, which has no
`Group` attribute, `_GetUINT32Attr` answers `S_OK`, the code it answers when the attribute
exists, and not `S_FALSE`; the output value is untouched. An assignment without `Group`
and one with `Group="0"` leave the same code and the same entry behind. -/
theorem C22_missing_attribute_reads_as_present (pulValue : Nat)
    (st : HRESULT × TimeSpan) :
    getNamedItem groupMissingAssignment "Group" = none
      ∧ _GetUINT32Attr groupMissingAssignment "Group" pulValue = (HRESULT.S_OK, pulValue)
      ∧ _GetUINT32Attr (groupAssignment "0" "3") "Group" pulValue = (HRESULT.S_OK, 0)
      ∧ affinityGroupAssignmentStep st groupMissingAssignment
        = affinityGroupAssignmentStep st (groupAssignment "0" "3")
      ∧ affinityGroupAssignmentStep st groupMissingAssignment
        = (HRESULT.S_OK, st.2.AddAffinityAssignment 0 3) :=
  ⟨rfl, rfl, rfl, rfl, rfl⟩

/-! ## The loops over legacy assignments and over targets -/

theorem foldl_affinityAssignmentStep_code (nodes : List Node) :
    ∀ st : HRESULT × TimeSpan, st.1 = HRESULT.S_OK →
      (nodes.foldl affinityAssignmentStep st).1 = HRESULT.S_OK := by
  induction nodes with
  | nil => intro st hs; exact hs
  | cons c cs ih => intro st _; exact ih (affinityAssignmentStep st c) rfl

/-- C28: for every TimeSpan node, `_ParseAffinityAssignment` answers `S_OK` whatever the
texts of the legacy `AffinityAssignment` children are, and appends exactly one entry per
child, in document order, with group 0 and the processor `_wtoi(text)` reduced modulo
256; no range check is applied. On `legacyOverflowTimeSpan` the text `300` yields
`(0, 44)` and the non-numeric text `abc` yields `(0, 0)`. -/
theorem C28_legacy_processor_modulo_256 (XmlNode : Node) (pTimeSpan : TimeSpan) :
    (_ParseAffinityAssignment XmlNode pTimeSpan).1 = HRESULT.S_OK
      ∧ (_ParseAffinityAssignment XmlNode pTimeSpan).2.affinity
        = pTimeSpan.affinity
          ++ (selectNodes XmlNode (.rel ["Affinity", "AffinityAssignment"])).map
            (fun c => (0, (_wtoi c.text % 256).toNat))
      ∧ ((_ParseAffinityAssignment XmlNode pTimeSpan).2.affinity.length
        = pTimeSpan.affinity.length
          + (selectNodes XmlNode (.rel ["Affinity", "AffinityAssignment"])).length)
      ∧ _ParseAffinityAssignment legacyOverflowTimeSpan sampleTimeSpan
        = (HRESULT.S_OK, { sampleTimeSpan with affinity := [(0, 44), (0, 0)] }) := by
  have h1 := foldl_affinityAssignmentStep_code
    (selectNodes XmlNode (.rel ["Affinity", "AffinityAssignment"])) (HRESULT.S_OK, pTimeSpan)
    rfl
  have h2 := (foldl_affinityAssignmentStep
    (selectNodes XmlNode (.rel ["Affinity", "AffinityAssignment"])) (HRESULT.S_OK, pTimeSpan)
    rfl).2
  have h3 : (_ParseAffinityAssignment XmlNode pTimeSpan).2.affinity
      = pTimeSpan.affinity
        ++ (selectNodes XmlNode (.rel ["Affinity", "AffinityAssignment"])).map
          (fun c => (0, (_wtoi c.text % 256).toNat)) := h2
  refine ⟨h1, h3, ?_, by decide⟩
  rw [h3, List.length_append, List.length_map]

/-- What the loop of `_ParseTargets` returns when it has a defined result: the code
`S_OK` when it started on it, and the time span it got with one target appended per
node, each the result of `_ParseTarget` on that node from the constructor value. -/
theorem parseTargetsLoop_result (newTarget : Target) :
    ∀ (nodes : List Node) (st r : HRESULT × TimeSpan),
      _ParseTargets.loop newTarget nodes st = some r →
      (st.1 = HRESULT.S_OK → r.1 = HRESULT.S_OK)
        ∧ ∃ added, r.2 = { st.2 with targets := st.2.targets ++ added }
          ∧ List.Forall₂ (fun node t => ∃ hr, _ParseTarget node newTarget = some (hr, t))
            nodes added := by
  intro nodes
  induction nodes with
  | nil =>
    intro st r h
    have h1 : some st = some r := h
    cases h1
    exact ⟨id, [], by simp, List.Forall₂.nil⟩
  | cons spNode rest ih =>
    intro st r h
    have h1 : (match _ParseTarget spNode newTarget with
        | some r1 =>
          _ParseTargets.loop newTarget rest (HRESULT.S_OK, st.2.AddTarget r1.2)
        | none => none) = some r := h
    cases ht : _ParseTarget spNode newTarget with
    | none =>
      rw [ht] at h1
      cases h1
    | some r1 =>
      rw [ht] at h1
      obtain ⟨h2, added, h3, h4⟩ := ih _ _ h1
      refine ⟨fun _ => h2 rfl, r1.2 :: added, ?_, List.Forall₂.cons ⟨r1.1, ht⟩ h4⟩
      rw [h3]
      simp [TimeSpan.AddTarget]

/-- C25: for every TimeSpan node with m `Target` nodes under `Targets`, every result of
`_ParseTargets` carries `S_OK` and is the time span it got with exactly m targets
appended, the i-th being what `_ParseTarget` built from the i-th node in document order
starting from a fresh target; with m = 0 the call returns `S_OK` and the time span
unchanged; and there is a result whenever the targets stay inside the priority table. -/
theorem C25_targets_appended_in_document_order (newTarget : Target) (XmlNode : Node)
    (pTimeSpan : TimeSpan) :
    (∀ r, _ParseTargets newTarget XmlNode pTimeSpan = some r →
        r.1 = HRESULT.S_OK
          ∧ ∃ added, r.2 = { pTimeSpan with targets := pTimeSpan.targets ++ added }
            ∧ added.length = (selectNodes XmlNode (.rel ["Targets", "Target"])).length
            ∧ List.Forall₂
              (fun node t => ∃ hr, _ParseTarget node newTarget = some (hr, t))
              (selectNodes XmlNode (.rel ["Targets", "Target"])) added)
      ∧ (selectNodes XmlNode (.rel ["Targets", "Target"]) = [] →
        _ParseTargets newTarget XmlNode pTimeSpan = some (HRESULT.S_OK, pTimeSpan))
      ∧ ((∀ c ∈ selectNodes XmlNode (.rel ["Targets", "Target"]), priorityInRange c) →
        ∃ r, _ParseTargets newTarget XmlNode pTimeSpan = some r) := by
  refine ⟨?_, ?_, ?_⟩
  · intro r hr
    obtain ⟨h1, added, h2, h3⟩ := parseTargetsLoop_result newTarget _ _ r hr
    exact ⟨h1 rfl, added, h2, h3.length_eq.symm, h3⟩
  · intro hnone
    unfold _ParseTargets
    rw [hnone]
    rfl
  · intro hprio
    exact parseTargetsLoop_defined newTarget _ _ hprio

/-- C25 at a concrete input: `twoTargetsTimeSpan` has two targets; `_ParseTargets`
returns `S_OK` and a time span with two targets. -/
theorem C25_targets_appended_in_document_order_witness :
    ∃ r, _ParseTargets sampleTarget twoTargetsTimeSpan sampleTimeSpan = some r
      ∧ r.1 = HRESULT.S_OK ∧ r.2.targets.length = 2 := by
  have h := C25_targets_appended_in_document_order sampleTarget twoTargetsTimeSpan
    sampleTimeSpan
  obtain ⟨r, hr⟩ := h.2.2 (by
    intro c hc
    have hl : selectNodes twoTargetsTimeSpan (.rel ["Targets", "Target"])
        = [el "Target" [leaf "Path" "a"], el "Target" [leaf "Path" "b"]] := rfl
    rw [hl] at hc
    simp only [List.mem_cons, List.mem_singleton, List.not_mem_nil, or_false] at hc
    rcases hc with rfl | rfl <;> intro e he <;> cases he)
  obtain ⟨h1, added, h2, h3, _⟩ := h.1 r hr
  refine ⟨r, hr, h1, ?_⟩
  rw [h2]
  show (sampleTimeSpan.targets ++ added).length = 2
  rw [List.length_append, h3]
  rfl

/-! ## The cache mode by fixed priority -/

/-- The last step of `_ParseTarget` changes at most the priority hint. -/
theorem parseTargetPriority_frame (n : Node) (st r : HRESULT × Target)
    (h : parseTargetPriority n st = some r) :
    r.2 = st.2 ∨ ∃ v, r.2 = st.2.SetIOPriorityHint v := by
  by_cases hs : SUCCEEDED st.1 = true
  · exact (parseTargetPriority_result n st r hs h).2.1
  · unfold parseTargetPriority at h
    rw [if_neg hs] at h
    cases h
    exact Or.inl rfl

/-- One guarded cache step on a state whose code is a success: the mode becomes that of
the step when its element reads true, and stays what it was otherwise. -/
theorem cache_step (n : Node) (name : String) (mode : TargetCacheMode)
    (st : HRESULT × Target) (hs : SUCCEEDED st.1 = true) :
    SUCCEEDED (guarded (readField (_GetBool n (.rel [name]) false)
        (fun t fBool => if fBool then t.SetCacheMode mode else t)) st).1 = true
      ∧ (guarded (readField (_GetBool n (.rel [name]) false)
        (fun t fBool => if fBool then t.SetCacheMode mode else t)) st).2.cacheMode
        = if cacheElementTrue n name then mode else st.2.cacheMode := by
  refine ⟨guarded_succeeds _ (succeeds_readField _ _ (succeeded_GetBool _ _ _)) _ hs, ?_⟩
  rw [guarded_readField_proj Target.cacheMode _ _ _ hs, present_GetBool]
  unfold cacheElementTrue _GetBool
  cases selectSingleNode n (.rel [name]) with
  | none => simp
  | some e =>
    by_cases hw : wcsicmpEq "true" e.text = true <;> simp [hw, Target.SetCacheMode]

/-- The cache mode `_ParseTarget` leaves before `WriteBufferContent` is the one of the
fixed priority. -/
theorem parseTargetAccess_cacheMode (n : Node) (t : Target) :
    (parseTargetAccess n (parseTargetHead n t)).2.cacheMode
      = cacheModeByPriority n t.cacheMode := by
  have h0 : (parseTargetHead n t).2.cacheMode = t.cacheMode := by
    unfold parseTargetHead
    iterate 9
      refine Eq.trans (guarded_keeps Target.cacheMode _ (keeps_readField _ _ _ ?_) _) ?_
      · intro _ _; rfl
    refine keeps_readField Target.cacheMode _ _ ?_ t
    intro _ _; rfl
  have s0 := parseTargetHead_succeeded n t
  have s1 : SUCCEEDED (guarded (readField (_GetUINT64 n (.rel ["Random"]) 0)
      (fun t ullRandom =>
        (t.SetUseRandomAccessPattern true).SetBlockAlignmentInBytes ullRandom))
      (parseTargetHead n t)).1 = true :=
    guarded_succeeds _ (succeeds_readField _ _ (succeeded_GetUINT64 _ _ _)) _ s0
  have h1 : (guarded (readField (_GetUINT64 n (.rel ["Random"]) 0)
      (fun t ullRandom =>
        (t.SetUseRandomAccessPattern true).SetBlockAlignmentInBytes ullRandom))
      (parseTargetHead n t)).2.cacheMode = t.cacheMode := by
    refine Eq.trans (guarded_keeps Target.cacheMode _ (keeps_readField _ _ _ ?_) _) h0
    intro _ _; rfl
  obtain ⟨s2, h2⟩ := cache_step n "DisableOSCache" TargetCacheMode.DisableOSCache _ s1
  obtain ⟨s3, h3⟩ := cache_step n "DisableAllCache" TargetCacheMode.DisableAllCache _ s2
  obtain ⟨_, h4⟩ := cache_step n "DisableLocalCache" TargetCacheMode.DisableLocalCache _ s3
  unfold parseTargetAccess cacheModeByPriority
  rw [h4, h3, h2, h1]

/-- C26: for every target node and every initial cache mode, every result of
`_ParseTarget` has the cache mode of the fixed priority, whatever the document order:
`DisableLocalCache` if the `DisableLocalCache` element reads true, otherwise
`DisableAllCache` if `DisableAllCache` reads true, otherwise `DisableOSCache` if
`DisableOSCache` reads true, otherwise the initial mode; an element that is absent or
reads false changes nothing. There is a result whenever the priority is in range. -/
theorem C26_cache_mode_by_fixed_priority (XmlNode : Node) (pTarget : Target) :
    (∀ r, _ParseTarget XmlNode pTarget = some r →
        r.2.cacheMode = cacheModeByPriority XmlNode pTarget.cacheMode)
      ∧ (priorityInRange XmlNode → ∃ r, _ParseTarget XmlNode pTarget = some r) := by
  have hacc := parseTargetAccess_cacheMode XmlNode pTarget
  have htail := (parseTargetTail_frame XmlNode
    (parseTargetAccess XmlNode (parseTargetHead XmlNode pTarget))).1
  constructor
  · intro r hr
    rcases parseTargetPriority_frame XmlNode _ r hr with h | ⟨v, h⟩ <;> rw [h]
    · exact htail.trans hacc
    · exact htail.trans hacc
  · intro hprio
    obtain ⟨r, hr, _⟩ := parseTargetPriority_defined XmlNode
      (parseTargetTail XmlNode (parseTargetAccess XmlNode (parseTargetHead XmlNode pTarget)))
      hprio
    exact ⟨r, hr⟩

/-- C26 at a concrete input: in `cacheAllThenOsTarget` the elements `DisableAllCache`
and `DisableOSCache` read true, in that order, and `DisableLocalCache` reads false; the
parsed mode is `DisableAllCache`. -/
theorem C26_cache_mode_by_fixed_priority_witness :
    ∃ r, _ParseTarget cacheAllThenOsTarget sampleTarget = some r
      ∧ r.2.cacheMode = TargetCacheMode.DisableAllCache := by
  have h := C26_cache_mode_by_fixed_priority cacheAllThenOsTarget sampleTarget
  obtain ⟨r, hr⟩ := h.2 (fun e he => by cases he)
  exact ⟨r, hr, (h.1 r hr).trans (by decide)⟩

/-! ## The write ratio -/

theorem getUINT32_lt (n : Node) (q : XPath) : (_GetUINT32 n q 0).2 < 2 ^ 32 := by
  unfold _GetUINT32
  split
  · show toUINT32 _ < 2 ^ 32
    unfold toUINT32
    omega
  · show (0 : Nat) < 2 ^ 32
    omega

theorem guarded_readField_bound {σ α : Type} (π : σ → Nat) (r : HRESULT × α)
    (set : σ → α → σ) (st : HRESULT × σ) (B : Nat)
    (hset : ∀ s, π (set s r.2) < B) (hst : π st.2 < B) :
    π (guarded (readField r set) st).2 < B := by
  by_cases hs : SUCCEEDED st.1 = true
  · rw [guarded_eq _ _ hs]
    show π (if present r.1 = true then set st.2 r.2 else st.2) < B
    split
    · exact hset _
    · exact hst
  · rw [guarded_failed _ _ (by simpa using hs)]
    exact hst

/-- Every result of `_ParseTarget` has a write ratio below 2^32 when the target it
started from has one: the field is either left alone or set to the 32-bit value read
from `WriteRatio`. -/
theorem parseTarget_writeRatio_bound (n : Node) (t : Target) (r : HRESULT × Target)
    (h : _ParseTarget n t = some r) (ht : t.writeRatio < 2 ^ 32) :
    r.2.writeRatio < 2 ^ 32 := by
  have hx : (parseTargetTail n (parseTargetAccess n (parseTargetHead n t))).2.writeRatio
      < 2 ^ 32 := by
    unfold parseTargetTail
    iterate 2
      refine lt_of_eq_of_lt (guarded_keeps Target.writeRatio _
        (keeps_readField _ _ _ ?_) _) ?_
      · intro _ _; rfl
    refine guarded_readField_bound Target.writeRatio _ _ _ _ ?_ ?_
    · intro s
      exact getUINT32_lt _ _
    iterate 6
      refine lt_of_eq_of_lt (guarded_keeps Target.writeRatio _
        (keeps_readField _ _ _ ?_) _) ?_
      · intro _ _; rfl
    refine lt_of_eq_of_lt (guarded_keeps Target.writeRatio _
      (keeps_ParseWriteBufferContent _ _ (fun _ _ => rfl) (fun _ _ => rfl)
        (fun _ _ => rfl)) _) ?_
    unfold parseTargetAccess
    iterate 3
      refine lt_of_eq_of_lt (guarded_keeps Target.writeRatio _
        (keeps_readField _ _ _ ?_) _) ?_
      · intro _ v; cases v <;> rfl
    refine lt_of_eq_of_lt (guarded_keeps Target.writeRatio _
      (keeps_readField _ _ _ ?_) _) ?_
    · intro _ _; rfl
    unfold parseTargetHead
    iterate 9
      refine lt_of_eq_of_lt (guarded_keeps Target.writeRatio _
        (keeps_readField _ _ _ ?_) _) ?_
      · intro _ _; rfl
    refine lt_of_eq_of_lt (keeps_readField Target.writeRatio _ _ ?_ t) ht
    intro _ _; rfl
  rcases parseTargetPriority_frame n _ r h with h1 | ⟨v, h1⟩ <;> rw [h1]
  · exact hx
  · exact hx

theorem forall₂_right_mem {α β : Type} (R : α → β → Prop) :
    ∀ (l : List α) (l' : List β), List.Forall₂ R l l' → ∀ b ∈ l', ∃ a ∈ l, R a b := by
  intro l l' h
  induction h with
  | nil => intro b hb; cases hb
  | cons hab _ ih =>
    intro b hb
    rcases List.mem_cons.mp hb with rfl | hb'
    · exact ⟨_, List.mem_cons_self _ _, hab⟩
    · obtain ⟨a, ha, hr⟩ := ih b hb'
      exact ⟨a, List.mem_cons_of_mem _ ha, hr⟩

theorem foldl_affinityAssignmentStep_targets (nodes : List Node) :
    ∀ st : HRESULT × TimeSpan,
      (nodes.foldl affinityAssignmentStep st).2.targets = st.2.targets := by
  induction nodes with
  | nil => intro st; rfl
  | cons c cs ih => intro st; exact ih (affinityAssignmentStep st c)

theorem foldl_affinityGroupAssignmentStep_targets (nodes : List Node) :
    ∀ st : HRESULT × TimeSpan,
      (nodes.foldl affinityGroupAssignmentStep st).2.targets = st.2.targets := by
  induction nodes with
  | nil => intro st; rfl
  | cons c cs ih =>
    intro st
    refine (ih (affinityGroupAssignmentStep st c)).trans ?_
    unfold affinityGroupAssignmentStep
    dsimp only
    split_ifs <;> rfl

/-- The steps of `_ParseTimeSpan` before the targets leave the target list alone. -/
theorem parseTimeSpanFields_targets (n : Node) (ts : TimeSpan) :
    (parseTimeSpanFields n ts).2.targets = ts.targets := by
  unfold parseTimeSpanFields
  refine Eq.trans (guarded_keeps TimeSpan.targets _ ?_ _) ?_
  · intro s
    exact foldl_affinityGroupAssignmentStep_targets _ _
  refine Eq.trans (guarded_keeps TimeSpan.targets _ ?_ _) ?_
  · intro s
    exact foldl_affinityAssignmentStep_targets _ _
  iterate 9
    refine Eq.trans (guarded_keeps TimeSpan.targets _ (keeps_readField _ _ _ ?_) _) ?_
    · intro _ _; rfl
  refine keeps_readField TimeSpan.targets _ _ ?_ ts
  intro _ _; rfl

theorem parseTimeSpan_writeRatio_bound (newTarget : Target) (n : Node) (ts : TimeSpan)
    (r : HRESULT × TimeSpan) (h : _ParseTimeSpan newTarget n ts = some r)
    (hnt : newTarget.writeRatio < 2 ^ 32)
    (hts : ∀ t ∈ ts.targets, t.writeRatio < 2 ^ 32) :
    ∀ t ∈ r.2.targets, t.writeRatio < 2 ^ 32 := by
  have hf := parseTimeSpanFields_targets n ts
  have h1 : (if SUCCEEDED (parseTimeSpanFields n ts).1 = true then
      _ParseTargets newTarget n (parseTimeSpanFields n ts).2
    else some (parseTimeSpanFields n ts)) = some r := h
  by_cases hs : SUCCEEDED (parseTimeSpanFields n ts).1 = true
  · rw [if_pos hs] at h1
    obtain ⟨_, added, h2, h3⟩ := parseTargetsLoop_result newTarget _ _ r h1
    intro t ht
    rw [h2] at ht
    have ht' : t ∈ (parseTimeSpanFields n ts).2.targets ++ added := ht
    rw [hf] at ht'
    rcases List.mem_append.mp ht' with hold | hnew
    · exact hts t hold
    · obtain ⟨node, _, hr, hp⟩ := forall₂_right_mem _ _ _ h3 t hnew
      exact parseTarget_writeRatio_bound node newTarget (hr, t) hp hnt
  · rw [if_neg hs] at h1
    cases h1
    intro t ht
    rw [hf] at ht
    exact hts t ht

theorem parseTimeSpansLoop_writeRatio_bound (newTimeSpan : TimeSpan) (newTarget : Target)
    (hnt : newTarget.writeRatio < 2 ^ 32)
    (hnts : ∀ t ∈ newTimeSpan.targets, t.writeRatio < 2 ^ 32) :
    ∀ (nodes : List Node) (st r : HRESULT × Profile),
      _ParseTimeSpans.loop newTimeSpan newTarget nodes st = some r →
      (∀ ts ∈ st.2.timeSpans, ∀ t ∈ ts.targets, t.writeRatio < 2 ^ 32) →
      ∀ ts ∈ r.2.timeSpans, ∀ t ∈ ts.targets, t.writeRatio < 2 ^ 32 := by
  intro nodes
  induction nodes with
  | nil =>
    intro st r h hst
    have h1 : some st = some r := h
    cases h1
    exact hst
  | cons spNode rest ih =>
    intro st r h hst
    have h1 : (match _ParseTimeSpan newTarget spNode newTimeSpan with
        | some r1 =>
          _ParseTimeSpans.loop newTimeSpan newTarget rest
            (r1.1, if SUCCEEDED r1.1 then st.2.AddTimeSpan r1.2 else st.2)
        | none => none) = some r := h
    cases hts : _ParseTimeSpan newTarget spNode newTimeSpan with
    | none =>
      rw [hts] at h1
      cases h1
    | some r1 =>
      rw [hts] at h1
      refine ih _ r h1 ?_
      have hb := parseTimeSpan_writeRatio_bound newTarget spNode newTimeSpan r1 hts hnt hnts
      dsimp only
      split
      · intro ts hmem
        have hmem' : ts ∈ st.2.timeSpans ++ [r1.2] := hmem
        rcases List.mem_append.mp hmem' with hold | hnew
        · exact hst ts hold
        · rw [List.mem_singleton] at hnew
          rw [hnew]
          exact hb
      · exact hst

/-- C24 (counterexample): on `highWriteRatioDoc`, whose target has
`<WriteRatio>150</WriteRatio>`, the call `ParseFile` succeeds and the parsed target has
the write ratio 150. -/
theorem C24_write_ratio_above_100_is_accepted :
    (ParseFile sampleTimeSpan sampleTarget (some highWriteRatioDoc) sampleProfile).map
        (fun r => (r.1, r.2.timeSpans.map (fun ts => ts.targets.map Target.writeRatio)))
      = some (true, [[150]])
      ∧ ¬ (150 ≤ 100) := by
  decide

/-- C24 (amended): for every well-formed document on which `ParseFile` succeeds, every
target of every resulting time span has a write ratio below 2^32, provided the targets
the call started from (the constructor values and the time spans already in the
profile) have: the parser stores the 32-bit value it reads from `WriteRatio`, above 100
or not, and enforces no other bound. -/
theorem C24_write_ratio_is_any_32_bit_value (newTimeSpan : TimeSpan) (newTarget : Target)
    (XmlDoc : Node) (pProfile p' : Profile)
    (hnt : newTarget.writeRatio < 2 ^ 32)
    (hnts : ∀ t ∈ newTimeSpan.targets, t.writeRatio < 2 ^ 32)
    (hp : ∀ ts ∈ pProfile.timeSpans, ∀ t ∈ ts.targets, t.writeRatio < 2 ^ 32)
    (h : ParseFile newTimeSpan newTarget (some XmlDoc) pProfile = some (true, p')) :
    ∀ ts ∈ p'.timeSpans, ∀ t ∈ ts.targets, t.writeRatio < 2 ^ 32 := by
  have ft := (parseProfileFields_result XmlDoc pProfile).2.2.2.2.2
  have h1 : (if SUCCEEDED (parseProfileFields XmlDoc pProfile).1 = true then
        (_ParseTimeSpans newTimeSpan newTarget XmlDoc
          (parseProfileFields XmlDoc pProfile).2).map (fun r => (SUCCEEDED r.1, r.2))
      else some (SUCCEEDED (parseProfileFields XmlDoc pProfile).1,
        (parseProfileFields XmlDoc pProfile).2)) = some (true, p') := h
  by_cases hs : SUCCEEDED (parseProfileFields XmlDoc pProfile).1 = true
  · rw [if_pos hs] at h1
    cases hloop : _ParseTimeSpans newTimeSpan newTarget XmlDoc
        (parseProfileFields XmlDoc pProfile).2 with
    | none =>
      rw [hloop] at h1
      cases h1
    | some r =>
      rw [hloop] at h1
      have h2 : (SUCCEEDED r.1, r.2) = (true, p') := Option.some.inj h1
      have h3 : r.2 = p' := congrArg Prod.snd h2
      subst h3
      refine parseTimeSpansLoop_writeRatio_bound newTimeSpan newTarget hnt hnts _ _ r hloop ?_
      show ∀ ts ∈ (parseProfileFields XmlDoc pProfile).2.timeSpans, _
      rw [ft]
      exact hp
  · rw [if_neg hs] at h1
    have h2 : (SUCCEEDED (parseProfileFields XmlDoc pProfile).1,
        (parseProfileFields XmlDoc pProfile).2) = (true, p') := Option.some.inj h1
    exact absurd (congrArg Prod.fst h2) hs

/-- C24 (amended) at a concrete input: the target of `highWriteRatioDoc` is parsed with
a write ratio below 2^32. -/
theorem C24_write_ratio_is_any_32_bit_value_witness :
    sampleTarget.writeRatio < 2 ^ 32
      ∧ ParseFile sampleTimeSpan sampleTarget (some highWriteRatioDoc) sampleProfile
          = some (true, { sampleProfile with timeSpans :=
              [{ sampleTimeSpan with
                  targets := [{ sampleTarget with writeRatio := 150 }] }] })
      ∧ ∀ ts ∈ ({ sampleProfile with timeSpans :=
            [{ sampleTimeSpan with targets := [{ sampleTarget with writeRatio := 150 }] }] }
            : Profile).timeSpans,
          ∀ t ∈ ts.targets, t.writeRatio < 2 ^ 32 :=
  ⟨by decide, by decide,
    C24_write_ratio_is_any_32_bit_value sampleTimeSpan sampleTarget highWriteRatioDoc
      sampleProfile _ (by decide) (by decide) (by decide) (by decide)⟩

/-! ## Readers and routines on two nodes with the same selections -/

theorem sameText_refl (o : Option Node) : sameText o o := by
  cases o <;> simp [sameText]

theorem getBool_congr (n' n : Node) (q : XPath) (v : Bool)
    (h : sameText (selectSingleNode n' q) (selectSingleNode n q)) :
    _GetBool n' q v = _GetBool n q v := by
  unfold _GetBool
  cases h1 : selectSingleNode n' q <;> cases h2 : selectSingleNode n q <;>
    simp only [h1, h2, sameText] at h ⊢
  rw [h]

theorem getUINT32_congr (n' n : Node) (q : XPath) (v : Nat)
    (h : sameText (selectSingleNode n' q) (selectSingleNode n q)) :
    _GetUINT32 n' q v = _GetUINT32 n q v := by
  unfold _GetUINT32
  cases h1 : selectSingleNode n' q <;> cases h2 : selectSingleNode n q <;>
    simp only [h1, h2, sameText] at h ⊢
  rw [h]

theorem getUINT64_congr (n' n : Node) (q : XPath) (v : Nat)
    (h : sameText (selectSingleNode n' q) (selectSingleNode n q)) :
    _GetUINT64 n' q v = _GetUINT64 n q v := by
  unfold _GetUINT64
  cases h1 : selectSingleNode n' q <;> cases h2 : selectSingleNode n q <;>
    simp only [h1, h2, sameText] at h ⊢
  rw [h]

theorem getString_congr (n' n : Node) (q : XPath) (v : String)
    (h : sameText (selectSingleNode n' q) (selectSingleNode n q)) :
    _GetString n' q v = _GetString n q v := by
  unfold _GetString
  cases h1 : selectSingleNode n' q <;> cases h2 : selectSingleNode n q <;>
    simp only [h1, h2, sameText] at h ⊢
  rw [h]

theorem getDWORD_congr (n' n : Node) (q : XPath) (v : Nat)
    (h : sameText (selectSingleNode n' q) (selectSingleNode n q)) :
    _GetDWORD n' q v = _GetDWORD n q v := by
  unfold _GetDWORD
  rw [getUINT32_congr n' n q 0 h]

/-- The routine `_ParseTarget` gives the same on two nodes on which its readers find the
same texts and `_ParseWriteBufferContent` does the same. -/
theorem parseTarget_congr (n' n : Node)
    (hread : ∀ s, s ∈ targetFieldNames →
      sameText (selectSingleNode n' (.rel [s])) (selectSingleNode n (.rel [s])))
    (hwbc : ∀ t, _ParseWriteBufferContent n' t = _ParseWriteBufferContent n t)
    (pTarget : Target) :
    _ParseTarget n' pTarget = _ParseTarget n pTarget := by
  have hB : ∀ s, s ∈ targetFieldNames → ∀ v,
      _GetBool n' (.rel [s]) v = _GetBool n (.rel [s]) v :=
    fun s hs v => getBool_congr _ _ _ _ (hread s hs)
  have hU : ∀ s, s ∈ targetFieldNames → ∀ v,
      _GetUINT32 n' (.rel [s]) v = _GetUINT32 n (.rel [s]) v :=
    fun s hs v => getUINT32_congr _ _ _ _ (hread s hs)
  have hL : ∀ s, s ∈ targetFieldNames → ∀ v,
      _GetUINT64 n' (.rel [s]) v = _GetUINT64 n (.rel [s]) v :=
    fun s hs v => getUINT64_congr _ _ _ _ (hread s hs)
  have hS : ∀ s, s ∈ targetFieldNames → ∀ v,
      _GetString n' (.rel [s]) v = _GetString n (.rel [s]) v :=
    fun s hs v => getString_congr _ _ _ _ (hread s hs)
  have hD : ∀ s, s ∈ targetFieldNames → ∀ v,
      _GetDWORD n' (.rel [s]) v = _GetDWORD n (.rel [s]) v :=
    fun s hs v => getDWORD_congr _ _ _ _ (hread s hs)
  have hW : _ParseWriteBufferContent n' = _ParseWriteBufferContent n := funext hwbc
  unfold _ParseTarget parseTargetPriority parseTargetTail parseTargetAccess parseTargetHead
  rw [hW, hS "Path" (by decide), hD "BlockSize" (by decide), hL "StrideSize" (by decide),
    hB "InterlockedSequential" (by decide), hL "BaseFileOffset" (by decide),
    hB "SequentialScan" (by decide), hB "RandomAccess" (by decide),
    hB "TemporaryFile" (by decide), hB "UseLargePages" (by decide),
    hD "RequestCount" (by decide), hL "Random" (by decide), hB "DisableOSCache" (by decide),
    hB "DisableAllCache" (by decide), hB "DisableLocalCache" (by decide),
    hD "BurstSize" (by decide), hD "ThinkTime" (by decide), hD "Throughput" (by decide),
    hD "ThreadsPerFile" (by decide), hL "FileSize" (by decide), hL "MaxFileSize" (by decide),
    hU "WriteRatio" (by decide), hB "ParallelAsyncIO" (by decide),
    hL "ThreadStride" (by decide), hU "IOPriority" (by decide)]

/-! ## The order of differently named children of a target -/

theorem selectRel_sameNamedOrder (name : String) (attrs : List (String × String))
    (text : String) (cs cs' : List Node) (h : sameNamedOrder cs cs')
    (s : String) (rest : List String) :
    selectRel (s :: rest) (Node.mk name attrs text cs')
      = selectRel (s :: rest) (Node.mk name attrs text cs) := by
  simp only [selectRel, Node.children]
  rw [h.2 s]

/-- Claim C27: for every target node and every permutation of its children that keeps
the relative order of the children of the same name, `_ParseTarget` gives the same
outcome on the permuted node as on the node: the same code and the same target, or
undefined behaviour on both. -/
theorem C27_order_of_other_names_is_irrelevant (name : String)
    (attrs : List (String × String)) (text : String) (cs cs' : List Node)
    (pTarget : Target) (h : sameNamedOrder cs cs') :
    _ParseTarget (Node.mk name attrs text cs') pTarget
      = _ParseTarget (Node.mk name attrs text cs) pTarget := by
  have hsel := selectRel_sameNamedOrder name attrs text cs cs' h
  apply parseTarget_congr
  · intro s _
    have e : selectSingleNode (Node.mk name attrs text cs') (.rel [s])
        = selectSingleNode (Node.mk name attrs text cs) (.rel [s]) :=
      congrArg List.head? (hsel s [])
    rw [e]
    exact sameText_refl _
  · intro t
    have e : selectNodes (Node.mk name attrs text cs') (.rel ["WriteBufferContent"])
        = selectNodes (Node.mk name attrs text cs) (.rel ["WriteBufferContent"]) :=
      hsel "WriteBufferContent" []
    unfold _ParseWriteBufferContent
    rw [e]

/-- Claim C27 on a target whose `StrideSize` is moved in front of its `Random`: the
block alignment is the value of `Random` on both. -/
theorem C27_order_of_other_names_is_irrelevant_witness :
    sameNamedOrder [leaf "Random" "8", leaf "StrideSize" "4"]
        [leaf "StrideSize" "4", leaf "Random" "8"]
      ∧ _ParseTarget randomAfterStrideTarget sampleTarget
          = _ParseTarget strideAfterRandomTarget sampleTarget
      ∧ (_ParseTarget randomAfterStrideTarget sampleTarget).map
          (fun r => (r.1, r.2.blockAlignmentInBytes)) = some (HRESULT.S_FALSE, 8) :=
  have h : sameNamedOrder [leaf "Random" "8", leaf "StrideSize" "4"]
      [leaf "StrideSize" "4", leaf "Random" "8"] := by
    refine ⟨List.Perm.swap _ _ _, ?_⟩
    intro s
    simp only [leaf, List.filter, Node.name]
    by_cases h1 : "StrideSize" = s <;> by_cases h2 : "Random" = s <;> simp [h1, h2]
    exact absurd (h1.trans h2.symm) (by decide)
  ⟨h, C27_order_of_other_names_is_irrelevant "Target" [] "" _ _ sampleTarget h, by decide⟩

/-! ## Documents extended by elements of unknown names -/

theorem extendsList_nil (allow : Bool) (orig : List Node) :
    extendsList allow [] orig ↔ orig = [] := by
  rw [extendsList]

theorem extendsList_cons (allow : Bool) (x : Node) (cs' orig : List Node) :
    extendsList allow (x :: cs') orig ↔
      ((allow = true ∧ allUnknown x = true ∧ extendsList allow cs' orig)
        ∨ (∃ c rest, orig = c :: rest ∧ extendsNode x c ∧ extendsList allow cs' rest)) := by
  rw [extendsList]

theorem extendsNode_fields (x c : Node) (h : extendsNode x c) :
    x.name = c.name ∧ x.attrs = c.attrs
      ∧ (textReadNames.contains x.name = true → x.text = c.text)
      ∧ extendsList (containerNames.contains x.name) x.children c.children := by
  cases x with
  | mk n a t cs =>
    rw [extendsNode] at h
    exact h

theorem allUnknown_name (x : Node) (h : allUnknown x = true) :
    recognizedNames.contains x.name = false := by
  cases x with
  | mk n a t cs =>
    rw [allUnknown] at h
    simp only [Bool.and_eq_true, Bool.not_eq_true'] at h
    exact h.1

theorem extendsNode_mk (n : String) (a : List (String × String)) (t' t : String)
    (cs' cs : List Node) (ht : textReadNames.contains n = true → t' = t)
    (hcs : extendsList (containerNames.contains n) cs' cs) :
    extendsNode (Node.mk n a t' cs') (Node.mk n a t cs) := by
  rw [extendsNode]
  exact ⟨rfl, rfl, ht, hcs⟩

theorem extendsList_nil_nil (allow : Bool) : extendsList allow [] [] :=
  (extendsList_nil allow []).2 rfl

theorem extendsList_add (allow : Bool) (x : Node) (cs' cs : List Node) (ha : allow = true)
    (hx : allUnknown x = true) (h : extendsList allow cs' cs) :
    extendsList allow (x :: cs') cs :=
  (extendsList_cons allow x cs' cs).2 (Or.inl ⟨ha, hx, h⟩)

theorem extendsList_keep (allow : Bool) (x c : Node) (cs' cs : List Node)
    (hx : extendsNode x c) (h : extendsList allow cs' cs) :
    extendsList allow (x :: cs') (c :: cs) :=
  (extendsList_cons allow x cs' (c :: cs)).2 (Or.inr ⟨c, cs, rfl, hx, h⟩)

mutual
/-- Every document extends itself. -/
theorem extendsNode_refl : (n : Node) → extendsNode n n
  | .mk n a t cs => extendsNode_mk n a t t cs cs (fun _ => rfl) (extendsList_refl _ cs)
/-- The same for a list of children. -/
theorem extendsList_refl (allow : Bool) : (cs : List Node) → extendsList allow cs cs
  | [] => extendsList_nil_nil allow
  | c :: cs => extendsList_keep allow c c cs cs (extendsNode_refl c) (extendsList_refl allow cs)
end

/-- The children of a recognised name of an extended element are the extended children
of that name of the element. -/
theorem filter_extendsList (s : String) (hs : recognizedNames.contains s = true)
    (allow : Bool) :
    ∀ (cs' cs : List Node), extendsList allow cs' cs →
      List.Forall₂ (fun x c => extendsNode x c ∧ x.name = s)
        (cs'.filter (fun c => decide (c.name = s)))
        (cs.filter (fun c => decide (c.name = s)))
  | [], cs, h => by
    rw [extendsList_nil] at h
    subst h
    exact List.Forall₂.nil
  | x :: cs', cs, h => by
    rw [extendsList_cons] at h
    rcases h with ⟨_, hu, hr⟩ | ⟨c, rest, rfl, hx, hr⟩
    · have hn : ¬ x.name = s := by
        intro e
        have := allUnknown_name x hu
        rw [e, hs] at this
        exact absurd this (by decide)
      rw [List.filter_cons_of_neg (by simpa using hn)]
      exact filter_extendsList s hs allow cs' cs hr
    · have hname := (extendsNode_fields x c hx).1
      by_cases hn : x.name = s
      · rw [List.filter_cons_of_pos (by simpa using hn),
          List.filter_cons_of_pos (by simpa using hname ▸ hn)]
        exact List.Forall₂.cons ⟨hx, hn⟩ (filter_extendsList s hs allow cs' rest hr)
      · rw [List.filter_cons_of_neg (by simpa using hn),
          List.filter_cons_of_neg (by simpa using hname ▸ hn)]
        exact filter_extendsList s hs allow cs' rest hr

theorem forall₂_append {α β : Type} {R : α → β → Prop} {l1 l2 : List α} {m1 m2 : List β}
    (h1 : List.Forall₂ R l1 m1) (h2 : List.Forall₂ R l2 m2) :
    List.Forall₂ R (l1 ++ l2) (m1 ++ m2) := by
  induction h1 with
  | nil => exact h2
  | cons h _ ih => exact List.Forall₂.cons h ih

theorem forall₂_flatten_map {α β γ δ : Type} {R : α → β → Prop} {S : γ → δ → Prop}
    (f : α → List γ) (g : β → List δ) (hfg : ∀ a b, R a b → List.Forall₂ S (f a) (g b))
    {l : List α} {m : List β} (h : List.Forall₂ R l m) :
    List.Forall₂ S (l.map f).flatten (m.map g).flatten := by
  induction h with
  | nil => exact List.Forall₂.nil
  | cons h _ ih =>
    simp only [List.map_cons, List.flatten_cons]
    exact forall₂_append (hfg _ _ h) ih

theorem flatten_map_singleton {α : Type} (l : List α) :
    (l.map (fun x => [x])).flatten = l := by
  induction l with
  | nil => rfl
  | cons a l ih => simp only [List.map_cons, List.flatten_cons, ih, List.singleton_append]

theorem selectRel_single (s : String) (n : Node) :
    selectRel [s] n = n.children.filter (fun c => decide (c.name = s)) := by
  rw [selectRel]
  exact flatten_map_singleton _

/-- A relative query of recognised names selects, in an extended element, the extended
elements of what it selects in the element. -/
theorem selectRel_extends :
    ∀ (rest : List String) (s l : String) (n' n : Node), extendsNode n' n →
      (∀ x, x ∈ s :: rest → recognizedNames.contains x = true) →
      (s :: rest).getLast? = some l →
      List.Forall₂ (fun x c => extendsNode x c ∧ x.name = l)
        (selectRel (s :: rest) n') (selectRel (s :: rest) n)
  | [], s, l, n', n, h, hrec, hl => by
    rw [selectRel_single, selectRel_single]
    have e : s = l := by simpa using hl
    subst e
    exact filter_extendsList s (hrec s (by simp)) _ _ _ (extendsNode_fields n' n h).2.2.2
  | r :: rest, s, l, n', n, h, hrec, hl => by
    rw [selectRel, selectRel]
    have hf := filter_extendsList s (hrec s (by simp)) _ _ _ (extendsNode_fields n' n h).2.2.2
    refine forall₂_flatten_map _ _ ?_ hf
    intro a b hab
    refine selectRel_extends rest r l a b hab.1 (fun x hx => hrec x (by simp [hx])) ?_
    simpa using hl

mutual
/-- An absolute query whose last step is a recognised name selects nothing in a subtree
of unknown names. -/
theorem selectAbsAux_unknown (s : String) (rrest anc : List String)
    (hs : recognizedNames.contains s = true) :
    (x : Node) → allUnknown x = true → selectAbsAux (s :: rrest) anc x = []
  | .mk n a t cs, hx => by
    have hn := allUnknown_name _ hx
    rw [allUnknown] at hx
    simp only [Bool.and_eq_true, Bool.not_eq_true'] at hx
    rw [selectAbsAux, selectAbsList_unknown s rrest (n :: anc) hs cs hx.2]
    have hne : ¬ n = s := by
      intro e
      rw [Node.name, e, hs] at hn
      exact absurd hn (by decide)
    simp [hne]
/-- The same for a list of subtrees of unknown names. -/
theorem selectAbsList_unknown (s : String) (rrest anc : List String)
    (hs : recognizedNames.contains s = true) :
    (xs : List Node) → allUnknownList xs = true → selectAbsList (s :: rrest) anc xs = []
  | [], _ => by rw [selectAbsList]
  | x :: xs, hx => by
    rw [allUnknownList] at hx
    simp only [Bool.and_eq_true] at hx
    rw [selectAbsList, selectAbsAux_unknown s rrest anc hs x hx.1,
      selectAbsList_unknown s rrest anc hs xs hx.2]
    rfl
end

mutual
/-- An absolute query whose last step is a recognised name selects, in an extended
document, the extended elements of what it selects in the document. -/
theorem selectAbsAux_extends (s : String) (rrest anc : List String)
    (hs : recognizedNames.contains s = true) :
    (n' n : Node) → extendsNode n' n →
      List.Forall₂ (fun x c => extendsNode x c ∧ x.name = s)
        (selectAbsAux (s :: rrest) anc n') (selectAbsAux (s :: rrest) anc n)
  | .mk nm' a' t' cs', .mk nm a t cs, h => by
    have hf := extendsNode_fields _ _ h
    simp only [Node.name, Node.children] at hf
    obtain ⟨hname, _, _, hcs⟩ := hf
    subst hname
    rw [selectAbsAux, selectAbsAux]
    refine forall₂_append ?_ (selectAbsList_extends s rrest (nm' :: anc) hs _ cs' cs hcs)
    by_cases hc : (nm' :: anc).take (s :: rrest).length = s :: rrest
    · rw [if_pos hc, if_pos hc]
      refine List.Forall₂.cons ⟨h, ?_⟩ List.Forall₂.nil
      simp only [List.length_cons, List.take_succ_cons, List.cons.injEq] at hc
      exact hc.1
    · rw [if_neg hc, if_neg hc]
      exact List.Forall₂.nil
/-- The same for a list of children. -/
theorem selectAbsList_extends (s : String) (rrest anc : List String)
    (hs : recognizedNames.contains s = true) (allow : Bool) :
    (cs' cs : List Node) → extendsList allow cs' cs →
      List.Forall₂ (fun x c => extendsNode x c ∧ x.name = s)
        (selectAbsList (s :: rrest) anc cs') (selectAbsList (s :: rrest) anc cs)
  | [], cs, h => by
    rw [extendsList_nil] at h
    subst h
    rw [selectAbsList]
    exact List.Forall₂.nil
  | x :: cs', cs, h => by
    rw [extendsList_cons] at h
    rcases h with ⟨_, hu, hr⟩ | ⟨c, rest, rfl, hx, hr⟩
    · rw [selectAbsList, selectAbsAux_unknown s rrest anc hs x hu]
      exact selectAbsList_extends s rrest anc hs allow cs' cs hr
    · rw [selectAbsList, selectAbsList]
      exact forall₂_append (selectAbsAux_extends s rrest anc hs x c hx)
        (selectAbsList_extends s rrest anc hs allow cs' rest hr)
end


theorem sameText_head (s : String) (hc : textReadNames.contains s = true)
    {l' l : List Node}
    (h : List.Forall₂ (fun x c => extendsNode x c ∧ x.name = s) l' l) :
    sameText l'.head? l.head? := by
  cases h with
  | nil => trivial
  | cons hx _ =>
    show _ = _
    refine (extendsNode_fields _ _ hx.1).2.2.1 ?_
    rw [hx.2]
    exact hc

theorem sameText_rel (n' n : Node) (h : extendsNode n' n) (s : String)
    (hk : (recognizedNames.contains s && textReadNames.contains s) = true) :
    sameText (selectSingleNode n' (.rel [s])) (selectSingleNode n (.rel [s])) := by
  simp only [Bool.and_eq_true] at hk
  refine sameText_head s hk.2 (selectRel_extends [] s s n' n h ?_ rfl)
  intro x hx
  rw [List.mem_singleton] at hx
  rw [hx]
  exact hk.1

theorem sameText_abs (D' D : Node) (h : extendsNode D' D) (steps : List String)
    (hk : steps.reverse.head?.map
        (fun s => recognizedNames.contains s && textReadNames.contains s) = some true) :
    sameText (selectSingleNode D' (.abs steps)) (selectSingleNode D (.abs steps)) := by
  show sameText (selectAbsAux steps.reverse [] D').head? (selectAbsAux steps.reverse [] D).head?
  cases hr : steps.reverse with
  | nil =>
    rw [hr] at hk
    cases hk
  | cons s rrest =>
    rw [hr] at hk
    simp only [List.head?_cons, Option.map_some', Option.some.injEq, Bool.and_eq_true] at hk
    exact sameText_head s hk.2 (selectAbsAux_extends s rrest [] hk.1 D' D h)

/-! ## The routines on an extended document -/

theorem parseRandomDataSource_extends (w' w : Node) (h : extendsNode w' w)
    (pTarget : Target) :
    _ParseRandomDataSource w' pTarget = _ParseRandomDataSource w pTarget := by
  have hF : List.Forall₂ (fun x c => extendsNode x c ∧ x.name = "RandomDataSource")
      (selectNodes w' (.rel ["RandomDataSource"]))
      (selectNodes w (.rel ["RandomDataSource"])) :=
    selectRel_extends [] "RandomDataSource" "RandomDataSource" w' w h (by decide) rfl
  unfold _ParseRandomDataSource
  generalize selectNodes w' (.rel ["RandomDataSource"]) = l' at hF
  generalize selectNodes w (.rel ["RandomDataSource"]) = l at hF
  cases hF with
  | nil => rfl
  | cons hx ht =>
    cases ht with
    | nil =>
      simp only []
      rw [getUINT64_congr _ _ _ _ (sameText_rel _ _ hx.1 "SizeInBytes" (by decide)),
        getString_congr _ _ _ _ (sameText_rel _ _ hx.1 "FilePath" (by decide))]
    | cons _ _ => rfl

theorem parseWriteBufferContent_extends (n' n : Node) (h : extendsNode n' n)
    (pTarget : Target) :
    _ParseWriteBufferContent n' pTarget = _ParseWriteBufferContent n pTarget := by
  have hF : List.Forall₂ (fun x c => extendsNode x c ∧ x.name = "WriteBufferContent")
      (selectNodes n' (.rel ["WriteBufferContent"]))
      (selectNodes n (.rel ["WriteBufferContent"])) :=
    selectRel_extends [] "WriteBufferContent" "WriteBufferContent" n' n h (by decide) rfl
  unfold _ParseWriteBufferContent
  generalize selectNodes n' (.rel ["WriteBufferContent"]) = l' at hF
  generalize selectNodes n (.rel ["WriteBufferContent"]) = l at hF
  cases hF with
  | nil => rfl
  | cons hx ht =>
    cases ht with
    | nil =>
      simp only []
      rw [getString_congr _ _ _ _ (sameText_rel _ _ hx.1 "Pattern" (by decide)),
        parseRandomDataSource_extends _ _ hx.1]
    | cons _ _ => rfl

theorem parseTarget_extends (n' n : Node) (h : extendsNode n' n) (pTarget : Target) :
    _ParseTarget n' pTarget = _ParseTarget n pTarget := by
  have hk : ∀ s, s ∈ targetFieldNames →
      (recognizedNames.contains s && textReadNames.contains s) = true := by decide
  exact parseTarget_congr n' n (fun s hs => sameText_rel n' n h s (hk s hs))
    (parseWriteBufferContent_extends n' n h) pTarget

theorem parseTargetsLoop_extends (newTarget : Target) {l' l : List Node}
    (h : List.Forall₂ (fun x c => extendsNode x c ∧ x.name = "Target") l' l) :
    ∀ st, _ParseTargets.loop newTarget l' st = _ParseTargets.loop newTarget l st := by
  induction h with
  | nil => intro st; rfl
  | @cons a b l1 l2 hx _ ih =>
    intro st
    show (match _ParseTarget a newTarget with
        | some r => _ParseTargets.loop newTarget l1 (HRESULT.S_OK, st.2.AddTarget r.2)
        | none => none)
      = (match _ParseTarget b newTarget with
        | some r => _ParseTargets.loop newTarget l2 (HRESULT.S_OK, st.2.AddTarget r.2)
        | none => none)
    rw [parseTarget_extends _ _ hx.1]
    cases _ParseTarget b newTarget with
    | none => rfl
    | some r => exact ih _

theorem foldl_forall₂ {α β : Type} {R : α → α → Prop} (step : β → α → β)
    (hstep : ∀ st a b, R a b → step st a = step st b) {l' l : List α}
    (h : List.Forall₂ R l' l) : ∀ st, l'.foldl step st = l.foldl step st := by
  induction h with
  | nil => intro st; rfl
  | cons hx _ ih =>
    intro st
    rw [List.foldl_cons, List.foldl_cons, hstep st _ _ hx]
    exact ih _

theorem parseAffinityAssignment_extends (n' n : Node) (h : extendsNode n' n)
    (pTimeSpan : TimeSpan) :
    _ParseAffinityAssignment n' pTimeSpan = _ParseAffinityAssignment n pTimeSpan := by
  have hF : List.Forall₂ (fun x c => extendsNode x c ∧ x.name = "AffinityAssignment")
      (selectNodes n' (.rel ["Affinity", "AffinityAssignment"]))
      (selectNodes n (.rel ["Affinity", "AffinityAssignment"])) :=
    selectRel_extends ["AffinityAssignment"] "Affinity" "AffinityAssignment" n' n h
      (by decide) rfl
  refine foldl_forall₂ affinityAssignmentStep ?_ hF _
  intro st a b hab
  have ht : a.text = b.text := by
    refine (extendsNode_fields _ _ hab.1).2.2.1 ?_
    rw [hab.2]
    decide
  unfold affinityAssignmentStep
  rw [ht]

theorem getUINT32Attr_attrs (x c : Node) (h : x.attrs = c.attrs) (attr : String) (v : Nat) :
    _GetUINT32Attr x attr v = _GetUINT32Attr c attr v := by
  unfold _GetUINT32Attr getNamedItem
  rw [h]

theorem parseAffinityGroupAssignment_extends (n' n : Node) (h : extendsNode n' n)
    (pTimeSpan : TimeSpan) :
    _ParseAffinityGroupAssignment n' pTimeSpan = _ParseAffinityGroupAssignment n pTimeSpan := by
  have hF : List.Forall₂ (fun x c => extendsNode x c ∧ x.name = "AffinityGroupAssignment")
      (selectNodes n' (.rel ["Affinity", "AffinityGroupAssignment"]))
      (selectNodes n (.rel ["Affinity", "AffinityGroupAssignment"])) :=
    selectRel_extends ["AffinityGroupAssignment"] "Affinity" "AffinityGroupAssignment" n' n h
      (by decide) rfl
  refine foldl_forall₂ affinityGroupAssignmentStep ?_ hF _
  intro st a b hab
  have ha := (extendsNode_fields _ _ hab.1).2.1
  unfold affinityGroupAssignmentStep
  rw [getUINT32Attr_attrs a b ha "Group", getUINT32Attr_attrs a b ha "Processor"]

theorem parseTimeSpanFields_extends (n' n : Node) (h : extendsNode n' n)
    (pTimeSpan : TimeSpan) :
    parseTimeSpanFields n' pTimeSpan = parseTimeSpanFields n pTimeSpan := by
  have hk : ∀ s, s ∈ timeSpanFieldNames →
      (recognizedNames.contains s && textReadNames.contains s) = true := by decide
  have hB : ∀ s, s ∈ timeSpanFieldNames → ∀ v,
      _GetBool n' (.rel [s]) v = _GetBool n (.rel [s]) v :=
    fun s hs v => getBool_congr _ _ _ _ (sameText_rel n' n h s (hk s hs))
  have hU : ∀ s, s ∈ timeSpanFieldNames → ∀ v,
      _GetUINT32 n' (.rel [s]) v = _GetUINT32 n (.rel [s]) v :=
    fun s hs v => getUINT32_congr _ _ _ _ (sameText_rel n' n h s (hk s hs))
  have hA : _ParseAffinityAssignment n' = _ParseAffinityAssignment n :=
    funext (parseAffinityAssignment_extends n' n h)
  have hG : _ParseAffinityGroupAssignment n' = _ParseAffinityGroupAssignment n :=
    funext (parseAffinityGroupAssignment_extends n' n h)
  unfold parseTimeSpanFields
  rw [hA, hG, hU "Duration" (by decide), hU "Warmup" (by decide), hU "Cooldown" (by decide),
    hU "RandSeed" (by decide), hU "ThreadCount" (by decide),
    hB "DisableAffinity" (by decide), hB "CompletionRoutines" (by decide),
    hB "MeasureLatency" (by decide), hB "CalculateIopsStdDev" (by decide),
    hU "IoBucketDuration" (by decide)]

theorem parseTimeSpan_extends (newTarget : Target) (n' n : Node) (h : extendsNode n' n)
    (pTimeSpan : TimeSpan) :
    _ParseTimeSpan newTarget n' pTimeSpan = _ParseTimeSpan newTarget n pTimeSpan := by
  have hF : List.Forall₂ (fun x c => extendsNode x c ∧ x.name = "Target")
      (selectNodes n' (.rel ["Targets", "Target"]))
      (selectNodes n (.rel ["Targets", "Target"])) :=
    selectRel_extends ["Target"] "Targets" "Target" n' n h (by decide) rfl
  unfold _ParseTimeSpan _ParseTargets
  rw [parseTimeSpanFields_extends n' n h]
  simp only [parseTargetsLoop_extends newTarget hF]

theorem parseTimeSpansLoop_extends (newTimeSpan : TimeSpan) (newTarget : Target)
    {l' l : List Node}
    (h : List.Forall₂ (fun x c => extendsNode x c ∧ x.name = "TimeSpan") l' l) :
    ∀ st, _ParseTimeSpans.loop newTimeSpan newTarget l' st
      = _ParseTimeSpans.loop newTimeSpan newTarget l st := by
  induction h with
  | nil => intro st; rfl
  | @cons a b l1 l2 hx _ ih =>
    intro st
    show (match _ParseTimeSpan newTarget a newTimeSpan with
        | some r =>
          _ParseTimeSpans.loop newTimeSpan newTarget l1
            (r.1, if SUCCEEDED r.1 then st.2.AddTimeSpan r.2 else st.2)
        | none => none)
      = (match _ParseTimeSpan newTarget b newTimeSpan with
        | some r =>
          _ParseTimeSpans.loop newTimeSpan newTarget l2
            (r.1, if SUCCEEDED r.1 then st.2.AddTimeSpan r.2 else st.2)
        | none => none)
    rw [parseTimeSpan_extends _ _ _ hx.1]
    cases _ParseTimeSpan newTarget b newTimeSpan with
    | none => rfl
    | some r => exact ih _

theorem parseEtw_extends (D' D : Node) (h : extendsNode D' D) (pProfile : Profile) :
    _ParseEtw D' pProfile = _ParseEtw D pProfile := by
  have hB : ∀ steps, steps.reverse.head?.map
        (fun s => recognizedNames.contains s && textReadNames.contains s) = some true →
      ∀ v, _GetBool D' (.abs steps) v = _GetBool D (.abs steps) v :=
    fun steps hk v => getBool_congr _ _ _ _ (sameText_abs D' D h steps hk)
  unfold _ParseEtw
  rw [hB ["Profile", "ETW", "Process"] (by decide), hB ["Profile", "ETW", "Thread"] (by decide),
    hB ["Profile", "ETW", "ImageLoad"] (by decide), hB ["Profile", "ETW", "DiskIO"] (by decide),
    hB ["Profile", "ETW", "MemoryPageFaults"] (by decide),
    hB ["Profile", "ETW", "MemoryHardFaults"] (by decide),
    hB ["Profile", "ETW", "Network"] (by decide), hB ["Profile", "ETW", "Registry"] (by decide),
    hB ["Profile", "ETW", "UsePagedMemory"] (by decide),
    hB ["Profile", "ETW", "UsePerfTimer"] (by decide),
    hB ["Profile", "ETW", "UseSystemTimer"] (by decide),
    hB ["Profile", "ETW", "UseCyclesCounter"] (by decide)]

theorem parseProfileFields_extends (D' D : Node) (h : extendsNode D' D) (pProfile : Profile) :
    parseProfileFields D' pProfile = parseProfileFields D pProfile := by
  have hV : ∀ v, _GetVerbose D' v = _GetVerbose D v :=
    fun v => getBool_congr _ _ _ _ (sameText_abs D' D h _ (by decide))
  have hP : ∀ v, _GetProgress D' v = _GetProgress D v :=
    fun v => getDWORD_congr _ _ _ _ (sameText_abs D' D h _ (by decide))
  have hR : parseResultFormat D' = parseResultFormat D := by
    funext p
    unfold parseResultFormat
    rw [getString_congr _ _ _ _ (sameText_abs D' D h ["Profile", "ResultFormat"] (by decide))]
  have hC : parsePrecreateFiles D' = parsePrecreateFiles D := by
    funext p
    unfold parsePrecreateFiles
    rw [getString_congr _ _ _ _ (sameText_abs D' D h ["Profile", "PrecreateFiles"] (by decide))]
  have hE : _ParseEtw D' = _ParseEtw D := funext (parseEtw_extends D' D h)
  unfold parseProfileFields
  rw [hV, hP, hR, hC, hE]

/-! ## Unknown elements -/

/-- Claim C23 fails for an added element of an unknown name that holds elements of
known names: `nestedProfileDoc` is `emptyProfileDoc` with the one element `Comment`
added under `Profile`, the parse of `emptyProfileDoc` leaves the profile as it was, and
the parse of `nestedProfileDoc` sets `verbose`, because the query `//Profile/Verbose`
matches at any depth. -/
theorem C23_content_of_unknown_element_is_read :
    nestedProfileDoc
        = Node.mk "Profile" [] "" (el "Comment" [el "Profile" [leaf "Verbose" "true"]]
            :: emptyProfileDoc.children)
      ∧ recognizedNames.contains "Comment" = false
      ∧ containerNames.contains "Profile" = true
      ∧ selectNodes nestedProfileDoc (.abs ["Profile", "Verbose"]) = [leaf "Verbose" "true"]
      ∧ ParseFile sampleTimeSpan sampleTarget (some emptyProfileDoc) defaultProfile
          = some (true, defaultProfile)
      ∧ ParseFile sampleTimeSpan sampleTarget (some nestedProfileDoc) defaultProfile
          = some (true, { defaultProfile with verbose := true })
      ∧ defaultProfile.verbose = false :=
  ⟨rfl, by decide, by decide, rfl, rfl, rfl, rfl⟩

/-- Text added below an element whose text the parser reads is read with it:
`flagHoldingEtwExtendedDoc` is `flagHoldingEtwDoc` with `<Foo>x</Foo>` added under
`ETW`, which lies inside `Verbose`; the text of `Verbose` becomes `truex`, so from the
same profile the first parse ends with `verbose` true and the second one with `verbose`
false. The relation `extendsNode` does not hold between the two documents. -/
theorem text_added_below_read_element_is_read :
    ParseFile sampleTimeSpan sampleTarget (some flagHoldingEtwDoc) defaultProfile
        = some (true, { defaultProfile with verbose := true })
      ∧ ParseFile sampleTimeSpan sampleTarget (some flagHoldingEtwExtendedDoc)
          defaultProfile
        = some (true, defaultProfile)
      ∧ defaultProfile.verbose = false
      ∧ ¬ extendsNode flagHoldingEtwExtendedDoc flagHoldingEtwDoc := by
  refine ⟨rfl, rfl, rfl, ?_⟩
  intro h
  have h1 : extendsList (containerNames.contains "Profile")
      [Node.mk "Verbose" [] "truex" [Node.mk "ETW" [] "x" [leaf "Foo" "x"]]]
      [Node.mk "Verbose" [] "true" [el "ETW" []]] := (extendsNode_fields _ _ h).2.2.2
  rcases (extendsList_cons _ _ _ _).1 h1 with ⟨_, hu, _⟩ | ⟨c, rest, hc, hx, _⟩
  · exact absurd hu (by decide)
  · cases hc
    have ht : "truex" = "true" := (extendsNode_fields _ _ hx).2.2.1 (by decide)
    exact absurd ht (by decide)

/-- Claim C23, amended: when the document D' is the document D with subtrees added as
further children of `Profile`, `ETW`, `TimeSpan`, `Affinity`, `Targets` or `Target`
elements, no element of an added subtree bears a name the parser recognises, and every
element of D bearing a name whose text the parser reads has in D' the text it has in D
(the text of any other element may change), `ParseFile` gives on D' what it gives on D:
the same boolean and the same profile, or undefined behaviour on both. -/
theorem C23_unknown_subtrees_are_ignored (newTimeSpan : TimeSpan) (newTarget : Target)
    (D' D : Node) (pProfile : Profile) (h : extendsNode D' D) :
    ParseFile newTimeSpan newTarget (some D') pProfile
      = ParseFile newTimeSpan newTarget (some D) pProfile := by
  have hF : List.Forall₂ (fun x c => extendsNode x c ∧ x.name = "TimeSpan")
      (selectNodes D' (.abs ["Profile", "TimeSpans", "TimeSpan"]))
      (selectNodes D (.abs ["Profile", "TimeSpans", "TimeSpan"])) :=
    selectAbsAux_extends "TimeSpan" ["TimeSpans", "Profile"] [] (by decide) D' D h
  unfold ParseFile _ParseTimeSpans
  simp only [parseProfileFields_extends D' D h,
    parseTimeSpansLoop_extends newTimeSpan newTarget hF]

/-- Claim C23, amended, on `plainDoc` and `extendedDoc`: the parse of the extended document gives
the result of the parse of the plain one, a success with one time span of one target. -/
theorem C23_unknown_subtrees_are_ignored_witness :
    extendsNode extendedDoc plainDoc
      ∧ ParseFile sampleTimeSpan sampleTarget (some extendedDoc) sampleProfile
          = ParseFile sampleTimeSpan sampleTarget (some plainDoc) sampleProfile
      ∧ (ParseFile sampleTimeSpan sampleTarget (some extendedDoc) sampleProfile).map
          (fun r => (r.1, r.2.verbose, r.2.etw.diskIO,
            r.2.timeSpans.map (fun ts => (ts.duration, ts.affinity,
              ts.targets.map (fun t => (t.path, t.writeRatio))))))
          = some (true, true, true, [(3, [(0, 1)], [("x", 50)])]) :=
  have h : extendsNode extendedDoc plainDoc := by
    apply extendsNode_mk _ _ _ _ _ _ (fun _ => rfl)
    apply extendsList_add _ _ _ _ (by decide) (by decide)
    apply extendsList_keep _ _ _ _ _ (extendsNode_refl _)
    apply extendsList_keep
    · apply extendsNode_mk _ _ _ _ _ _ (fun _ => rfl)
      apply extendsList_keep _ _ _ _ _ (extendsNode_refl _)
      apply extendsList_add _ _ _ _ (by decide) (by decide)
      exact extendsList_nil_nil _
    apply extendsList_keep _ _ _ _ _ ?_ (extendsList_nil_nil _)
    apply extendsNode_mk _ _ _ _ _ _ (fun _ => rfl)
    apply extendsList_keep _ _ _ _ _ ?_ (extendsList_nil_nil _)
    apply extendsNode_mk _ _ _ _ _ _ (fun _ => rfl)
    apply extendsList_add _ _ _ _ (by decide) (by decide)
    apply extendsList_keep _ _ _ _ _ (extendsNode_refl _)
    apply extendsList_keep
    · apply extendsNode_mk _ _ _ _ _ _ (fun _ => rfl)
      apply extendsList_add _ _ _ _ (by decide) (by decide)
      exact extendsList_keep _ _ _ _ _ (extendsNode_refl _) (extendsList_nil_nil _)
    apply extendsList_keep _ _ _ _ _ ?_ (extendsList_nil_nil _)
    apply extendsNode_mk _ _ _ _ _ _ (fun _ => rfl)
    apply extendsList_keep
    · apply extendsNode_mk _ _ _ _ _ _ (fun _ => rfl)
      apply extendsList_keep _ _ _ _ _ (extendsNode_refl _)
      apply extendsList_add _ _ _ _ (by decide) (by decide)
      exact extendsList_keep _ _ _ _ _ (extendsNode_refl _) (extendsList_nil_nil _)
    apply extendsList_add _ _ _ _ (by decide) (by decide)
    exact extendsList_nil_nil _
  ⟨h, C23_unknown_subtrees_are_ignored sampleTimeSpan sampleTarget extendedDoc plainDoc
    sampleProfile h, rfl⟩

end XmlProfileParser
